import Mathlib

/-!
# Solar Position Algorithm (go-spa): a shallow embedding

The Go package `spa` (files `Spa.go`, `enums.go`) is embedded function by function.

Modelling conventions

* `float64` values are modelled by rational numbers with exact arithmetic: rounding,
  infinities and NaN are outside the model.  `math.Floor` is the integer floor, `math.Abs`
  the absolute value, `math.Pow` with a small natural exponent the exact power, and the
  conversion `int(x)` truncates toward zero.
* Where rounding decides the result (the upper ends of the reductions to [0, 360) and
  [0, 1), and the truncation to whole seconds) the section "float64 rounding" repeats the
  function with every operation rounded to the nearest float64; these functions carry the
  suffix `64`.
* The trigonometric functions and `math.Pi` are the fields of a structure `GoMath` that
  every function of the pipeline takes as a parameter; theorems hold for all of its values.
* Go `int` values are modelled by `ℤ`; Go's integer division truncates toward zero
  (`Int.tdiv`).
* A Go `error` is an `Option String`: `none` is `nil`, `some msg` is `errors.New(msg)`.
* Methods with a pointer receiver that write fields become functions returning the new state.
-/

namespace Spa

/-! ## enums.go -/

/-- Type `SPAFunctions` of enums.go is a `uint32`; no arithmetic is done on it. -/
abbrev SPAFunctions := Nat

/-- calculate zenith and azimuth -/
def SpaZa : SPAFunctions := 0
/-- calculate zenith, azimuth, and incidence -/
def SpaZaInc : SPAFunctions := 1
/-- calculate zenith, azimuth, and sun rise/transit/set values -/
def SpaZaRts : SPAFunctions := 2
/-- calculate all SPA output values -/
def SpaAll : SPAFunctions := 3

/-! ## The state record (`type spa struct`) -/

/-- The struct `spa` of Spa.go: input values, intermediate outputs and final outputs. -/
structure spa where
  year : ℤ
  month : ℤ
  day : ℤ
  hour : ℤ
  minute : ℤ
  second : ℚ
  deltaUt1 : ℚ
  deltaT : ℚ
  timezone : ℚ
  longitude : ℚ
  latitude : ℚ
  elevation : ℚ
  pressure : ℚ
  temperature : ℚ
  slope : ℚ
  azmRotation : ℚ
  atmosRefract : ℚ
  function : SPAFunctions
  jd : ℚ
  jc : ℚ
  jde : ℚ
  jce : ℚ
  jme : ℚ
  l : ℚ
  b : ℚ
  r : ℚ
  theta : ℚ
  beta : ℚ
  x0 : ℚ
  x1 : ℚ
  x2 : ℚ
  x3 : ℚ
  x4 : ℚ
  delPsi : ℚ
  delEpsilon : ℚ
  epsilon0 : ℚ
  epsilon : ℚ
  delTau : ℚ
  lamda : ℚ
  nu0 : ℚ
  nu : ℚ
  alpha : ℚ
  delta : ℚ
  h : ℚ
  xi : ℚ
  delAlpha : ℚ
  deltaPrime : ℚ
  alphaPrime : ℚ
  hPrime : ℚ
  e0 : ℚ
  delE : ℚ
  e : ℚ
  eot : ℚ
  srha : ℚ
  ssha : ℚ
  sta : ℚ
  mRts : List ℚ
  zenith : ℚ
  azimuthAstro : ℚ
  azimuth : ℚ
  incidence : ℚ
  suntransit : ℚ
  sunrise : ℚ
  sunset : ℚ

/-- The zero value of the struct (`var s spa`). -/
def zeroSpa : spa :=
  { year := 0, month := 0, day := 0, hour := 0, minute := 0, second := 0,
    deltaUt1 := 0, deltaT := 0, timezone := 0, longitude := 0, latitude := 0,
    elevation := 0, pressure := 0, temperature := 0, slope := 0, azmRotation := 0,
    atmosRefract := 0, function := 0,
    jd := 0, jc := 0, jde := 0, jce := 0, jme := 0, l := 0, b := 0, r := 0,
    theta := 0, beta := 0, x0 := 0, x1 := 0, x2 := 0, x3 := 0, x4 := 0,
    delPsi := 0, delEpsilon := 0, epsilon0 := 0, epsilon := 0, delTau := 0,
    lamda := 0, nu0 := 0, nu := 0, alpha := 0, delta := 0, h := 0, xi := 0,
    delAlpha := 0, deltaPrime := 0, alphaPrime := 0, hPrime := 0, e0 := 0,
    delE := 0, e := 0, eot := 0, srha := 0, ssha := 0, sta := 0, mRts := [],
    zenith := 0, azimuthAstro := 0, azimuth := 0, incidence := 0,
    suntransit := 0, sunrise := 0, sunset := 0 }

/-- Method `init`: the reference request used as initial values. -/
def init (s : spa) : spa :=
  { s with
    year := 2003, month := 10, day := 17, hour := 12, minute := 30, second := 30,
    timezone := -7, deltaUt1 := 0, deltaT := 67,
    longitude := -105.1786, latitude := 39.742476, elevation := 1830.14,
    pressure := 820, temperature := 11, slope := 30, azmRotation := -10,
    atmosRefract := 0.5667, function := SpaAll }

/-- The reference request: `init` applied to the zero value. -/
def refSpa : spa := init zeroSpa

/-! ## The float64 math library -/

/-- The functions of Go's `math` package that the pipeline calls at a transcendental point.
They are left uninterpreted: every theorem holds for whatever values they return. -/
structure GoMath where
  /-- the constant `math.Pi` -/
  pi : ℚ
  sin : ℚ → ℚ
  cos : ℚ → ℚ
  tan : ℚ → ℚ
  asin : ℚ → ℚ
  acos : ℚ → ℚ
  atan : ℚ → ℚ
  /-- the two-argument arctangent, called as `math.Atan2(y, x)` -/
  atan2 : ℚ → ℚ → ℚ

/-- Rounding down to twelve decimal places. -/
def round12 (x : ℚ) : ℚ := (⌊x * 1000000000000⌋ : ℤ) / 1000000000000

/-- A low-order rational stand-in for the math library (Taylor polynomials around zero,
rounded to twelve places), used to run the model on concrete requests.  It is one
inhabitant of `GoMath` among others; no theorem depends on its values. -/
def polyMath : GoMath where
  pi := 355 / 113
  sin x := round12 (x - x ^ 3 / 6 + x ^ 5 / 120)
  cos x := round12 (1 - x ^ 2 / 2 + x ^ 4 / 24)
  tan x := round12 (x + x ^ 3 / 3 + 2 * x ^ 5 / 15)
  asin x := round12 (x + x ^ 3 / 6)
  acos x := round12 (355 / 226 - (x + x ^ 3 / 6))
  atan x := round12 (x - x ^ 3 / 3)
  atan2 y x :=
    if x > 0 then round12 (y / x - (y / x) ^ 3 / 3)
    else if x < 0 then
      round12 ((if y ≥ 0 then 355 / 113 else -355 / 113) + (y / x - (y / x) ^ 3 / 3))
    else if y > 0 then 355 / 226 else if y < 0 then -355 / 226 else 0

/-- The conversion `int(x)` of a float64: truncation toward zero. -/
def goInt (x : ℚ) : ℤ := if 0 ≤ x then ⌊x⌋ else ⌈x⌉

/-- The function `math.Floor`, as a float64. -/
def goFloor (x : ℚ) : ℚ := (⌊x⌋ : ℤ)

/-! ## Constants -/

def SunRadius : ℚ := 0.26667

def LCount : ℕ := 6
def BCount : ℕ := 2
def RCount : ℕ := 5
def YCount : ℕ := 63

def LMaxSubcount : ℕ := 64
def BMaxSubcount : ℕ := 5
def RMaxSubcount : ℕ := 40

def TermA : ℕ := 0
def TermB : ℕ := 1
def TermC : ℕ := 2
def TermCount : ℕ := 3

def TermX0 : ℕ := 0
def TermX1 : ℕ := 1
def TermX2 : ℕ := 2
def TermX3 : ℕ := 3
def TermX4 : ℕ := 4
def TermXCount : ℕ := 5
def TermYCount : ℕ := TermXCount

def TermPsiA : ℕ := 0
def TermPsiB : ℕ := 1
def TermEpsC : ℕ := 2
def TermEpsD : ℕ := 3
def TermPeCount : ℕ := 4

def JdMinus : ℕ := 0
def JdZero : ℕ := 1
def JdPlus : ℕ := 2
def JdCount : ℕ := 3

def SunTransit : ℕ := 0
def SunRise : ℕ := 1
def SunSet : ℕ := 2
def SunCount : ℕ := 3

def lSubcount : List ℕ := [64, 34, 20, 7, 3, 1]
def bSubcount : List ℕ := [5, 2]
def rSubcount : List ℕ := [40, 10, 6, 2, 1]

/-- Slice indexing `xs[i]`.  Every index the source evaluates is in range; the default is
never reached there. -/
def idx {α : Type} [Zero α] (xs : List α) (i : ℕ) : α := xs.getD i 0

/-- Slice indexing `t[i]` of a table of rows. -/
def row {α : Type} (t : List (List α)) (i : ℕ) : List α := t.getD i []

/-! ## Coefficient tables -/

/-- Earth periodic terms for the heliocentric longitude (table `LTerms`). -/
def LTerms : List (List (List ℚ)) :=
  [
   [[175347046, 0, 0], [3341656, 4.6692568, 6283.07585], [34894, 4.6261, 12566.1517],
    [3497, 2.7441, 5753.3849], [3418, 2.8289, 3.5231], [3136, 3.6277, 77713.7715],
    [2676, 4.4181, 7860.4194], [2343, 6.1352, 3930.2097], [1324, 0.7425, 11506.7698],
    [1273, 2.0371, 529.691], [1199, 1.1096, 1577.3435], [990, 5.233, 5884.927],
    [902, 2.045, 26.298], [857, 3.508, 398.149], [780, 1.179, 5223.694], [753, 2.533, 5507.553],
    [505, 4.583, 18849.228], [492, 4.205, 775.523], [357, 2.92, 0.067], [317, 5.849, 11790.629],
    [284, 1.899, 796.298], [271, 0.315, 10977.079], [243, 0.345, 5486.778],
    [206, 4.806, 2544.314], [205, 1.869, 5573.143], [202, 2.458, 6069.777], [156, 0.833, 213.299],
    [132, 3.411, 2942.463], [126, 1.083, 20.775], [115, 0.645, 0.98], [103, 0.636, 4694.003],
    [102, 0.976, 15720.839], [102, 4.267, 7.114], [99, 6.21, 2146.17], [98, 0.68, 155.42],
    [86, 5.98, 161000.69], [85, 1.3, 6275.96], [85, 3.67, 71430.7], [80, 1.81, 17260.15],
    [79, 3.04, 12036.46], [75, 1.76, 5088.63], [74, 3.5, 3154.69], [74, 4.68, 801.82],
    [70, 0.83, 9437.76], [62, 3.98, 8827.39], [61, 1.82, 7084.9], [57, 2.78, 6286.6],
    [56, 4.39, 14143.5], [56, 3.47, 6279.55], [52, 0.19, 12139.55], [52, 1.33, 1748.02],
    [51, 0.28, 5856.48], [49, 0.49, 1194.45], [41, 5.37, 8429.24], [41, 2.4, 19651.05],
    [39, 6.17, 10447.39], [37, 6.04, 10213.29], [37, 2.57, 1059.38], [36, 1.71, 2352.87],
    [36, 1.78, 6812.77], [33, 0.59, 17789.85], [30, 0.44, 83996.85], [30, 2.74, 1349.87],
    [25, 3.16, 4690.48]],
   [[628331966747, 0, 0], [206059, 2.678235, 6283.07585], [4303, 2.6351, 12566.1517],
    [425, 1.59, 3.523], [119, 5.796, 26.298], [109, 2.966, 1577.344], [93, 2.59, 18849.23],
    [72, 1.14, 529.69], [68, 1.87, 398.15], [67, 4.41, 5507.55], [59, 2.89, 5223.69],
    [56, 2.17, 155.42], [45, 0.4, 796.3], [36, 0.47, 775.52], [29, 2.65, 7.11], [21, 5.34, 0.98],
    [19, 1.85, 5486.78], [19, 4.97, 213.3], [17, 2.99, 6275.96], [16, 0.03, 2544.31],
    [16, 1.43, 2146.17], [15, 1.21, 10977.08], [12, 2.83, 1748.02], [12, 3.26, 5088.63],
    [12, 5.27, 1194.45], [12, 2.08, 4694], [11, 0.77, 553.57], [10, 1.3, 6286.6],
    [10, 4.24, 1349.87], [9, 2.7, 242.73], [9, 5.64, 951.72], [8, 5.3, 2352.87],
    [6, 2.65, 9437.76], [6, 4.67, 4690.48]],
   [[52919, 0, 0], [8720, 1.0721, 6283.0758], [309, 0.867, 12566.152], [27, 0.05, 3.52],
    [16, 5.19, 26.3], [16, 3.68, 155.42], [10, 0.76, 18849.23], [9, 2.06, 77713.77],
    [7, 0.83, 775.52], [5, 4.66, 1577.34], [4, 1.03, 7.11], [4, 3.44, 5573.14], [3, 5.14, 796.3],
    [3, 6.05, 5507.55], [3, 1.19, 242.73], [3, 6.12, 529.69], [3, 0.31, 398.15],
    [3, 2.28, 553.57], [2, 4.38, 5223.69], [2, 3.75, 0.98]],
   [[289, 5.844, 6283.076], [35, 0, 0], [17, 5.49, 12566.15], [3, 5.2, 155.42], [1, 4.72, 3.52],
    [1, 5.3, 18849.23], [1, 5.97, 242.73]],
   [[114, 3.142, 0], [8, 4.13, 6283.08], [1, 3.84, 12566.15]],
   [[1, 3.14, 0]]
  ]

/-- Earth periodic terms for the heliocentric latitude (table `BTerms`). -/
def BTerms : List (List (List ℚ)) :=
  [
   [[280, 3.199, 84334.662], [102, 5.422, 5507.553], [80, 3.88, 5223.69], [44, 3.7, 2352.87],
    [32, 4, 1577.34]],
   [[9, 3.9, 5507.55], [6, 1.73, 5223.69]]
  ]

/-- Earth periodic terms for the radius vector (table `RTerms`). -/
def RTerms : List (List (List ℚ)) :=
  [
   [[100013989, 0, 0], [1670700, 3.0984635, 6283.07585], [13956, 3.05525, 12566.1517],
    [3084, 5.1985, 77713.7715], [1628, 1.1739, 5753.3849], [1576, 2.8469, 7860.4194],
    [925, 5.453, 11506.77], [542, 4.564, 3930.21], [472, 3.661, 5884.927], [346, 0.964, 5507.553],
    [329, 5.9, 5223.694], [307, 0.299, 5573.143], [243, 4.273, 11790.629], [212, 5.847, 1577.344],
    [186, 5.022, 10977.079], [175, 3.012, 18849.228], [110, 5.055, 5486.778], [98, 0.89, 6069.78],
    [86, 5.69, 15720.84], [86, 1.27, 161000.69], [65, 0.27, 17260.15], [63, 0.92, 529.69],
    [57, 2.01, 83996.85], [56, 5.24, 71430.7], [49, 3.25, 2544.31], [47, 2.58, 775.52],
    [45, 5.54, 9437.76], [43, 6.01, 6275.96], [39, 5.36, 4694], [38, 2.39, 8827.39],
    [37, 0.83, 19651.05], [37, 4.9, 12139.55], [36, 1.67, 12036.46], [35, 1.84, 2942.46],
    [33, 0.24, 7084.9], [32, 0.18, 5088.63], [32, 1.78, 398.15], [28, 1.21, 6286.6],
    [28, 1.9, 6279.55], [26, 4.59, 10447.39]],
   [[103019, 1.10749, 6283.07585], [1721, 1.0644, 12566.1517], [702, 3.142, 0],
    [32, 1.02, 18849.23], [31, 2.84, 5507.55], [25, 1.32, 5223.69], [18, 1.42, 1577.34],
    [10, 5.91, 10977.08], [9, 1.42, 6275.96], [9, 0.27, 5486.78]],
   [[4359, 5.7846, 6283.0758], [124, 5.579, 12566.152], [12, 3.14, 0], [9, 3.63, 77713.77],
    [6, 1.87, 5573.14], [3, 5.47, 18849.23]],
   [[145, 4.273, 6283.076], [7, 3.92, 12566.15]],
   [[4, 2.56, 6283.08]]
  ]

/-- Integer multipliers of the nutation arguments (table `YTerms`). -/
def YTerms : List (List ℤ) :=
  [[0, 0, 0, 0, 1], [-2, 0, 0, 2, 2], [0, 0, 0, 2, 2], [0, 0, 0, 0, 2], [0, 1, 0, 0, 0],
    [0, 0, 1, 0, 0], [-2, 1, 0, 2, 2], [0, 0, 0, 2, 1], [0, 0, 1, 2, 2], [-2, -1, 0, 2, 2],
    [-2, 0, 1, 0, 0], [-2, 0, 0, 2, 1], [0, 0, -1, 2, 2], [2, 0, 0, 0, 0], [0, 0, 1, 0, 1],
    [2, 0, -1, 2, 2], [0, 0, -1, 0, 1], [0, 0, 1, 2, 1], [-2, 0, 2, 0, 0], [0, 0, -2, 2, 1],
    [2, 0, 0, 2, 2], [0, 0, 2, 2, 2], [0, 0, 2, 0, 0], [-2, 0, 1, 2, 2], [0, 0, 0, 2, 0],
    [-2, 0, 0, 2, 0], [0, 0, -1, 2, 1], [0, 2, 0, 0, 0], [2, 0, -1, 0, 1], [-2, 2, 0, 2, 2],
    [0, 1, 0, 0, 1], [-2, 0, 1, 0, 1], [0, -1, 0, 0, 1], [0, 0, 2, -2, 0], [2, 0, -1, 2, 1],
    [2, 0, 1, 2, 2], [0, 1, 0, 2, 2], [-2, 1, 1, 0, 0], [0, -1, 0, 2, 2], [2, 0, 0, 2, 1],
    [2, 0, 1, 0, 0], [-2, 0, 2, 2, 2], [-2, 0, 1, 2, 1], [2, 0, -2, 0, 1], [2, 0, 0, 0, 1],
    [0, -1, 1, 0, 0], [-2, -1, 0, 2, 1], [-2, 0, 0, 0, 1], [0, 0, 2, 2, 1], [-2, 0, 2, 0, 1],
    [-2, 1, 0, 2, 1], [0, 0, 1, -2, 0], [-1, 0, 1, 0, 0], [-2, 1, 0, 0, 0], [1, 0, 0, 0, 0],
    [0, 0, 1, 2, 0], [0, 0, -2, 2, 2], [-1, -1, 1, 0, 0], [0, 1, 1, 0, 0], [0, -1, 1, 2, 2],
    [2, -1, -1, 2, 2], [0, 0, 3, 2, 2], [2, -1, 0, 2, 2]]

/-- Coefficients of the nutation series (table `PeTerms`). -/
def PeTerms : List (List ℚ) :=
  [[-171996, -174.2, 92025, 8.9], [-13187, -1.6, 5736, -3.1], [-2274, -0.2, 977, -0.5],
    [2062, 0.2, -895, 0.5], [1426, -3.4, 54, -0.1], [712, 0.1, -7, 0], [-517, 1.2, 224, -0.6],
    [-386, -0.4, 200, 0], [-301, 0, 129, -0.1], [217, -0.5, -95, 0.3], [-158, 0, 0, 0],
    [129, 0.1, -70, 0], [123, 0, -53, 0], [63, 0, 0, 0], [63, 0.1, -33, 0], [-59, 0, 26, 0],
    [-58, -0.1, 32, 0], [-51, 0, 27, 0], [48, 0, 0, 0], [46, 0, -24, 0], [-38, 0, 16, 0],
    [-31, 0, 13, 0], [29, 0, 0, 0], [29, 0, -12, 0], [26, 0, 0, 0], [-22, 0, 0, 0],
    [21, 0, -10, 0], [17, -0.1, 0, 0], [16, 0, -8, 0], [-16, 0.1, 7, 0], [-15, 0, 9, 0],
    [-13, 0, 7, 0], [-12, 0, 6, 0], [11, 0, 0, 0], [-10, 0, 5, 0], [-8, 0, 3, 0], [7, 0, -3, 0],
    [-7, 0, 0, 0], [-7, 0, 3, 0], [-7, 0, 3, 0], [6, 0, 0, 0], [6, 0, -3, 0], [6, 0, -3, 0],
    [-6, 0, 3, 0], [-6, 0, 3, 0], [5, 0, 0, 0], [-5, 0, 3, 0], [-5, 0, 3, 0], [-5, 0, 3, 0],
    [4, 0, 0, 0], [4, 0, 0, 0], [4, 0, 0, 0], [-4, 0, 0, 0], [-4, 0, 0, 0], [-4, 0, 0, 0],
    [3, 0, 0, 0], [-3, 0, 0, 0], [-3, 0, 0, 0], [-3, 0, 0, 0], [-3, 0, 0, 0], [-3, 0, 0, 0],
    [-3, 0, 0, 0], [-3, 0, 0, 0]]


/-! ## Go's `time` package: the part used by `GetDate` and `SetDate`

A `time.Time` built by `time.Date` in a fixed zone is represented by the civil fields that
its accessors `Year`, `Month`, `Day`, `Hour`, `Minute`, `Second` return, together with the
zone offset returned by `Zone`.  `time.Date` accepts values outside their usual ranges and
normalises them in the proleptic Gregorian calendar ("October 32 converts to November 1").
-/

/-- A `time.Time` in a fixed zone, read through its accessors. -/
structure GoTime where
  year : ℤ
  month : ℤ
  day : ℤ
  hour : ℤ
  minute : ℤ
  second : ℤ
  /-- seconds east of UTC, the second result of `Zone` -/
  offset : ℤ
deriving DecidableEq

/-- Function `norm` of package `time`: the pair `(nhi, nlo)` with
`hi * base + lo = nhi * base + nlo` and `0 ≤ nlo < base`. -/
def norm (hi lo base : ℤ) : ℤ × ℤ := (hi + lo / base, lo % base)

/-- Number of days from 1970-01-01 to the first day of month `m` (in `1..12`) of year `y`
in the proleptic Gregorian calendar, plus `d - 1`. -/
def daysFromCivil (y m d : ℤ) : ℤ :=
  let y1 := if m ≤ 2 then y - 1 else y
  let era := y1 / 400
  let yoe := y1 - era * 400
  let mp := (m + 9) % 12
  let doy := (153 * mp + 2) / 5 + d - 1
  let doe := yoe * 365 + yoe / 4 - yoe / 100 + doy
  era * 146097 + doe - 719468

/-- The proleptic Gregorian date `(year, month, day)` of a day number counted from
1970-01-01. -/
def civilFromDays (z : ℤ) : ℤ × ℤ × ℤ :=
  let z1 := z + 719468
  let era := z1 / 146097
  let doe := z1 - era * 146097
  let yoe := (doe - doe / 1460 + doe / 36524 - doe / 146096) / 365
  let y := yoe + era * 400
  let doy := doe - (365 * yoe + yoe / 4 - yoe / 100)
  let mp := (5 * doy + 2) / 153
  let d := doy - (153 * mp + 2) / 5 + 1
  let m := if mp < 10 then mp + 3 else mp - 9
  (if m ≤ 2 then y + 1 else y, m, d)

/-- Function `time.Date(year, month, day, hour, min, sec, 0, time.FixedZone(_, offset))`:
month overflows into the year, seconds into minutes, minutes into hours, hours into days,
and the day count is converted back to a calendar date. -/
def timeDate (year month day hour min sec offset : ℤ) : GoTime :=
  let ym := norm year (month - 1) 12
  let ms := norm min sec 60
  let hm := norm hour ms.1 60
  let dh := norm day hm.1 24
  let ymd := civilFromDays (daysFromCivil ym.1 (ym.2 + 1) dh.1)
  { year := ymd.1, month := ymd.2.1, day := ymd.2.2,
    hour := dh.2, minute := hm.2, second := ms.2, offset := offset }

/-! ## Getters and setters for the date -/

/-- Method `GetDate`: the date fields as a `time.Time`; the second is converted with
`int(s.second)` and the zone offset is `int(s.timezone*3600)`.  Go `int` is `ℤ` here: a
second or an offset beyond the int64 range, where the conversion and `time.Date` wrap
around, is outside the model. -/
def GetDate (s : spa) : GoTime :=
  timeDate s.year s.month s.day s.hour s.minute (goInt s.second) (goInt (s.timezone * 3600))

/-- Method `SetDate`: copies the fields of a `time.Time` into the state; the timezone is
`float64(offset / 3600)` with Go's integer division. -/
def SetDate (s : spa) (dt : GoTime) : spa :=
  { s with
    year := dt.year, month := dt.month, day := dt.day, hour := dt.hour,
    minute := dt.minute, second := (dt.second : ℚ),
    timezone := ((Int.tdiv dt.offset 3600 : ℤ) : ℚ) }

/-- Method `calculateHourMinSec` in exact arithmetic; `calculateHourMinSec64` repeats it
with the float64 rounding of the two products, which can move a value across a whole
second. -/
def calculateHourMinSec (decHours : ℚ) : ℤ × ℤ × ℤ :=
  let min : ℚ := 60 * (decHours - (goInt decHours : ℚ))
  let sec : ℚ := 60 * (min - (goInt min : ℚ))
  (⌊decHours⌋, goInt min, goInt sec)

/-! ## Angle and time utilities -/

def deg2rad (M : GoMath) (degrees : ℚ) : ℚ := (M.pi / 180) * degrees

def rad2deg (M : GoMath) (radians : ℚ) : ℚ := (180 / M.pi) * radians

/-- Method `limitDegrees` in exact arithmetic, where the result is below 360;
`limitDegrees64` repeats it with float64 rounding, where a tiny negative argument gives
exactly 360. -/
def limitDegrees (degrees : ℚ) : ℚ :=
  let degrees := degrees / 360
  let limited := 360 * (degrees - goFloor degrees)
  if limited < 0 then limited + 360 else limited

def limitDegrees180pm (degrees : ℚ) : ℚ :=
  let degrees := degrees / 360
  let limited := 360 * (degrees - goFloor degrees)
  if limited < -180 then limited + 360
  else if limited > 180 then limited - 360
  else limited

/-- Method `limitDegrees180` in exact arithmetic, where the result is below 180 (with
float64 rounding a tiny negative argument gives exactly 180; the only caller,
`sunHourAngleAtRiseSet`, passes `rad2deg(math.Acos(argument))`, which is not negative). -/
def limitDegrees180 (degrees : ℚ) : ℚ :=
  let degrees := degrees / 180
  let limited := 180 * (degrees - goFloor degrees)
  if limited < 0 then limited + 180 else limited

/-- Method `limitZero2one` in exact arithmetic, where the result is below 1;
`limitZero2one64` repeats it with float64 rounding, where a tiny negative argument gives
exactly 1. -/
def limitZero2one (value : ℚ) : ℚ :=
  let limited := value - goFloor value
  if limited < 0 then limited + 1 else limited

def limitMinutes (minutes : ℚ) : ℚ :=
  let limited := minutes
  if limited < -20 then limited + 1440
  else if limited > 20 then limited - 1440
  else limited

def dayfracToLocalHr (dayfrac timezone : ℚ) : ℚ :=
  24 * limitZero2one (dayfrac + timezone / 24)

def thirdOrderPolynomial (a b c d x : ℚ) : ℚ := ((a * x + b) * x + c) * x + d

/-! ## Time scale -/

/-- Method `julianDay`. -/
def julianDay (year month day hour minute : ℤ) (second dut1 tz : ℚ) : ℚ :=
  let dayDecimal : ℚ :=
    (day : ℚ) + ((hour : ℚ) - tz + ((minute : ℚ) + (second + dut1) / 60) / 60) / 24
  let month1 : ℤ := if month < 3 then month + 12 else month
  let year1 : ℤ := if month < 3 then year - 1 else year
  let julianDay : ℚ :=
    (goInt (365.25 * ((year1 : ℚ) + 4716)) : ℚ) + (goInt (30.6001 * ((month1 : ℚ) + 1)) : ℚ)
      + dayDecimal - 1524.5
  if julianDay > 2299160 then
    let a : ℚ := ((Int.tdiv year1 100 : ℤ) : ℚ)
    julianDay + (2 - a + (goInt (a / 4) : ℚ))
  else julianDay

def julianCentury (jd : ℚ) : ℚ := (jd - 2451545) / 36525

def julianEphemerisDay (jd deltaT : ℚ) : ℚ := jd + deltaT / 86400

def julianEphemerisCentury (jde : ℚ) : ℚ := (jde - 2451545) / 36525

def julianEphemerisMillennium (jce : ℚ) : ℚ := jce / 10

/-! ## Heliocentric and geocentric position -/

def earthPeriodicTermSummation (M : GoMath) (terms : List (List ℚ)) (count : ℕ)
    (jme : ℚ) : ℚ :=
  (List.range count).foldl
    (fun sum i =>
      sum + idx (row terms i) TermA *
        M.cos (idx (row terms i) TermB + idx (row terms i) TermC * jme))
    0

/-- Method `earthValues`; `math.Pow(jme, float64(i))` is the exact power. -/
def earthValues (termSum : List ℚ) (count : ℕ) (jme : ℚ) : ℚ :=
  let sum := (List.range count).foldl (fun sum i => sum + idx termSum i * jme ^ i) 0
  sum / 100000000

def earthHeliocentricLongitude (M : GoMath) (jme : ℚ) : ℚ :=
  let sum := (List.range LCount).map
    (fun i => earthPeriodicTermSummation M (row LTerms i) (idx lSubcount i) jme)
  limitDegrees (rad2deg M (earthValues sum LCount jme))

def earthHeliocentricLatitude (M : GoMath) (jme : ℚ) : ℚ :=
  let sum := (List.range BCount).map
    (fun i => earthPeriodicTermSummation M (row BTerms i) (idx bSubcount i) jme)
  rad2deg M (earthValues sum BCount jme)

def earthRadiusVector (M : GoMath) (jme : ℚ) : ℚ :=
  let sum := (List.range RCount).map
    (fun i => earthPeriodicTermSummation M (row RTerms i) (idx rSubcount i) jme)
  earthValues sum RCount jme

def geocentricLongitude (l : ℚ) : ℚ :=
  let theta := l + 180
  if theta ≥ 360 then theta - 360 else theta

def geocentricLatitude (b : ℚ) : ℚ := -b

/-! ## Nutation and obliquity -/

def meanElongationMoonSun (jce : ℚ) : ℚ :=
  thirdOrderPolynomial (1 / 189474) (-0.0019142) 445267.11148 297.85036 jce

def meanAnomalySun (jce : ℚ) : ℚ :=
  thirdOrderPolynomial (-1 / 300000) (-0.0001603) 35999.05034 357.52772 jce

def meanAnomalyMoon (jce : ℚ) : ℚ :=
  thirdOrderPolynomial (1 / 56250) 0.0086972 477198.867398 134.96298 jce

def argumentLatitudeMoon (jce : ℚ) : ℚ :=
  thirdOrderPolynomial (1 / 327270) (-0.0036825) 483202.017538 93.27191 jce

def ascendingLongitudeMoon (jce : ℚ) : ℚ :=
  thirdOrderPolynomial (1 / 450000) 0.0020708 (-1934.136261) 125.04452 jce

def xyTermSummation (i : ℕ) (x : List ℚ) : ℚ :=
  (List.range TermYCount).foldl (fun sum j => sum + idx x j * ((idx (row YTerms i) j : ℤ) : ℚ)) 0

/-- Method `nutationLongitudeAndObliquity`: writes `delPsi` and `delEpsilon`. -/
def nutationLongitudeAndObliquity (M : GoMath) (s : spa) (jce : ℚ) (x : List ℚ) : spa :=
  let sums := (List.range YCount).foldl
    (fun (acc : ℚ × ℚ) i =>
      let xyTermSum := deg2rad M (xyTermSummation i x)
      (acc.1 + (idx (row PeTerms i) TermPsiA + jce * idx (row PeTerms i) TermPsiB)
          * M.sin xyTermSum,
       acc.2 + (idx (row PeTerms i) TermEpsC + jce * idx (row PeTerms i) TermEpsD)
          * M.cos xyTermSum))
    (0, 0)
  { s with delPsi := sums.1 / 36000000, delEpsilon := sums.2 / 36000000 }

def eclipticMeanObliquity (jme : ℚ) : ℚ :=
  let u := jme / 10
  84381.448 + u * (-4680.93 + u * (-1.55 + u * (1999.25 + u * (-51.38 + u * (-249.67 +
    u * (-39.05 + u * (7.12 + u * (27.87 + u * (5.79 + u * 2.45)))))))))

def eclipticTrueObliquity (deltaEpsilon epsilon0 : ℚ) : ℚ := deltaEpsilon + epsilon0 / 3600

/-! ## Apparent position and topocentric correction -/

def aberrationCorrection (r : ℚ) : ℚ := -20.4898 / (3600 * r)

def apparentSunLongitude (theta deltaPsi deltaTau : ℚ) : ℚ := theta + deltaPsi + deltaTau

def greenwichMeanSiderealTime (jd jc : ℚ) : ℚ :=
  limitDegrees (280.46061837 + 360.98564736629 * (jd - 2451545) +
    jc * jc * (0.000387933 - jc / 38710000))

def greenwichSiderealTime (M : GoMath) (nu0 deltaPsi epsilon : ℚ) : ℚ :=
  nu0 + deltaPsi * M.cos (deg2rad M epsilon)

def geocentricRightAscension (M : GoMath) (lamda epsilon beta : ℚ) : ℚ :=
  let lamdaRad := deg2rad M lamda
  let epsilonRad := deg2rad M epsilon
  limitDegrees (rad2deg M (M.atan2 (M.sin lamdaRad * M.cos epsilonRad -
    M.tan (deg2rad M beta) * M.sin epsilonRad) (M.cos lamdaRad)))

def geocentricDeclination (M : GoMath) (beta epsilon lambda : ℚ) : ℚ :=
  let betaRad := deg2rad M beta
  let epsilonRad := deg2rad M epsilon
  rad2deg M (M.asin (M.sin betaRad * M.cos epsilonRad +
    M.cos betaRad * M.sin epsilonRad * M.sin (deg2rad M lambda)))

def observerHourAngle (nu longitude alphaDeg : ℚ) : ℚ := limitDegrees (nu + longitude - alphaDeg)

def sunEquatorialHorizontalParallax (r : ℚ) : ℚ := 8.794 / (3600 * r)

/-- Method `rightAscensionParallaxAndTopocentricDec`: writes `deltaPrime` and `delAlpha`. -/
def rightAscensionParallaxAndTopocentricDec (M : GoMath) (s : spa)
    (latitude elevation xi h delta : ℚ) : spa :=
  let latRad := deg2rad M latitude
  let xiRad := deg2rad M xi
  let hRad := deg2rad M h
  let deltaRad := deg2rad M delta
  let u := M.atan (0.99664719 * M.tan latRad)
  let y := 0.99664719 * M.sin u + elevation * M.sin latRad / 6378140
  let x := M.cos u + elevation * M.cos latRad / 6378140
  let deltaAlphaRad :=
    M.atan2 (-x * M.sin xiRad * M.sin hRad) (M.cos deltaRad - x * M.sin xiRad * M.cos hRad)
  s |> (fun s => { s with
          deltaPrime :=
            rad2deg M (M.atan2 ((M.sin deltaRad - y * M.sin xiRad) * M.cos deltaAlphaRad)
              (M.cos deltaRad - x * M.sin xiRad * M.cos hRad)) })
    |> (fun s => { s with delAlpha := rad2deg M deltaAlphaRad })

def topocentricRightAscension (alphaDeg deltaAlpha : ℚ) : ℚ := alphaDeg + deltaAlpha

def topocentricLocalHourAngle (h deltaAlpha : ℚ) : ℚ := h - deltaAlpha

/-! ## Elevation, azimuth and incidence -/

def topocentricElevationAngle (M : GoMath) (latitude deltaPrime hPrime : ℚ) : ℚ :=
  let latRad := deg2rad M latitude
  let deltaPrimeRad := deg2rad M deltaPrime
  rad2deg M (M.asin (M.sin latRad * M.sin deltaPrimeRad +
    M.cos latRad * M.cos deltaPrimeRad * M.cos (deg2rad M hPrime)))

def atmosphericRefractionCorrection (M : GoMath) (pressure temperature atmosRefract e0 : ℚ) : ℚ :=
  if e0 ≥ -1 * (SunRadius + atmosRefract) then
    (pressure / 1010) * (283 / (273 + temperature)) * 1.02 /
      (60 * M.tan (deg2rad M (e0 + 10.3 / (e0 + 5.11))))
  else 0

def topocentricElevationAngleCorrected (e0 deltaE : ℚ) : ℚ := e0 + deltaE

def topocentricZenithAngle (e : ℚ) : ℚ := 90 - e

def topocentricAzimuthAngleAstro (M : GoMath) (hPrime latitude deltaPrime : ℚ) : ℚ :=
  let hPrimeRad := deg2rad M hPrime
  let latRad := deg2rad M latitude
  limitDegrees (rad2deg M (M.atan2 (M.sin hPrimeRad)
    (M.cos hPrimeRad * M.sin latRad - M.tan (deg2rad M deltaPrime) * M.cos latRad)))

def topocentricAzimuthAngle (azimuthAstro : ℚ) : ℚ := limitDegrees (azimuthAstro + 180)

def surfaceIncidenceAngle (M : GoMath) (zenith azimuthAstro azmRotation slope : ℚ) : ℚ :=
  let zenithRad := deg2rad M zenith
  let slopeRad := deg2rad M slope
  rad2deg M (M.acos (M.cos zenithRad * M.cos slopeRad +
    M.sin slopeRad * M.sin zenithRad * M.cos (deg2rad M (azimuthAstro - azmRotation))))

/-! ## Equation of time, sunrise, transit and sunset -/

def sunMeanLongitude (jme : ℚ) : ℚ :=
  limitDegrees (280.4664567 + jme * (360007.6982779 + jme * (0.03032028 +
    jme * (1 / 49931 + jme * (-1 / 15300 + jme * (-1 / 2000000))))))

def eotf (M : GoMath) (m alpha delPsi epsilon : ℚ) : ℚ :=
  limitMinutes (4 * (m - 0.0057183 - alpha + delPsi * M.cos (deg2rad M epsilon)))

def approxSunTransitTime (alphaZero longitude nu : ℚ) : ℚ := (alphaZero - longitude - nu) / 360

def sunHourAngleAtRiseSet (M : GoMath) (latitude deltaZero h0Prime : ℚ) : ℚ :=
  let latitudeRad := deg2rad M latitude
  let deltaZeroRad := deg2rad M deltaZero
  let argument := (M.sin (deg2rad M h0Prime) - M.sin latitudeRad * M.sin deltaZeroRad) /
    (M.cos latitudeRad * M.cos deltaZeroRad)
  if |argument| ≤ 1 then limitDegrees180 (rad2deg M (M.acos argument)) else -99999

/-- Method `approxSunRiseAndSet`: writes the three entries of `mRts`, rise and set first. -/
def approxSunRiseAndSet (s : spa) (h0 : ℚ) : spa :=
  let h0Dfrac := h0 / 360
  s |> (fun s => { s with
          mRts := s.mRts.set SunRise (limitZero2one (idx s.mRts SunTransit - h0Dfrac)) })
    |> (fun s => { s with
          mRts := s.mRts.set SunSet (limitZero2one (idx s.mRts SunTransit + h0Dfrac)) })
    |> (fun s => { s with mRts := s.mRts.set SunTransit (limitZero2one (idx s.mRts SunTransit)) })

def rtsAlphaDeltaPrime (ad : List ℚ) (n : ℚ) : ℚ :=
  let a := idx ad JdZero - idx ad JdMinus
  let b := idx ad JdPlus - idx ad JdZero
  let a := if |a| ≥ 2 then limitZero2one a else a
  let b := if |b| ≥ 2 then limitZero2one b else b
  idx ad JdZero + n * (a + b + (b - a) * n) / 2

def rtsSunAltitude (M : GoMath) (latitude deltaPrime hPrime : ℚ) : ℚ :=
  let latitudeRad := deg2rad M latitude
  let deltaPrimeRad := deg2rad M deltaPrime
  rad2deg M (M.asin (M.sin latitudeRad * M.sin deltaPrimeRad +
    M.cos latitudeRad * M.cos deltaPrimeRad * M.cos (deg2rad M hPrime)))

def sunRiseAndSet (M : GoMath) (mRts hRts deltaPrime : List ℚ) (latitude : ℚ)
    (hPrime : List ℚ) (h0Prime : ℚ) (sun : ℕ) : ℚ :=
  idx mRts sun + (idx hRts sun - h0Prime) /
    (360 * M.cos (deg2rad M (idx deltaPrime sun)) * M.cos (deg2rad M latitude) *
      M.sin (deg2rad M (idx hPrime sun)))

/-! ## validate -/

/-- Method `validate`: the first failing bound check gives the error, `none` when all pass. -/
def validate (s : spa) : Option String :=
  if s.year < -2000 ∨ s.year > 6000 then some "invalid year"
  else if s.month < 1 ∨ s.month > 12 then some "invalid month"
  else if s.day < 1 ∨ s.day > 31 then some "invalid day"
  else if s.hour < 0 ∨ s.hour > 24 then some "invalid hour"
  else if s.minute < 0 ∨ s.minute > 59 then some "invalid minute"
  else if s.second < 0 ∨ s.second ≥ 60 then some "invalid second"
  else if s.pressure < 0 ∨ s.pressure > 5000 then some "invalid pressure"
  else if s.temperature ≤ -273 ∨ s.temperature > 6000 then some "invalid temperature"
  else if s.deltaUt1 ≤ -1 ∨ s.deltaUt1 ≥ 1 then
    some "invalid UTC / UT difference (deltaUt1)"
  else if s.hour = 24 ∧ s.minute > 0 then some "invalid hour/minute"
  else if s.hour = 24 ∧ s.second > 0 then some "invalid hour/second"
  else if |s.deltaT| > 8000 then
    some "invalid difference between earth rotation time and terrestrial time (deltaT)"
  else if |s.timezone| > 18 then some "invalid timezone"
  else if |s.longitude| > 180 then some "invalid longitude"
  else if |s.latitude| > 90 then some "invalid latitude"
  else if |s.atmosRefract| > 5 then some "invalid atmospheric refraction (atmosRefract)"
  else if s.elevation < -6500000 then some "invalid elevation"
  else if s.function = SpaZaInc ∨ s.function = SpaAll then
    if |s.slope| > 360 then some "invalid surface slope"
    else if |s.azmRotation| > 360 then some "invalid surface azimuth rotation"
    else none
  else none

/-! ## The pipeline

Consecutive assignments to fields of the receiver are written as a chain
`s |> (fun s => { s with f := v })`, one link per assignment, in source order.
-/

/-- Method `calculateGeocentricSunRightAscensionAndDeclination`: from `jd` and `deltaT`
already in the state, writes `jc` through `delta`.  The local slice `x` receives the same
five values as the fields `x0` to `x4`. -/
def calculateGeocentricSunRightAscensionAndDeclination (M : GoMath) (s : spa) : spa :=
  s |> (fun s => { s with jc := julianCentury s.jd })
    |> (fun s => { s with jde := julianEphemerisDay s.jd s.deltaT })
    |> (fun s => { s with jce := julianEphemerisCentury s.jde })
    |> (fun s => { s with jme := julianEphemerisMillennium s.jce })
    |> (fun s => { s with l := earthHeliocentricLongitude M s.jme })
    |> (fun s => { s with b := earthHeliocentricLatitude M s.jme })
    |> (fun s => { s with r := earthRadiusVector M s.jme })
    |> (fun s => { s with theta := geocentricLongitude s.l })
    |> (fun s => { s with beta := geocentricLatitude s.b })
    |> (fun s => { s with x0 := meanElongationMoonSun s.jce })
    |> (fun s => { s with x1 := meanAnomalySun s.jce })
    |> (fun s => { s with x2 := meanAnomalyMoon s.jce })
    |> (fun s => { s with x3 := argumentLatitudeMoon s.jce })
    |> (fun s => { s with x4 := ascendingLongitudeMoon s.jce })
    |> (fun s => nutationLongitudeAndObliquity M s s.jce
          [meanElongationMoonSun s.jce, meanAnomalySun s.jce, meanAnomalyMoon s.jce,
           argumentLatitudeMoon s.jce, ascendingLongitudeMoon s.jce])
    |> (fun s => { s with epsilon0 := eclipticMeanObliquity s.jme })
    |> (fun s => { s with epsilon := eclipticTrueObliquity s.delEpsilon s.epsilon0 })
    |> (fun s => { s with delTau := aberrationCorrection s.r })
    |> (fun s => { s with lamda := apparentSunLongitude s.theta s.delPsi s.delTau })
    |> (fun s => { s with nu0 := greenwichMeanSiderealTime s.jd s.jc })
    |> (fun s => { s with nu := greenwichSiderealTime M s.nu0 s.delPsi s.epsilon })
    |> (fun s => { s with alpha := geocentricRightAscension M s.lamda s.epsilon s.beta })
    |> (fun s => { s with delta := geocentricDeclination M s.beta s.epsilon s.lamda })

/-- The local slices `nuRts`, `hRts`, `alphaPrime`, `deltaPrime`, `hPrime` of
`calculateEotAndSunRiseTransitSet`. -/
structure RtsLocals where
  nuRts : List ℚ
  hRts : List ℚ
  alphaPrime : List ℚ
  deltaPrime : List ℚ
  hPrime : List ℚ

/-- The copy `sunRts := *s` of `calculateEotAndSunRiseTransitSet` up to the first call of
`calculateGeocentricSunRightAscensionAndDeclination`: fresh `mRts`, time of day, `deltaUt1`
and timezone zeroed, `jd` of local midnight. -/
def sunRtsMidnight (M : GoMath) (s : spa) : spa :=
  s |> (fun sunRts => { sunRts with mRts := List.replicate SunCount 0 })
    |> (fun sunRts => { sunRts with hour := 0 })
    |> (fun sunRts => { sunRts with minute := 0 })
    |> (fun sunRts => { sunRts with second := 0 })
    |> (fun sunRts => { sunRts with deltaUt1 := 0 })
    |> (fun sunRts => { sunRts with timezone := 0 })
    |> (fun sunRts => { sunRts with
          jd := julianDay sunRts.year sunRts.month sunRts.day sunRts.hour sunRts.minute
            sunRts.second sunRts.deltaUt1 sunRts.timezone })
    |> calculateGeocentricSunRightAscensionAndDeclination M

/-- The loop over `JdMinus`, `JdZero`, `JdPlus` of `calculateEotAndSunRiseTransitSet`, after
`sunRts.deltaT = 0` and `sunRts.jd--`: the state is `sunRts` with the slices `alpha` and
`delta`. -/
def sunRtsSamples (M : GoMath) (sunRts : spa) : spa × List ℚ × List ℚ :=
  (List.range JdCount).foldl
    (fun (st : spa × List ℚ × List ℚ) i =>
      (fun (sunRts : spa) =>
        ((fun (sunRts : spa) => { sunRts with jd := sunRts.jd + 1 }) sunRts,
          st.2.1.set i sunRts.alpha, st.2.2.set i sunRts.delta))
        (calculateGeocentricSunRightAscensionAndDeclination M st.1))
    (sunRts |> (fun sunRts => { sunRts with deltaT := 0 })
            |> (fun sunRts => { sunRts with jd := sunRts.jd - 1 }),
      List.replicate JdCount 0, List.replicate JdCount 0)

/-- The loop over `SunTransit`, `SunRise`, `SunSet` of `calculateEotAndSunRiseTransitSet`. -/
def rtsLoop (M : GoMath) (s sunRts : spa) (nu : ℚ) (alpha delta : List ℚ) : RtsLocals :=
  (List.range SunCount).foldl
    (fun (lc : RtsLocals) i =>
      (fun (n : ℚ) =>
        lc |> (fun lc => { lc with nuRts := lc.nuRts.set i (nu + 360.985647 * idx sunRts.mRts i) })
           |> (fun lc => { lc with alphaPrime := lc.alphaPrime.set i (rtsAlphaDeltaPrime alpha n) })
           |> (fun lc => { lc with deltaPrime := lc.deltaPrime.set i (rtsAlphaDeltaPrime delta n) })
           |> (fun lc => { lc with
                 hPrime := lc.hPrime.set i
                   (limitDegrees180pm (idx lc.nuRts i + s.longitude - idx lc.alphaPrime i)) })
           |> (fun lc => { lc with
                 hRts := lc.hRts.set i
                   (rtsSunAltitude M s.latitude (idx lc.deltaPrime i) (idx lc.hPrime i)) }))
        (idx sunRts.mRts i + sunRts.deltaT / 86400))
    { nuRts := List.replicate SunCount 0, hRts := List.replicate SunCount 0,
      alphaPrime := List.replicate SunCount 0, deltaPrime := List.replicate SunCount 0,
      hPrime := List.replicate SunCount 0 }

/-- Method `calculateEotAndSunRiseTransitSet`: `sunRts` is the copy `*s` of the receiver;
the receiver gets `eot` and the six rise/transit/set outputs. -/
def calculateEotAndSunRiseTransitSet (M : GoMath) (s : spa) : spa :=
  let h0Prime : ℚ := -1 * (SunRadius + s.atmosRefract)
  let m := sunMeanLongitude s.jme
  let sEot : spa := (fun (s : spa) => { s with eot := eotf M m s.alpha s.delPsi s.epsilon }) s
  let nu := (sunRtsMidnight M s).nu
  let loop1 := sunRtsSamples M (sunRtsMidnight M s)
  let alpha := loop1.2.1
  let delta := loop1.2.2
  let sunRts : spa :=
    (fun (sunRts : spa) => { sunRts with
      mRts := sunRts.mRts.set SunTransit
        (approxSunTransitTime (idx alpha JdZero) sEot.longitude nu) }) loop1.1
  let h0 := sunHourAngleAtRiseSet M sEot.latitude (idx delta JdZero) h0Prime
  if h0 ≥ 0 then
    let sunRts1 := approxSunRiseAndSet sunRts h0
    let locals := rtsLoop M sEot sunRts1 nu alpha delta
    sEot
      |> (fun s => { s with srha := idx locals.hPrime SunRise })
      |> (fun s => { s with ssha := idx locals.hPrime SunSet })
      |> (fun s => { s with sta := idx locals.hRts SunTransit })
      |> (fun s => { s with
            suntransit :=
              dayfracToLocalHr
                (idx sunRts1.mRts SunTransit - idx locals.hPrime SunTransit / 360) s.timezone })
      |> (fun s => { s with
            sunrise :=
              dayfracToLocalHr (sunRiseAndSet M sunRts1.mRts locals.hRts locals.deltaPrime
                s.latitude locals.hPrime h0Prime SunRise) s.timezone })
      |> (fun s => { s with
            sunset :=
              dayfracToLocalHr (sunRiseAndSet M sunRts1.mRts locals.hRts locals.deltaPrime
                s.latitude locals.hPrime h0Prime SunSet) s.timezone })
  else
    (fun (s : spa) => { s with
      srha := -99999, ssha := -99999, sta := -99999,
      suntransit := -99999, sunrise := -99999, sunset := -99999 }) sEot

/-- The part of `Calculate` from the Julian day to the two azimuth angles, which runs for
every function code. -/
def calculateTopocentric (M : GoMath) (s : spa) : spa :=
  s |> (fun s => { s with
          jd := julianDay s.year s.month s.day s.hour s.minute s.second s.deltaUt1 s.timezone })
    |> calculateGeocentricSunRightAscensionAndDeclination M
    |> (fun s => { s with h := observerHourAngle s.nu s.longitude s.alpha })
    |> (fun s => { s with xi := sunEquatorialHorizontalParallax s.r })
    |> (fun s => rightAscensionParallaxAndTopocentricDec M s s.latitude s.elevation s.xi s.h
          s.delta)
    |> (fun s => { s with alphaPrime := topocentricRightAscension s.alpha s.delAlpha })
    |> (fun s => { s with hPrime := topocentricLocalHourAngle s.h s.delAlpha })
    |> (fun s => { s with e0 := topocentricElevationAngle M s.latitude s.deltaPrime s.hPrime })
    |> (fun s => { s with
          delE := atmosphericRefractionCorrection M s.pressure s.temperature s.atmosRefract
            s.e0 })
    |> (fun s => { s with e := topocentricElevationAngleCorrected s.e0 s.delE })
    |> (fun s => { s with zenith := topocentricZenithAngle s.e })
    |> (fun s => { s with
          azimuthAstro := topocentricAzimuthAngleAstro M s.hPrime s.latitude s.deltaPrime })
    |> (fun s => { s with azimuth := topocentricAzimuthAngle s.azimuthAstro })

/-- The two conditional blocks that end `Calculate`: the incidence angle for `SpaZaInc` and
`SpaAll`, the equation of time and rise/transit/set for `SpaZaRts` and `SpaAll`. -/
def calculateSelected (M : GoMath) (s : spa) : spa :=
  s |> (fun s =>
          if s.function = SpaZaInc ∨ s.function = SpaAll then
            { s with
              incidence :=
                surfaceIncidenceAngle M s.zenith s.azimuthAstro s.azmRotation s.slope }
          else s)
    |> (fun s =>
          if s.function = SpaZaRts ∨ s.function = SpaAll then
            calculateEotAndSunRiseTransitSet M s
          else s)

/-- Method `Calculate`: renews the date with `s.SetDate(s.GetDate())`, validates, and on
success runs the pipeline.  The result is the returned error together with the state left
behind. -/
def Calculate (M : GoMath) (s : spa) : Option String × spa :=
  match validate (SetDate s (GetDate s)) with
  | some err => (some err, SetDate s (GetDate s))
  | none => (none, calculateSelected M (calculateTopocentric M (SetDate s (GetDate s))))

/-- Function `NewSpa`: a fresh state with the given request and function `SpaAll`, and the
result of `Calculate` on it. -/
def NewSpa (M : GoMath) (dt : GoTime)
    (latitude longitude elevation pressure temperature deltaT deltaUt1 slope azmRotation
      atmosRefract : ℚ) : spa × Option String :=
  (fun (res : Option String × spa) => (res.2, res.1))
    (Calculate M
      ((fun (s : spa) => { s with
          latitude := latitude, longitude := longitude, elevation := elevation,
          pressure := pressure, temperature := temperature, deltaT := deltaT,
          deltaUt1 := deltaUt1, slope := slope, azmRotation := azmRotation,
          atmosRefract := atmosRefract, function := SpaAll })
        (SetDate (init zeroSpa) dt)))

/-- The uncorrected value of the claim on the Gregorian correction:
`int(365.25*(Y+4716)) + int(30.6001*(M+1)) + dayDecimal - 1524.5`, where `Y`, `M` are the
year and month after January and February are moved to months 13 and 14 of the year
before. -/
def julianDayUncorrected (year month day hour minute : ℤ) (second dut1 tz : ℚ) : ℚ :=
  let dayDecimal : ℚ :=
    (day : ℚ) + ((hour : ℚ) - tz + ((minute : ℚ) + (second + dut1) / 60) / 60) / 24
  let M : ℤ := if month < 3 then month + 12 else month
  let Y : ℤ := if month < 3 then year - 1 else year
  (goInt (365.25 * ((Y : ℚ) + 4716)) : ℚ) + (goInt (30.6001 * ((M : ℚ) + 1)) : ℚ)
    + dayDecimal - 1524.5

/-- The Gregorian correction term `2 - a + int(a/4)` with `a = float64(Y/100)`, `Y` the
year after the month adjustment. -/
def gregorianCorrection (year month : ℤ) : ℚ :=
  let Y : ℤ := if month < 3 then year - 1 else year
  let a : ℚ := ((Int.tdiv Y 100 : ℤ) : ℚ)
  2 - a + (goInt (a / 4) : ℚ)

/-- A date-time is on or before 1582-10-04 12:00:00. -/
def upToJulianNoon (year month day hour minute : ℤ) (second : ℚ) : Prop :=
  year < 1582 ∨ (year = 1582 ∧ (month < 10 ∨ (month = 10 ∧ (day < 4 ∨
    (day = 4 ∧ (hour < 12 ∨ (hour = 12 ∧ minute = 0 ∧ second = 0)))))))

/-- A date is on or after 1582-10-15. -/
def fromGregorianStart (year month day : ℤ) : Prop :=
  year > 1582 ∨ (year = 1582 ∧ (month > 10 ∨ (month = 10 ∧ day ≥ 15)))

/-- The claimed order of the bound checks of `validate`, each with its message: the check
is `true` when the field is out of range. -/
def validateChecks (s : spa) : List (Bool × String) :=
  [ (decide (s.year < -2000 ∨ s.year > 6000), "invalid year"),
    (decide (s.month < 1 ∨ s.month > 12), "invalid month"),
    (decide (s.day < 1 ∨ s.day > 31), "invalid day"),
    (decide (s.hour < 0 ∨ s.hour > 24), "invalid hour"),
    (decide (s.minute < 0 ∨ s.minute > 59), "invalid minute"),
    (decide (s.second < 0 ∨ s.second ≥ 60), "invalid second"),
    (decide (s.pressure < 0 ∨ s.pressure > 5000), "invalid pressure"),
    (decide (s.temperature ≤ -273 ∨ s.temperature > 6000), "invalid temperature"),
    (decide (s.deltaUt1 ≤ -1 ∨ s.deltaUt1 ≥ 1), "invalid UTC / UT difference (deltaUt1)"),
    (decide (s.hour = 24 ∧ s.minute > 0), "invalid hour/minute"),
    (decide (s.hour = 24 ∧ s.second > 0), "invalid hour/second"),
    (decide (|s.deltaT| > 8000),
      "invalid difference between earth rotation time and terrestrial time (deltaT)"),
    (decide (|s.timezone| > 18), "invalid timezone"),
    (decide (|s.longitude| > 180), "invalid longitude"),
    (decide (|s.latitude| > 90), "invalid latitude"),
    (decide (|s.atmosRefract| > 5), "invalid atmospheric refraction (atmosRefract)"),
    (decide (s.elevation < -6500000), "invalid elevation"),
    (decide ((s.function = SpaZaInc ∨ s.function = SpaAll) ∧ |s.slope| > 360),
      "invalid surface slope"),
    (decide ((s.function = SpaZaInc ∨ s.function = SpaAll) ∧ |s.azmRotation| > 360),
      "invalid surface azimuth rotation") ]

/-- The message of the first check that fails, `none` when none does. -/
def firstError : List (Bool × String) → Option String
  | [] => none
  | c :: rest => if c.1 = true then some c.2 else firstError rest

/-- The state reached by `calculateGeocentricSunRightAscensionAndDeclination` from a state
that holds only the Julian day `jd` and `deltaT`, the two fields it reads. -/
def geoState (M : GoMath) (jd deltaT : ℚ) : spa :=
  calculateGeocentricSunRightAscensionAndDeclination M { zeroSpa with jd := jd, deltaT := deltaT }

/-- The entry `delta[JdZero]` of `calculateEotAndSunRiseTransitSet`: the declination sample
of the day. -/
def rtsDeltaZero (M : GoMath) (s : spa) : ℚ :=
  idx (sunRtsSamples M (sunRtsMidnight M s)).2.2 JdZero

/-- The local `h0` of `calculateEotAndSunRiseTransitSet`: the result of
`sunHourAngleAtRiseSet` for the day. -/
def rtsH0 (M : GoMath) (s : spa) : ℚ :=
  sunHourAngleAtRiseSet M s.latitude (rtsDeltaZero M s) (-1 * (SunRadius + s.atmosRefract))

/-- The argument of the arccosine in `sunHourAngleAtRiseSet`. -/
def riseSetArgument (M : GoMath) (latitude deltaZero h0Prime : ℚ) : ℚ :=
  (M.sin (deg2rad M h0Prime) - M.sin (deg2rad M latitude) * M.sin (deg2rad M deltaZero)) /
    (M.cos (deg2rad M latitude) * M.cos (deg2rad M deltaZero))

/-- The stand-in library made exact at two points where the library of Go is exact:
`math.Sin(-math.Pi/2) = -1` and `math.Acos(-1) = math.Pi`. -/
def cornerMath : GoMath :=
  { polyMath with
    sin := fun x => if x = -(355 / 226) then -1 else polyMath.sin x
    acos := fun x => if x = -1 then 355 / 113 else polyMath.acos x }

/-- The copy `sunRts` of `calculateEotAndSunRiseTransitSet` when the loop over transit, rise
and set starts (after `sunRts.approxSunRiseAndSet(h0)`). -/
def rtsSunRts (M : GoMath) (s : spa) : spa :=
  approxSunRiseAndSet
    ((fun (sunRts : spa) => { sunRts with
      mRts := sunRts.mRts.set SunTransit
        (approxSunTransitTime (idx (sunRtsSamples M (sunRtsMidnight M s)).2.1 JdZero)
          s.longitude (sunRtsMidnight M s).nu) })
      (sunRtsSamples M (sunRtsMidnight M s)).1)
    (rtsH0 M s)

/-- The local `n` of the loop over transit, rise and set:
`n = sunRts.mRts[i] + sunRts.deltaT/86400.0`. -/
def rtsFraction (sunRts : spa) (i : ℕ) : ℚ := idx sunRts.mRts i + sunRts.deltaT / 86400

/-- The sum of `A*cos(B + C*jme)` over all rows `(A, B, C)` of one subset of a table of
periodic terms, as the specification words it. -/
def periodicSum (M : GoMath) (rows : List (List ℚ)) (jme : ℚ) : ℚ :=
  (rows.map (fun r => idx r TermA * M.cos (idx r TermB + idx r TermC * jme))).sum

/-- The combination `(sum over i of S_i * jme^i) / 1e8` of the subset sums of a table, as the
specification words it. -/
def periodicSeries (M : GoMath) (table : List (List (List ℚ))) (jme : ℚ) : ℚ :=
  (∑ i in Finset.range table.length, periodicSum M (row table i) jme * jme ^ i) / 100000000

/-- The coefficients of the mean obliquity in ascending powers of `u = jme/10`. -/
def obliquityCoefficients : List ℚ :=
  [84381.448, -4680.93, -1.55, 1999.25, -51.38, -249.67, -39.05, 7.12, 27.87, 5.79, 2.45]

/-- The quadratic interpolation through three equally spaced samples `um`, `u0`, `up`, at
the fraction `n` of a step from `u0`. -/
def quadraticInterpolation (um u0 up n : ℚ) : ℚ :=
  u0 + n * ((u0 - um) + (up - u0) + ((up - u0) - (u0 - um)) * n) / 2

/-- Method `Add` of `time.Time` for a whole number of seconds, in a fixed zone: the clock
reading moves by that many seconds and is normalised as by `time.Date`. -/
def timeAdd (t : GoTime) (seconds : ℤ) : GoTime :=
  timeDate t.year t.month t.day t.hour t.minute (t.second + seconds) t.offset

/-- Method `GetSunrise`: local midnight of the date plus the hours, minutes and seconds of
`calculateHourMinSec(s.sunrise)`. -/
def GetSunrise (s : spa) : GoTime :=
  (fun (hms : ℤ × ℤ × ℤ) =>
    timeAdd (timeDate s.year s.month s.day 0 0 0 (goInt (s.timezone * 3600)))
      (3600 * hms.1 + 60 * hms.2.1 + hms.2.2))
    (calculateHourMinSec s.sunrise)

/-- Method `GetSunset`: local midnight of the date plus the hours, minutes and seconds of
`calculateHourMinSec(s.sunset)`. -/
def GetSunset (s : spa) : GoTime :=
  (fun (hms : ℤ × ℤ × ℤ) =>
    timeAdd (timeDate s.year s.month s.day 0 0 0 (goInt (s.timezone * 3600)))
      (3600 * hms.1 + 60 * hms.2.1 + hms.2.2))
    (calculateHourMinSec s.sunset)

/-- The argument `Y_i` of row `i` of the nutation series: the sum over j = 0..4 of
`x[j] * YTerms[i][j]`, as the specification words it. -/
def nutationArgument (x : List ℚ) (i : ℕ) : ℚ :=
  ∑ j in Finset.range 5, idx x j * ((idx (row YTerms i) j : ℤ) : ℚ)

/-- The Gregorian day number of a calendar date, as the claim words it:
`day + floor((153*m + 2)/5) + 365*y + floor(y/4) - floor(y/100) + floor(y/400) - 32045`
with `a = floor((14 - month)/12)`, `y = year + 4800 - a`, `m = month + 12*a - 3`. -/
def gregorianDayNumber (year month day : ℤ) : ℤ :=
  let a := (14 - month) / 12
  let y := year + 4800 - a
  let m := month + 12 * a - 3
  day + (153 * m + 2) / 5 + 365 * y + y / 4 - y / 100 + y / 400 - 32045

/-- Leap years of the Gregorian calendar. -/
def isLeapYear (year : ℤ) : Bool :=
  decide ((year % 4 = 0 ∧ year % 100 ≠ 0) ∨ year % 400 = 0)

/-- Number of days of a month of the Gregorian calendar. -/
def daysInMonth (year month : ℤ) : ℤ :=
  if month = 2 then (if isLeapYear year = true then 29 else 28)
  else if month = 4 ∨ month = 6 ∨ month = 9 ∨ month = 11 then 30
  else 31

/-- The calendar date that follows a date of the Gregorian calendar. -/
def nextDate (year month day : ℤ) : ℤ × ℤ × ℤ :=
  if day < daysInMonth year month then (year, month, day + 1)
  else if month < 12 then (year, month + 1, 1)
  else (year + 1, 1, 1)

/-! ## float64 rounding

The functions below repeat five utility functions of the source with the rounding of every
float64 operation written out (one rounding per operation, no fused multiply-add), for the
inputs at which rounding decides the result. -/

/-- Rounding of a rational to the nearest integer, ties to the even one. -/
def roundHalfEven (q : ℚ) : ℤ :=
  if q - (⌊q⌋ : ℤ) < 1 / 2 then ⌊q⌋
  else if q - (⌊q⌋ : ℤ) > 1 / 2 then ⌊q⌋ + 1
  else if ⌊q⌋ % 2 = 0 then ⌊q⌋ else ⌊q⌋ + 1

/-- The float64 nearest to `x` (IEEE 754 binary64: 53 significant bits, round to nearest,
ties to even, gradual underflow below 2^-1022).  Overflow to infinity is not modelled: no
value used with it reaches 2^1024. -/
def float64 (x : ℚ) : ℚ :=
  if x = 0 then 0
  else (roundHalfEven (x / (2 : ℚ) ^ (max (Int.log 2 |x|) (-1022) - 52)) : ℚ) *
    (2 : ℚ) ^ (max (Int.log 2 |x|) (-1022) - 52)

/-- Method `limitDegrees` on float64 values: each of the division, the subtraction, the
multiplication and the addition rounds its result (`math.Floor` is exact). -/
def limitDegrees64 (degrees : ℚ) : ℚ :=
  let degrees := float64 (degrees / 360)
  let limited := float64 (360 * float64 (degrees - goFloor degrees))
  if limited < 0 then float64 (limited + 360) else limited

/-- Method `limitZero2one` on float64 values. -/
def limitZero2one64 (value : ℚ) : ℚ :=
  let limited := float64 (value - goFloor value)
  if limited < 0 then float64 (limited + 1) else limited

/-- Method `dayfracToLocalHr` on float64 values. -/
def dayfracToLocalHr64 (dayfrac timezone : ℚ) : ℚ :=
  float64 (24 * limitZero2one64 (float64 (dayfrac + float64 (timezone / 24))))

/-- Method `observerHourAngle` on float64 values: `limitDegrees(nu + longitude - alphaDeg)`
with the sum and the difference rounded. -/
def observerHourAngle64 (nu longitude alphaDeg : ℚ) : ℚ :=
  limitDegrees64 (float64 (float64 (nu + longitude) - alphaDeg))

/-- Method `calculateHourMinSec` on float64 values: the conversions `float64(int(x))` are
exact, the subtractions and the multiplications by 60 round. -/
def calculateHourMinSec64 (decHours : ℚ) : ℤ × ℤ × ℤ :=
  let min : ℚ := float64 (60 * float64 (decHours - (goInt decHours : ℚ)))
  let sec : ℚ := float64 (60 * float64 (min - (goInt min : ℚ)))
  (⌊decHours⌋, goInt min, goInt sec)

/-! ## Theorems -/

theorem ite_some_eq_none {α : Type} (c : Prop) [Decidable c] (a : α) (x : Option α) :
    (if c then some a else x) = none ↔ ¬ c ∧ x = none := by
  by_cases h : c
  · rw [if_pos h]; exact ⟨fun e => Option.noConfusion e, fun e => absurd h e.1⟩
  · rw [if_neg h]; exact ⟨fun e => ⟨h, e⟩, fun e => e.2⟩

/-- Method `validate` returns nil exactly when none of its checks fires. -/
theorem validate_none_unfold (s : spa) : validate s = none ↔
    (¬ (s.year < -2000 ∨ s.year > 6000) ∧ ¬ (s.month < 1 ∨ s.month > 12) ∧
     ¬ (s.day < 1 ∨ s.day > 31) ∧ ¬ (s.hour < 0 ∨ s.hour > 24) ∧
     ¬ (s.minute < 0 ∨ s.minute > 59) ∧ ¬ (s.second < 0 ∨ s.second ≥ 60) ∧
     ¬ (s.pressure < 0 ∨ s.pressure > 5000) ∧
     ¬ (s.temperature ≤ -273 ∨ s.temperature > 6000) ∧
     ¬ (s.deltaUt1 ≤ -1 ∨ s.deltaUt1 ≥ 1) ∧
     ¬ (s.hour = 24 ∧ s.minute > 0) ∧ ¬ (s.hour = 24 ∧ s.second > 0) ∧
     ¬ (|s.deltaT| > 8000) ∧ ¬ (|s.timezone| > 18) ∧ ¬ (|s.longitude| > 180) ∧
     ¬ (|s.latitude| > 90) ∧ ¬ (|s.atmosRefract| > 5) ∧ ¬ (s.elevation < -6500000) ∧
     (s.function = SpaZaInc ∨ s.function = SpaAll →
        ¬ (|s.slope| > 360) ∧ ¬ (|s.azmRotation| > 360))) := by
  unfold validate
  simp only [ite_some_eq_none]
  by_cases hf : s.function = SpaZaInc ∨ s.function = SpaAll
  · simp only [hf, if_true, ite_some_eq_none, and_true, true_implies]
  · simp only [hf, if_false, and_true, false_implies]

/-- The bounds of the claims, as the negations that `validate` tests. -/
theorem validate_none_iff_bounds (s : spa) : validate s = none ↔
    ((-2000 ≤ s.year ∧ s.year ≤ 6000) ∧ (1 ≤ s.month ∧ s.month ≤ 12) ∧
     (1 ≤ s.day ∧ s.day ≤ 31) ∧ (0 ≤ s.hour ∧ s.hour ≤ 24) ∧
     (0 ≤ s.minute ∧ s.minute ≤ 59) ∧ (0 ≤ s.second ∧ s.second < 60) ∧
     (s.hour = 24 → s.minute = 0 ∧ s.second = 0) ∧
     (0 ≤ s.pressure ∧ s.pressure ≤ 5000) ∧
     (-273 < s.temperature ∧ s.temperature ≤ 6000) ∧
     (-1 < s.deltaUt1 ∧ s.deltaUt1 < 1) ∧
     |s.deltaT| ≤ 8000 ∧ |s.timezone| ≤ 18 ∧ |s.longitude| ≤ 180 ∧
     |s.latitude| ≤ 90 ∧ |s.atmosRefract| ≤ 5 ∧ -6500000 ≤ s.elevation ∧
     (s.function = SpaZaInc ∨ s.function = SpaAll →
        |s.slope| ≤ 360 ∧ |s.azmRotation| ≤ 360)) := by
  rw [validate_none_unfold]
  simp only [not_or, not_and, not_lt, not_le, gt_iff_lt, ge_iff_le]
  constructor
  · rintro ⟨c1, c2, c3, c4, c5, c6, c7, c8, c9, c10, c11, c12, c13, c14, c15, c16, c17, c18⟩
    exact ⟨c1, c2, c3, c4, c5, c6,
      fun h24 => ⟨le_antisymm (c10 h24) c5.1, le_antisymm (c11 h24) c6.1⟩,
      c7, c8, c9, c12, c13, c14, c15, c16, c17, c18⟩
  · rintro ⟨h1, h2, h3, h4, h5, h6, h7, h8, h9, h10, h11, h12, h13, h14, h15, h16, h17⟩
    exact ⟨h1, h2, h3, h4, h5, h6, h8, h9, h10, fun h24 => le_of_eq (h7 h24).1,
      fun h24 => le_of_eq (h7 h24).2, h11, h12, h13, h14, h15, h16, h17⟩

/-- C1: `validate` returns nil exactly when every documented bound holds; pressure 5000 is
accepted and pressure 5000.001 is rejected. -/
theorem validate_eq_none_iff (s : spa) :
    (validate s = none ↔
      ((-2000 ≤ s.year ∧ s.year ≤ 6000) ∧ (1 ≤ s.month ∧ s.month ≤ 12) ∧
       (1 ≤ s.day ∧ s.day ≤ 31) ∧ (0 ≤ s.hour ∧ s.hour ≤ 24) ∧
       (0 ≤ s.minute ∧ s.minute ≤ 59) ∧ (0 ≤ s.second ∧ s.second < 60) ∧
       (s.hour = 24 → s.minute = 0 ∧ s.second = 0) ∧
       (0 ≤ s.pressure ∧ s.pressure ≤ 5000) ∧
       (-273 < s.temperature ∧ s.temperature ≤ 6000) ∧
       (-1 < s.deltaUt1 ∧ s.deltaUt1 < 1) ∧
       |s.deltaT| ≤ 8000 ∧ |s.timezone| ≤ 18 ∧ |s.longitude| ≤ 180 ∧
       |s.latitude| ≤ 90 ∧ |s.atmosRefract| ≤ 5 ∧ -6500000 ≤ s.elevation ∧
       (s.function = SpaZaInc ∨ s.function = SpaAll →
          |s.slope| ≤ 360 ∧ |s.azmRotation| ≤ 360))) ∧
    validate { refSpa with pressure := 5000 } = none ∧
    validate { refSpa with pressure := 5000.001 } ≠ none := by
  refine ⟨validate_none_iff_bounds s, ?_, ?_⟩
  · rw [validate_none_unfold]
    norm_num [refSpa, init, zeroSpa, SpaAll, SpaZaInc, lt_abs]
  · rw [Ne, validate_none_unfold]
    norm_num [refSpa, init, zeroSpa, SpaAll, SpaZaInc, lt_abs]

/-- C5: slope and azimuth rotation are checked only when incidence is requested.  With
function `SpaZa` or `SpaZaRts` and every other field in range, `validate` returns nil
whatever slope and azmRotation are (slope 1000 on the reference request is accepted); with
function `SpaZaInc` or `SpaAll`, a slope or an azimuth rotation beyond 360 in absolute value
gives an error. -/
theorem validate_slope_checked_iff_incidence (s : spa) :
    ((s.function = SpaZa ∨ s.function = SpaZaRts) →
      ((-2000 ≤ s.year ∧ s.year ≤ 6000) ∧ (1 ≤ s.month ∧ s.month ≤ 12) ∧
       (1 ≤ s.day ∧ s.day ≤ 31) ∧ (0 ≤ s.hour ∧ s.hour ≤ 24) ∧
       (0 ≤ s.minute ∧ s.minute ≤ 59) ∧ (0 ≤ s.second ∧ s.second < 60) ∧
       (s.hour = 24 → s.minute = 0 ∧ s.second = 0) ∧
       (0 ≤ s.pressure ∧ s.pressure ≤ 5000) ∧
       (-273 < s.temperature ∧ s.temperature ≤ 6000) ∧
       (-1 < s.deltaUt1 ∧ s.deltaUt1 < 1) ∧
       |s.deltaT| ≤ 8000 ∧ |s.timezone| ≤ 18 ∧ |s.longitude| ≤ 180 ∧
       |s.latitude| ≤ 90 ∧ |s.atmosRefract| ≤ 5 ∧ -6500000 ≤ s.elevation) →
      ∀ slope azmRotation : ℚ,
        validate { s with slope := slope, azmRotation := azmRotation } = none) ∧
    ((s.function = SpaZaInc ∨ s.function = SpaAll) →
      (|s.slope| > 360 ∨ |s.azmRotation| > 360) → validate s ≠ none) ∧
    validate { refSpa with function := SpaZa, slope := 1000 } = none := by
  refine ⟨?_, ?_, ?_⟩
  · rintro hf ⟨h1, h2, h3, h4, h5, h6, h7, h8, h9, h10, h11, h12, h13, h14, h15, h16⟩
      slope azmRotation
    rw [validate_none_iff_bounds]
    refine ⟨h1, h2, h3, h4, h5, h6, h7, h8, h9, h10, h11, h12, h13, h14, h15, h16, ?_⟩
    intro hi
    exfalso
    rcases hf with hf | hf <;> rcases hi with hi | hi <;> rw [hf] at hi <;> revert hi <;> decide
  · intro hf hbad hv
    have h := ((validate_none_iff_bounds s).mp hv).2.2.2.2.2.2.2.2.2.2.2.2.2.2.2.2 hf
    rcases hbad with hb | hb
    · exact absurd h.1 (not_le.mpr hb)
    · exact absurd h.2 (not_le.mpr hb)
  · rw [validate_none_unfold]
    norm_num [refSpa, init, zeroSpa, SpaAll, SpaZaInc, SpaZa, lt_abs]

/-- Witness for C5: the reference request with function `SpaZaRts` has every other field in
range, so it validates with slope 1000 and azimuth rotation -720. -/
theorem validate_slope_checked_iff_incidence_witness :
    validate { ({ refSpa with function := SpaZaRts } : spa) with
      slope := 1000, azmRotation := -720 } = none :=
  (validate_slope_checked_iff_incidence { refSpa with function := SpaZaRts }).1
    (Or.inr rfl)
    (by norm_num [refSpa, init, zeroSpa, abs_le])
    1000 (-720)

theorem firstError_of_first (cs : List (Bool × String)) :
    ∀ (i : ℕ) (c : Bool × String), cs[i]? = some c → c.1 = true →
      (∀ j, j < i → ∀ d, cs[j]? = some d → d.1 = false) → firstError cs = some c.2 := by
  induction cs with
  | nil => intro i c h; simp at h
  | cons a rest ih =>
    intro i c h hc hlt
    cases i with
    | zero =>
      simp only [List.getElem?_cons_zero, Option.some.injEq] at h
      subst h
      simp only [firstError, hc, if_true]
    | succ k =>
      have ha : a.1 = false := hlt 0 (Nat.succ_pos k) a (by simp)
      simp only [List.getElem?_cons_succ] at h
      simp only [firstError, ha, Bool.false_eq_true, if_false]
      exact ih k c h hc (fun j hj d hd => hlt (j + 1) (Nat.succ_lt_succ hj) d (by simpa using hd))

theorem firstError_of_all_pass (cs : List (Bool × String))
    (h : ∀ c ∈ cs, c.1 = false) : firstError cs = none := by
  induction cs with
  | nil => rfl
  | cons a rest ih =>
    have ha : a.1 = false := h a (List.mem_cons_self _ _)
    simp only [firstError, ha, Bool.false_eq_true, if_false]
    exact ih (fun c hc => h c (List.mem_cons_of_mem _ hc))

theorem validate_eq_firstError (s : spa) : validate s = firstError (validateChecks s) := by
  unfold validate validateChecks
  simp only [firstError, decide_eq_true_eq]
  by_cases hf : s.function = SpaZaInc ∨ s.function = SpaAll
  · simp only [hf, if_true, true_and]
  · simp only [hf, if_false, false_and]

/-- C6: `validate` reports one error, that of the first failing check in the order year,
month, day, hour, minute, second, pressure, temperature, deltaUt1, hour/minute, hour/second,
deltaT, timezone, longitude, latitude, atmosRefract, elevation, slope, azmRotation, with the
message naming the field; it reports none when all checks pass; a year out of range gives
"invalid year" and a pressure out of range gives "invalid pressure". -/
theorem validate_reports_first_failing (s : spa) :
    validate s = firstError (validateChecks s) ∧
    (∀ (i : ℕ) (c : Bool × String), (validateChecks s)[i]? = some c → c.1 = true →
      (∀ j, j < i → ∀ d, (validateChecks s)[j]? = some d → d.1 = false) →
      validate s = some c.2) ∧
    ((∀ c ∈ validateChecks s, c.1 = false) → validate s = none) ∧
    validate { refSpa with year := 7000 } = some "invalid year" ∧
    validate { refSpa with pressure := 5000.001 } = some "invalid pressure" := by
  refine ⟨validate_eq_firstError s, ?_, ?_, ?_, ?_⟩
  · intro i c h hc hlt
    rw [validate_eq_firstError]
    exact firstError_of_first _ i c h hc hlt
  · intro h
    rw [validate_eq_firstError]
    exact firstError_of_all_pass _ h
  · norm_num [validate, refSpa, init, zeroSpa]
  · norm_num [validate, refSpa, init, zeroSpa]

/-- Witness for C6: on the reference request with month 0 and day 0 the first failing check
is the month check (index 1), and `validate` reports "invalid month". -/
theorem validate_reports_first_failing_witness :
    validate { refSpa with month := 0, day := 0 } = some "invalid month" :=
  (validate_reports_first_failing { refSpa with month := 0, day := 0 }).2.1 1
    (true, "invalid month") (by norm_num [validateChecks, refSpa, init, zeroSpa])
    rfl
    (by
      intro j hj d hd
      have hj0 : j = 0 := by omega
      subst hj0
      simp only [validateChecks, List.getElem?_cons_zero, Option.some.injEq] at hd
      subst hd
      norm_num [refSpa, init, zeroSpa])

/-! ### Julian day -/

theorem goInt_le_add_one (x : ℚ) : (goInt x : ℚ) < x + 1 := by
  unfold goInt
  split
  · exact lt_of_le_of_lt (Int.floor_le x) (lt_add_one x)
  · exact Int.ceil_lt_add_one x

theorem sub_one_lt_goInt (x : ℚ) : x - 1 < (goInt x : ℚ) := by
  unfold goInt
  split
  · exact Int.sub_one_lt_floor x
  · exact lt_of_lt_of_le (sub_one_lt x) (Int.le_ceil x)

/-- The result of `julianDay` is the uncorrected value, plus the Gregorian correction when
the uncorrected value exceeds 2299160. -/
theorem julianDay_eq (year month day hour minute : ℤ) (second dut1 tz : ℚ) :
    julianDay year month day hour minute second dut1 tz =
      if julianDayUncorrected year month day hour minute second dut1 tz > 2299160 then
        julianDayUncorrected year month day hour minute second dut1 tz +
          gregorianCorrection year month
      else julianDayUncorrected year month day hour minute second dut1 tz := rfl

/-- Julian days of 2003-10-17 12:30 for the seconds and timezones used below. -/
theorem julianDay_2003_10_17 :
    julianDay 2003 10 17 12 30 30 0 (-7) = 2452930 + 27030 / 86400 ∧
    julianDay 2003 10 17 12 30 30.5 0 (-7) = 2452930 + 27030.5 / 86400 ∧
    julianDay 2003 10 17 12 30 30 0 5 = 2452929 + 70230 / 86400 ∧
    julianDay 2003 10 17 12 30 30 0 5.5 = 2452929 + 68430 / 86400 := by
  have h20 : Int.tdiv 2003 100 = 20 := by decide
  refine ⟨?_, ?_, ?_, ?_⟩ <;> norm_num [julianDay, goInt, h20]

/-- C7: the Julian day of the reference request is exactly 2452930 + 27030/86400, within
1e-6 of 2452930.312847. -/
theorem julianDay_reference :
    julianDay 2003 10 17 12 30 30 0 (-7) = 2452930 + 27030 / 86400 ∧
    |julianDay 2003 10 17 12 30 30 0 (-7) - 2452930.312847| ≤ 1 / 1000000 := by
  have h : julianDay 2003 10 17 12 30 30 0 (-7) = 2452930 + 27030 / 86400 := by
    exact julianDay_2003_10_17.1
  refine ⟨h, ?_⟩
  rw [h, abs_le]
  constructor <;> norm_num

/-- C8: the Julian day count is 0 at noon UT of 1 January -4712 and 2451545 at noon UT of
1 January 2000, where the Julian century is 0. -/
theorem julianDay_epochs :
    julianDay (-4712) 1 1 12 0 0 0 0 = 0 ∧
    julianDay 2000 1 1 12 0 0 0 0 = 2451545 ∧
    julianCentury (julianDay 2000 1 1 12 0 0 0 0) = 0 := by
  have h19 : Int.tdiv 1999 100 = 19 := by decide
  have h0 : julianDay (-4712) 1 1 12 0 0 0 0 = 0 := by norm_num [julianDay, goInt]
  have h1 : julianDay 2000 1 1 12 0 0 0 0 = 2451545 := by norm_num [julianDay, goInt, h19]
  refine ⟨h0, h1, ?_⟩
  rw [h1]
  norm_num [julianCentury]

/-- The uncorrected value at timezone 0 and deltaUt1 0, with the adjusted year `Y` and month
`M` given. -/
theorem julianDayUncorrected_eq (year month day hour minute : ℤ) (second : ℚ) (Y M : ℤ)
    (hY : (if month < 3 then year - 1 else year) = Y)
    (hM : (if month < 3 then month + 12 else month) = M) :
    julianDayUncorrected year month day hour minute second 0 0 =
      (goInt (365.25 * ((Y : ℚ) + 4716)) : ℚ) + (goInt (30.6001 * ((M : ℚ) + 1)) : ℚ)
        + ((day : ℚ) + ((hour : ℚ) + ((minute : ℚ) + second / 60) / 60) / 24) - 1524.5 := by
  unfold julianDayUncorrected
  simp only [hY, hM, sub_zero, add_zero]

/-- Up to 1582-10-04 12:00:00 the uncorrected value does not exceed 2299160. -/
theorem julianDayUncorrected_le_of_upToJulianNoon (year month day hour minute : ℤ) (second : ℚ)
    (hm : 1 ≤ month ∧ month ≤ 12) (hd : 1 ≤ day ∧ day ≤ 31) (hh : 0 ≤ hour ∧ hour ≤ 24)
    (hmin : 0 ≤ minute ∧ minute ≤ 59) (hs : 0 ≤ second ∧ second < 60)
    (hb : upToJulianNoon year month day hour minute second) :
    julianDayUncorrected year month day hour minute second 0 0 ≤ 2299160 := by
  have hd1 : (day : ℚ) ≤ 31 := by exact_mod_cast hd.2
  have hh1 : (hour : ℚ) ≤ 24 := by exact_mod_cast hh.2
  have hmi1 : (minute : ℚ) ≤ 59 := by exact_mod_cast hmin.2
  have hs1 := hs.2
  -- a year of at most 1581 after the month adjustment
  have early : ∀ Y M : ℤ, Y ≤ 1581 → M ≤ 14 →
      (goInt (365.25 * ((Y : ℚ) + 4716)) : ℚ) + (goInt (30.6001 * ((M : ℚ) + 1)) : ℚ)
        + ((day : ℚ) + ((hour : ℚ) + ((minute : ℚ) + second / 60) / 60) / 24) - 1524.5
        ≤ 2299160 := by
    intro Y M hY hM
    have hYq : (Y : ℚ) ≤ 1581 := by exact_mod_cast hY
    have hMq : (M : ℚ) ≤ 14 := by exact_mod_cast hM
    have b1 := goInt_le_add_one (365.25 * ((Y : ℚ) + 4716))
    have b2 := goInt_le_add_one (30.6001 * ((M : ℚ) + 1))
    norm_num at b1 b2 ⊢
    linarith
  by_cases h3 : month < 3
  · -- January and February belong to the year before
    rw [julianDayUncorrected_eq year month day hour minute second (year - 1) (month + 12)
      (if_pos h3) (if_pos h3)]
    apply early
    · rcases hb with hb | hb <;> omega
    · omega
  · rw [julianDayUncorrected_eq year month day hour minute second year month
      (if_neg h3) (if_neg h3)]
    rcases hb with hb | ⟨hy, hb⟩
    · exact early year month (by omega) (by omega)
    · subst hy
      have e1 : goInt (365.25 * (((1582 : ℤ) : ℚ) + 4716)) = 2300344 := by norm_num [goInt]
      rw [e1]
      rcases hb with hb | ⟨hmo, hb⟩
      · have hMq : (month : ℚ) ≤ 9 := by exact_mod_cast (by omega : month ≤ 9)
        have b2 := goInt_le_add_one (30.6001 * ((month : ℚ) + 1))
        norm_num at b2 ⊢
        linarith
      · subst hmo
        have e2 : goInt (30.6001 * (((10 : ℤ) : ℚ) + 1)) = 336 := by norm_num [goInt]
        rw [e2]
        rcases hb with hb | ⟨hday, hb⟩
        · have hdq : (day : ℚ) ≤ 3 := by exact_mod_cast (by omega : day ≤ 3)
          norm_num
          linarith
        · subst hday
          rcases hb with hb | ⟨hho, hmi0, hs0⟩
          · have hhq : (hour : ℚ) ≤ 11 := by exact_mod_cast (by omega : hour ≤ 11)
            norm_num
            linarith
          · subst hho hmi0 hs0
            norm_num

/-- From 1582-10-15 on the uncorrected value exceeds 2299160. -/
theorem julianDayUncorrected_gt_of_fromGregorianStart (year month day hour minute : ℤ)
    (second : ℚ)
    (hm : 1 ≤ month ∧ month ≤ 12) (hd : 1 ≤ day ∧ day ≤ 31) (hh : 0 ≤ hour ∧ hour ≤ 24)
    (hmin : 0 ≤ minute ∧ minute ≤ 59) (hs : 0 ≤ second ∧ second < 60)
    (ha : fromGregorianStart year month day) :
    julianDayUncorrected year month day hour minute second 0 0 > 2299160 := by
  have hd0 : (1 : ℚ) ≤ (day : ℚ) := by exact_mod_cast hd.1
  have hh0 : (0 : ℚ) ≤ (hour : ℚ) := by exact_mod_cast hh.1
  have hmi0 : (0 : ℚ) ≤ (minute : ℚ) := by exact_mod_cast hmin.1
  have hs0 := hs.1
  have late : ∀ Y M : ℤ, 1582 ≤ Y → 11 ≤ M →
      (goInt (365.25 * ((Y : ℚ) + 4716)) : ℚ) + (goInt (30.6001 * ((M : ℚ) + 1)) : ℚ)
        + ((day : ℚ) + ((hour : ℚ) + ((minute : ℚ) + second / 60) / 60) / 24) - 1524.5
        > 2299160 := by
    intro Y M hY hM
    have hYq : (1582 : ℚ) ≤ (Y : ℚ) := by exact_mod_cast hY
    have hMq : (11 : ℚ) ≤ (M : ℚ) := by exact_mod_cast hM
    have b1 := sub_one_lt_goInt (365.25 * ((Y : ℚ) + 4716))
    have b2 := sub_one_lt_goInt (30.6001 * ((M : ℚ) + 1))
    norm_num at b1 b2 ⊢
    linarith
  by_cases h3 : month < 3
  · rw [julianDayUncorrected_eq year month day hour minute second (year - 1) (month + 12)
      (if_pos h3) (if_pos h3)]
    apply late
    · rcases ha with ha | ha <;> omega
    · omega
  · rw [julianDayUncorrected_eq year month day hour minute second year month
      (if_neg h3) (if_neg h3)]
    rcases ha with ha | ⟨hy, ha⟩
    · have hYq : (1583 : ℚ) ≤ (year : ℚ) := by exact_mod_cast (by omega : 1583 ≤ year)
      have hMq : (3 : ℚ) ≤ (month : ℚ) := by exact_mod_cast (by omega : 3 ≤ month)
      have b1 := sub_one_lt_goInt (365.25 * ((year : ℚ) + 4716))
      have b2 := sub_one_lt_goInt (30.6001 * ((month : ℚ) + 1))
      norm_num at b1 b2 ⊢
      linarith
    · rcases ha with ha | ⟨hmo, hday⟩
      · exact late year month (by omega) (by omega)
      · subst hy hmo
        have e1 : goInt (365.25 * (((1582 : ℤ) : ℚ) + 4716)) = 2300344 := by norm_num [goInt]
        have e2 : goInt (30.6001 * (((10 : ℤ) : ℚ) + 1)) = 336 := by norm_num [goInt]
        have hdq : (15 : ℚ) ≤ (day : ℚ) := by exact_mod_cast hday
        rw [e1, e2]
        norm_num
        linarith

/-- C9, as stated, fails one second after noon of 1582-10-04: the uncorrected value is
2299160 + 1/86400, which exceeds 2299160, so `julianDay` applies the correction and
returns 2299150 + 1/86400. -/
theorem julianDay_correction_counterexample :
    julianDayUncorrected 1582 10 4 12 0 1 0 0 = 2299160 + 1 / 86400 ∧
    julianDay 1582 10 4 12 0 1 0 0 = 2299150 + 1 / 86400 ∧
    julianDay 1582 10 4 12 0 1 0 0 ≠ julianDayUncorrected 1582 10 4 12 0 1 0 0 := by
  have h15 : Int.tdiv 1582 100 = 15 := by decide
  have hu : julianDayUncorrected 1582 10 4 12 0 1 0 0 = 2299160 + 1 / 86400 := by
    norm_num [julianDayUncorrected, goInt]
  have hj : julianDay 1582 10 4 12 0 1 0 0 = 2299150 + 1 / 86400 := by
    norm_num [julianDay, goInt, h15]
  refine ⟨hu, hj, ?_⟩
  rw [hu, hj]
  norm_num

/-- C9, amended: `julianDay` adds the Gregorian correction `2 - a + int(a/4)` exactly when
the uncorrected value exceeds 2299160 (noon of 1582-10-04).  For a date-time with fields in
their calendar ranges, timezone 0 and deltaUt1 0: on or before 1582-10-04 12:00:00 it
returns the uncorrected value, and on or after 1582-10-15 it returns the uncorrected value
plus the correction. -/
theorem julianDay_gregorian_correction (year month day hour minute : ℤ) (second : ℚ)
    (hm : 1 ≤ month ∧ month ≤ 12) (hd : 1 ≤ day ∧ day ≤ 31) (hh : 0 ≤ hour ∧ hour ≤ 24)
    (hmin : 0 ≤ minute ∧ minute ≤ 59) (hs : 0 ≤ second ∧ second < 60) :
    (julianDay year month day hour minute second 0 0 =
      if julianDayUncorrected year month day hour minute second 0 0 > 2299160 then
        julianDayUncorrected year month day hour minute second 0 0 +
          gregorianCorrection year month
      else julianDayUncorrected year month day hour minute second 0 0) ∧
    (upToJulianNoon year month day hour minute second →
      julianDay year month day hour minute second 0 0 =
        julianDayUncorrected year month day hour minute second 0 0) ∧
    (fromGregorianStart year month day →
      julianDay year month day hour minute second 0 0 =
        julianDayUncorrected year month day hour minute second 0 0 +
          gregorianCorrection year month) := by
  refine ⟨julianDay_eq _ _ _ _ _ _ _ _, ?_, ?_⟩
  · intro hb
    rw [julianDay_eq, if_neg (not_lt.mpr
      (julianDayUncorrected_le_of_upToJulianNoon year month day hour minute second
        hm hd hh hmin hs hb))]
  · intro ha
    rw [julianDay_eq, if_pos
      (julianDayUncorrected_gt_of_fromGregorianStart year month day hour minute second
        hm hd hh hmin hs ha)]

/-- Witness for C9: noon of 1582-10-04 is uncorrected (Julian day 2299160) and midnight of
1582-10-15 is corrected by -10 days (Julian day 2299160.5). -/
theorem julianDay_gregorian_correction_witness :
    (julianDay 1582 10 4 12 0 0 0 0 = julianDayUncorrected 1582 10 4 12 0 0 0 0 ∧
      julianDayUncorrected 1582 10 4 12 0 0 0 0 = 2299160) ∧
    (julianDay 1582 10 15 0 0 0 0 0 =
        julianDayUncorrected 1582 10 15 0 0 0 0 0 + gregorianCorrection 1582 10 ∧
      julianDayUncorrected 1582 10 15 0 0 0 0 0 = 2299170 + 1 / 2 ∧
      gregorianCorrection 1582 10 = -10) :=
  ⟨⟨(julianDay_gregorian_correction 1582 10 4 12 0 0 (by decide) (by decide) (by decide)
        (by decide) (by norm_num)).2.1 (by norm_num [upToJulianNoon]),
      by norm_num [julianDayUncorrected, goInt]⟩,
    ⟨(julianDay_gregorian_correction 1582 10 15 0 0 0 (by decide) (by decide) (by decide)
        (by decide) (by norm_num)).2.2 (by norm_num [fromGregorianStart]),
      by norm_num [julianDayUncorrected, goInt],
      by
        have h15 : Int.tdiv 1582 100 = 15 := by decide
        norm_num [gregorianCorrection, goInt, h15]⟩⟩

/-! ### Calculate -/

theorem Calculate_fst (M : GoMath) (s : spa) :
    (Calculate M s).1 = validate (SetDate s (GetDate s)) := by
  unfold Calculate
  split <;> rename_i h <;> rw [h]

theorem Calculate_snd_of_error (M : GoMath) (s : spa) (h : (Calculate M s).1 ≠ none) :
    (Calculate M s).2 = SetDate s (GetDate s) := by
  rw [Calculate_fst] at h
  unfold Calculate
  split
  · rfl
  · rename_i hv
    exact absurd hv h

theorem Calculate_snd_of_ok (M : GoMath) (s : spa)
    (h : validate (SetDate s (GetDate s)) = none) :
    (Calculate M s).2 =
      calculateSelected M (calculateTopocentric M (SetDate s (GetDate s))) := by
  unfold Calculate
  split
  · rename_i err hv
    rw [h] at hv
    exact Option.noConfusion hv
  · rfl

/-- On the receiver, `calculateEotAndSunRiseTransitSet` writes `eot`, `srha`, `ssha`, `sta`,
`suntransit`, `sunrise` and `sunset` only. -/
theorem calculateEotAndSunRiseTransitSet_frame (M : GoMath) (s : spa) :
    ∃ a b c d e f g : ℚ, calculateEotAndSunRiseTransitSet M s =
      { s with eot := a, srha := b, ssha := c, sta := d, suntransit := e,
               sunrise := f, sunset := g } := by
  unfold calculateEotAndSunRiseTransitSet
  lift_lets
  intro h0Prime m sEot nu loop1 alpha delta sunRts h0 sunRts1 locals
  split
  · exact ⟨_, _, _, _, _, _, _, rfl⟩
  · exact ⟨_, _, _, _, _, _, _, rfl⟩

/-- The conditional blocks of `Calculate` write `incidence`, `eot` and the six
rise/transit/set outputs only. -/
theorem calculateSelected_frame (M : GoMath) (s : spa) :
    ∃ i a b c d e f g : ℚ, calculateSelected M s =
      { s with incidence := i, eot := a, srha := b, ssha := c, sta := d, suntransit := e,
               sunrise := f, sunset := g } := by
  unfold calculateSelected
  by_cases h1 : s.function = SpaZaInc ∨ s.function = SpaAll
  · by_cases h2 : s.function = SpaZaRts ∨ s.function = SpaAll
    · obtain ⟨a, b, c, d, e, f, g, h⟩ := calculateEotAndSunRiseTransitSet_frame M
        { s with incidence :=
          surfaceIncidenceAngle M s.zenith s.azimuthAstro s.azmRotation s.slope }
      refine ⟨surfaceIncidenceAngle M s.zenith s.azimuthAstro s.azmRotation s.slope,
        a, b, c, d, e, f, g, ?_⟩
      simp only [h1, h2, if_true]
      rw [h]
    · refine ⟨surfaceIncidenceAngle M s.zenith s.azimuthAstro s.azmRotation s.slope,
        s.eot, s.srha, s.ssha, s.sta, s.suntransit, s.sunrise, s.sunset, ?_⟩
      simp only [h1, h2, if_true, if_false]
  · by_cases h2 : s.function = SpaZaRts ∨ s.function = SpaAll
    · obtain ⟨a, b, c, d, e, f, g, h⟩ := calculateEotAndSunRiseTransitSet_frame M s
      refine ⟨s.incidence, a, b, c, d, e, f, g, ?_⟩
      simp only [h1, h2, if_true, if_false]
      rw [h]
    · refine ⟨s.incidence, s.eot, s.srha, s.ssha, s.sta, s.suntransit, s.sunrise, s.sunset, ?_⟩
      simp only [h1, h2, if_false]

theorem limitDegrees_range (x : ℚ) : 0 ≤ limitDegrees x ∧ limitDegrees x < 360 := by
  have h0 := Int.floor_le (x / 360)
  have h1 := Int.lt_floor_add_one (x / 360)
  have hn : ¬ (360 * (x / 360 - goFloor (x / 360)) < 0) := by
    unfold goFloor
    linarith
  have e : limitDegrees x = 360 * (x / 360 - goFloor (x / 360)) := by
    unfold limitDegrees
    simp only [hn, if_false]
  rw [e]
  unfold goFloor
  constructor <;> linarith

theorem geocentricLongitude_range (l : ℚ) (h : 0 ≤ l ∧ l < 360) :
    0 ≤ geocentricLongitude l ∧ geocentricLongitude l < 360 := by
  unfold geocentricLongitude
  simp only
  split <;> constructor <;> linarith [h.1, h.2]

theorem calculateTopocentric_jd (M : GoMath) (s : spa) :
    (calculateTopocentric M s).jd =
      julianDay s.year s.month s.day s.hour s.minute s.second s.deltaUt1 s.timezone := rfl

theorem calculateTopocentric_l (M : GoMath) (s : spa) :
    ∃ x, (calculateTopocentric M s).l = limitDegrees x := ⟨_, rfl⟩

theorem calculateTopocentric_theta (M : GoMath) (s : spa) :
    (calculateTopocentric M s).theta = geocentricLongitude (calculateTopocentric M s).l := rfl

theorem calculateTopocentric_nu0 (M : GoMath) (s : spa) :
    ∃ x, (calculateTopocentric M s).nu0 = limitDegrees x := ⟨_, rfl⟩

theorem calculateTopocentric_alpha (M : GoMath) (s : spa) :
    ∃ x, (calculateTopocentric M s).alpha = limitDegrees x := ⟨_, rfl⟩

theorem calculateTopocentric_h (M : GoMath) (s : spa) :
    ∃ x, (calculateTopocentric M s).h = limitDegrees x := ⟨_, rfl⟩

theorem calculateTopocentric_azimuthAstro (M : GoMath) (s : spa) :
    ∃ x, (calculateTopocentric M s).azimuthAstro = limitDegrees x := ⟨_, rfl⟩

theorem calculateTopocentric_azimuth (M : GoMath) (s : spa) :
    ∃ x, (calculateTopocentric M s).azimuth = limitDegrees x := ⟨_, rfl⟩

/-- The date fields, `deltaUt1` and the timezone are not written by the pipeline. -/
theorem calculateTopocentric_inputs (M : GoMath) (s : spa) :
    (calculateTopocentric M s).year = s.year ∧ (calculateTopocentric M s).month = s.month ∧
    (calculateTopocentric M s).day = s.day ∧ (calculateTopocentric M s).hour = s.hour ∧
    (calculateTopocentric M s).minute = s.minute ∧ (calculateTopocentric M s).second = s.second ∧
    (calculateTopocentric M s).deltaUt1 = s.deltaUt1 ∧
    (calculateTopocentric M s).timezone = s.timezone := by
  simp only [calculateTopocentric, calculateGeocentricSunRightAscensionAndDeclination,
    nutationLongitudeAndObliquity, rightAscensionParallaxAndTopocentricDec, and_self]

/-- The renewed date of the reference request is the reference request. -/
theorem renew_refSpa : SetDate refSpa (GetDate refSpa) = refSpa := by
  have h1 : goInt (30 : ℚ) = 30 := by norm_num [goInt]
  have h2 : goInt ((-7 : ℚ) * 3600) = -25200 := by
    have e : ((-7 : ℚ) * 3600) = ((-25200 : ℤ) : ℚ) := by norm_num
    rw [e]
    unfold goInt
    rw [if_neg (by norm_num), Int.ceil_intCast]
  have h3 : timeDate 2003 10 17 12 30 30 (-25200) = ⟨2003, 10, 17, 12, 30, 30, -25200⟩ := by
    decide
  have h4 : Int.tdiv (-25200) 3600 = -7 := by decide
  simp only [SetDate, GetDate, refSpa, init, zeroSpa, h1, h2, h3, h4]
  norm_num

/-- In exact arithmetic, after a successful `Calculate` the heliocentric longitude, the
geocentric longitude, the Greenwich mean sidereal time, the geocentric right ascension, the
observer hour angle and the two azimuth angles lie in [0, 360).  (With float64 rounding
`limitDegrees` can return exactly 360; see `limitDegrees64` and `observerHourAngle64`.) -/
theorem Calculate_wrapped_angles_range (M : GoMath) (s : spa)
    (hok : (Calculate M s).1 = none) :
    (0 ≤ (Calculate M s).2.l ∧ (Calculate M s).2.l < 360) ∧
    (0 ≤ (Calculate M s).2.theta ∧ (Calculate M s).2.theta < 360) ∧
    (0 ≤ (Calculate M s).2.nu0 ∧ (Calculate M s).2.nu0 < 360) ∧
    (0 ≤ (Calculate M s).2.alpha ∧ (Calculate M s).2.alpha < 360) ∧
    (0 ≤ (Calculate M s).2.h ∧ (Calculate M s).2.h < 360) ∧
    (0 ≤ (Calculate M s).2.azimuthAstro ∧ (Calculate M s).2.azimuthAstro < 360) ∧
    (0 ≤ (Calculate M s).2.azimuth ∧ (Calculate M s).2.azimuth < 360) := by
  rw [Calculate_fst] at hok
  rw [Calculate_snd_of_ok M s hok]
  obtain ⟨i, a, b, c, d, e, f, g, hsel⟩ :=
    calculateSelected_frame M (calculateTopocentric M (SetDate s (GetDate s)))
  rw [hsel]
  obtain ⟨xl, hl⟩ := calculateTopocentric_l M (SetDate s (GetDate s))
  obtain ⟨xn, hn⟩ := calculateTopocentric_nu0 M (SetDate s (GetDate s))
  obtain ⟨xa, ha⟩ := calculateTopocentric_alpha M (SetDate s (GetDate s))
  obtain ⟨xh, hh⟩ := calculateTopocentric_h M (SetDate s (GetDate s))
  obtain ⟨xz, hz⟩ := calculateTopocentric_azimuthAstro M (SetDate s (GetDate s))
  obtain ⟨xv, hv⟩ := calculateTopocentric_azimuth M (SetDate s (GetDate s))
  have ht := calculateTopocentric_theta M (SetDate s (GetDate s))
  show (0 ≤ (calculateTopocentric M (SetDate s (GetDate s))).l ∧ _) ∧
    (0 ≤ (calculateTopocentric M (SetDate s (GetDate s))).theta ∧ _) ∧
    (0 ≤ (calculateTopocentric M (SetDate s (GetDate s))).nu0 ∧ _) ∧
    (0 ≤ (calculateTopocentric M (SetDate s (GetDate s))).alpha ∧ _) ∧
    (0 ≤ (calculateTopocentric M (SetDate s (GetDate s))).h ∧ _) ∧
    (0 ≤ (calculateTopocentric M (SetDate s (GetDate s))).azimuthAstro ∧ _) ∧
    (0 ≤ (calculateTopocentric M (SetDate s (GetDate s))).azimuth ∧ _)
  refine ⟨?_, ?_, ?_, ?_, ?_, ?_, ?_⟩
  · rw [hl]; exact limitDegrees_range xl
  · rw [ht, hl]; exact geocentricLongitude_range _ (limitDegrees_range xl)
  · rw [hn]; exact limitDegrees_range xn
  · rw [ha]; exact limitDegrees_range xa
  · rw [hh]; exact limitDegrees_range xh
  · rw [hz]; exact limitDegrees_range xz
  · rw [hv]; exact limitDegrees_range xv

/-- An instance of `Calculate_wrapped_angles_range`: `Calculate` succeeds on the reference
request. -/
theorem Calculate_wrapped_angles_range_witness :
    (Calculate polyMath refSpa).1 = none ∧
    (0 ≤ (Calculate polyMath refSpa).2.azimuth ∧ (Calculate polyMath refSpa).2.azimuth < 360) :=
  have hok : (Calculate polyMath refSpa).1 = none := by
    rw [Calculate_fst, renew_refSpa, validate_none_unfold]
    norm_num [refSpa, init, zeroSpa, SpaAll, SpaZaInc, lt_abs]
  ⟨hok, (Calculate_wrapped_angles_range polyMath refSpa hok).2.2.2.2.2.2⟩

/-- The date fields, `deltaUt1` and the timezone after `Calculate` are those of the renewed
date, whether or not validation succeeds. -/
theorem Calculate_inputs (M : GoMath) (s : spa) :
    (Calculate M s).2.year = (SetDate s (GetDate s)).year ∧
    (Calculate M s).2.month = (SetDate s (GetDate s)).month ∧
    (Calculate M s).2.day = (SetDate s (GetDate s)).day ∧
    (Calculate M s).2.hour = (SetDate s (GetDate s)).hour ∧
    (Calculate M s).2.minute = (SetDate s (GetDate s)).minute ∧
    (Calculate M s).2.second = (SetDate s (GetDate s)).second ∧
    (Calculate M s).2.deltaUt1 = (SetDate s (GetDate s)).deltaUt1 ∧
    (Calculate M s).2.timezone = (SetDate s (GetDate s)).timezone := by
  cases hv : validate (SetDate s (GetDate s)) with
  | some err =>
    have herr : (Calculate M s).1 ≠ none := by
      rw [Calculate_fst, hv]
      exact Option.some_ne_none err
    rw [Calculate_snd_of_error M s herr]
    exact ⟨rfl, rfl, rfl, rfl, rfl, rfl, rfl, rfl⟩
  | none =>
    rw [Calculate_snd_of_ok M s hv]
    obtain ⟨i, a, b, c, d, e, f, g, hsel⟩ :=
      calculateSelected_frame M (calculateTopocentric M (SetDate s (GetDate s)))
    rw [hsel]
    exact calculateTopocentric_inputs M (SetDate s (GetDate s))

/-- After a successful `Calculate` the field `jd` is `julianDay` of the renewed date. -/
theorem Calculate_jd (M : GoMath) (s : spa) (hv : validate (SetDate s (GetDate s)) = none) :
    (Calculate M s).2.jd =
      julianDay (SetDate s (GetDate s)).year (SetDate s (GetDate s)).month
        (SetDate s (GetDate s)).day (SetDate s (GetDate s)).hour
        (SetDate s (GetDate s)).minute (SetDate s (GetDate s)).second
        (SetDate s (GetDate s)).deltaUt1 (SetDate s (GetDate s)).timezone := by
  rw [Calculate_snd_of_ok M s hv]
  obtain ⟨i, a, b, c, d, e, f, g, hsel⟩ :=
    calculateSelected_frame M (calculateTopocentric M (SetDate s (GetDate s)))
  rw [hsel]
  exact calculateTopocentric_jd M (SetDate s (GetDate s))

theorem goInt_intCast (n : ℤ) : goInt (n : ℚ) = n := by
  unfold goInt
  split
  · exact Int.floor_intCast n
  · exact Int.ceil_intCast n

theorem goInt_tz_ref : goInt ((-7 : ℚ) * 3600) = -25200 := by
  have e : ((-7 : ℚ) * 3600) = ((-25200 : ℤ) : ℚ) := by norm_num
  rw [e, goInt_intCast]

theorem validate_refSpa : validate refSpa = none := by
  rw [validate_none_unfold]
  norm_num [refSpa, init, zeroSpa, SpaAll, SpaZaInc, lt_abs]

/-- Second 60 is carried into the minute by the renewal of the date. -/
theorem renew_second_60 :
    SetDate { refSpa with second := 60 } (GetDate { refSpa with second := 60 }) =
      { refSpa with minute := 31, second := 0 } := by
  have h1 : goInt (60 : ℚ) = 60 := by norm_num [goInt]
  have h3 : timeDate 2003 10 17 12 30 60 (-25200) = ⟨2003, 10, 17, 12, 31, 0, -25200⟩ := by
    decide
  have h4 : Int.tdiv (-25200) 3600 = -7 := by decide
  simp only [SetDate, GetDate, refSpa, init, zeroSpa, h1, goInt_tz_ref, h3, h4]
  norm_num

/-- Hour 24 with minute 1 becomes 00:01 of the next day by the renewal of the date. -/
theorem renew_hour_24 :
    SetDate { refSpa with hour := 24, minute := 1 }
        (GetDate { refSpa with hour := 24, minute := 1 }) =
      { refSpa with day := 18, hour := 0, minute := 1 } := by
  have h1 : goInt (30 : ℚ) = 30 := by norm_num [goInt]
  have h3 : timeDate 2003 10 17 24 1 30 (-25200) = ⟨2003, 10, 18, 0, 1, 30, -25200⟩ := by
    decide
  have h4 : Int.tdiv (-25200) 3600 = -7 := by decide
  simp only [SetDate, GetDate, refSpa, init, zeroSpa, h1, goInt_tz_ref, h3, h4]
  norm_num

/-- Second 30.5 is truncated to 30 by the renewal of the date. -/
theorem renew_second_fraction :
    SetDate { refSpa with second := 30.5 } (GetDate { refSpa with second := 30.5 }) =
      refSpa := by
  have h1 : goInt (30.5 : ℚ) = 30 := by norm_num [goInt]
  have h3 : timeDate 2003 10 17 12 30 30 (-25200) = ⟨2003, 10, 17, 12, 30, 30, -25200⟩ := by
    decide
  have h4 : Int.tdiv (-25200) 3600 = -7 := by decide
  simp only [SetDate, GetDate, refSpa, init, zeroSpa, h1, goInt_tz_ref, h3, h4]
  norm_num

/-- Timezone 5.5 is truncated to 5 by the renewal of the date. -/
theorem renew_timezone_fraction :
    SetDate { refSpa with timezone := 5.5 } (GetDate { refSpa with timezone := 5.5 }) =
      { refSpa with timezone := 5 } := by
  have h1 : goInt (30 : ℚ) = 30 := by norm_num [goInt]
  have h2 : goInt ((5.5 : ℚ) * 3600) = 19800 := by norm_num [goInt]
  have h3 : timeDate 2003 10 17 12 30 30 19800 = ⟨2003, 10, 17, 12, 30, 30, 19800⟩ := by
    decide
  have h4 : Int.tdiv 19800 3600 = 5 := by decide
  simp only [SetDate, GetDate, refSpa, init, zeroSpa, h1, h2, h3, h4]
  norm_num

/-- Year 7000 is kept by the renewal of the date. -/
theorem renew_year_7000 :
    SetDate { refSpa with year := 7000 } (GetDate { refSpa with year := 7000 }) =
      { refSpa with year := 7000 } := by
  have h1 : goInt (30 : ℚ) = 30 := by norm_num [goInt]
  have h3 : timeDate 7000 10 17 12 30 30 (-25200) = ⟨7000, 10, 17, 12, 30, 30, -25200⟩ := by
    decide
  have h4 : Int.tdiv (-25200) 3600 = -7 := by decide
  simp only [SetDate, GetDate, refSpa, init, zeroSpa, h1, goInt_tz_ref, h3, h4]
  norm_num

/-- C2, evaluated on the code: `validate` alone rejects second 60 and hour 24 with minute 1,
but `Calculate` first renews the date, which turns 12:30:60 into 12:31:00 and 24:01 into
00:01 of the next day, and then returns nil. -/
theorem Calculate_accepts_out_of_range_time (M : GoMath) :
    validate { refSpa with second := 60 } = some "invalid second" ∧
    (Calculate M { refSpa with second := 60 }).1 = none ∧
    (Calculate M { refSpa with second := 60 }).2.minute = 31 ∧
    (Calculate M { refSpa with second := 60 }).2.second = 0 ∧
    validate { refSpa with hour := 24, minute := 1 } = some "invalid hour/minute" ∧
    (Calculate M { refSpa with hour := 24, minute := 1 }).1 = none ∧
    (Calculate M { refSpa with hour := 24, minute := 1 }).2.day = 18 ∧
    (Calculate M { refSpa with hour := 24, minute := 1 }).2.hour = 0 := by
  have hv1 : validate ({ refSpa with minute := 31, second := 0 } : spa) = none := by
    rw [validate_none_unfold]
    norm_num [refSpa, init, zeroSpa, SpaAll, SpaZaInc, lt_abs]
  have hv2 : validate ({ refSpa with day := 18, hour := 0, minute := 1 } : spa) = none := by
    rw [validate_none_unfold]
    norm_num [refSpa, init, zeroSpa, SpaAll, SpaZaInc, lt_abs]
  have i1 := Calculate_inputs M { refSpa with second := 60 }
  have i2 := Calculate_inputs M { refSpa with hour := 24, minute := 1 }
  rw [renew_second_60] at i1
  rw [renew_hour_24] at i2
  refine ⟨?_, ?_, i1.2.2.2.2.1, i1.2.2.2.2.2.1, ?_, ?_, i2.2.2.1, i2.2.2.2.1⟩
  · norm_num [validate, refSpa, init, zeroSpa]
  · rw [Calculate_fst, renew_second_60, hv1]
  · norm_num [validate, refSpa, init, zeroSpa]
  · rw [Calculate_fst, renew_hour_24, hv2]

/-- C3, evaluated on the code: second 30.5 and timezone 5.5 both pass `validate`, but
`Calculate` computes `jd` from the truncated second 30 and the truncated timezone 5, and
leaves the truncated values in the input fields. -/
theorem Calculate_truncates_second_and_timezone (M : GoMath) :
    (validate { refSpa with second := 30.5 } = none ∧
      (Calculate M { refSpa with second := 30.5 }).1 = none ∧
      (Calculate M { refSpa with second := 30.5 }).2.jd =
        julianDay 2003 10 17 12 30 30 0 (-7) ∧
      (Calculate M { refSpa with second := 30.5 }).2.jd ≠
        julianDay 2003 10 17 12 30 30.5 0 (-7) ∧
      (Calculate M { refSpa with second := 30.5 }).2.second = 30) ∧
    (validate { refSpa with timezone := 5.5 } = none ∧
      (Calculate M { refSpa with timezone := 5.5 }).1 = none ∧
      (Calculate M { refSpa with timezone := 5.5 }).2.jd =
        julianDay 2003 10 17 12 30 30 0 5 ∧
      (Calculate M { refSpa with timezone := 5.5 }).2.jd ≠
        julianDay 2003 10 17 12 30 30 0 5.5 ∧
      (Calculate M { refSpa with timezone := 5.5 }).2.timezone = 5) := by
  have hv5 : validate ({ refSpa with timezone := 5 } : spa) = none := by
    rw [validate_none_unfold]
    norm_num [refSpa, init, zeroSpa, SpaAll, SpaZaInc, lt_abs]
  have j1 : (Calculate M { refSpa with second := 30.5 }).2.jd =
      julianDay 2003 10 17 12 30 30 0 (-7) := by
    rw [Calculate_jd M _ (by rw [renew_second_fraction]; exact validate_refSpa),
      renew_second_fraction]
    rfl
  have j2 : (Calculate M { refSpa with timezone := 5.5 }).2.jd =
      julianDay 2003 10 17 12 30 30 0 5 := by
    rw [Calculate_jd M _ (by rw [renew_timezone_fraction]; exact hv5),
      renew_timezone_fraction]
    rfl
  have i1 := Calculate_inputs M { refSpa with second := 30.5 }
  have i2 := Calculate_inputs M { refSpa with timezone := 5.5 }
  rw [renew_second_fraction] at i1
  rw [renew_timezone_fraction] at i2
  obtain ⟨v1, v2, v3, v4⟩ := julianDay_2003_10_17
  refine ⟨⟨?_, ?_, j1, ?_, i1.2.2.2.2.2.1⟩, ⟨?_, ?_, j2, ?_, i2.2.2.2.2.2.2.2⟩⟩
  · rw [validate_none_unfold]
    norm_num [refSpa, init, zeroSpa, SpaAll, SpaZaInc, lt_abs]
  · rw [Calculate_fst, renew_second_fraction, validate_refSpa]
  · rw [j1, v1, v2]
    norm_num
  · rw [validate_none_unfold]
    norm_num [refSpa, init, zeroSpa, SpaAll, SpaZaInc, lt_abs]
  · rw [Calculate_fst, renew_timezone_fraction, hv5]
  · rw [j2, v3, v4]
    norm_num

/-- C4: when `Calculate` returns an error, every intermediate and final output field keeps
the value it had before the call. -/
theorem Calculate_error_keeps_outputs (M : GoMath) (s : spa)
    (herr : (Calculate M s).1 ≠ none) :
    (Calculate M s).2.jd = s.jd ∧ (Calculate M s).2.jc = s.jc ∧
    (Calculate M s).2.jde = s.jde ∧ (Calculate M s).2.jce = s.jce ∧
    (Calculate M s).2.jme = s.jme ∧ (Calculate M s).2.l = s.l ∧
    (Calculate M s).2.b = s.b ∧ (Calculate M s).2.r = s.r ∧
    (Calculate M s).2.theta = s.theta ∧ (Calculate M s).2.beta = s.beta ∧
    (Calculate M s).2.x0 = s.x0 ∧ (Calculate M s).2.x1 = s.x1 ∧
    (Calculate M s).2.x2 = s.x2 ∧ (Calculate M s).2.x3 = s.x3 ∧
    (Calculate M s).2.x4 = s.x4 ∧ (Calculate M s).2.delPsi = s.delPsi ∧
    (Calculate M s).2.delEpsilon = s.delEpsilon ∧ (Calculate M s).2.epsilon0 = s.epsilon0 ∧
    (Calculate M s).2.epsilon = s.epsilon ∧ (Calculate M s).2.delTau = s.delTau ∧
    (Calculate M s).2.lamda = s.lamda ∧ (Calculate M s).2.nu0 = s.nu0 ∧
    (Calculate M s).2.nu = s.nu ∧ (Calculate M s).2.alpha = s.alpha ∧
    (Calculate M s).2.delta = s.delta ∧ (Calculate M s).2.h = s.h ∧
    (Calculate M s).2.xi = s.xi ∧ (Calculate M s).2.delAlpha = s.delAlpha ∧
    (Calculate M s).2.deltaPrime = s.deltaPrime ∧
    (Calculate M s).2.alphaPrime = s.alphaPrime ∧ (Calculate M s).2.hPrime = s.hPrime ∧
    (Calculate M s).2.e0 = s.e0 ∧ (Calculate M s).2.delE = s.delE ∧
    (Calculate M s).2.e = s.e ∧ (Calculate M s).2.eot = s.eot ∧
    (Calculate M s).2.srha = s.srha ∧ (Calculate M s).2.ssha = s.ssha ∧
    (Calculate M s).2.sta = s.sta ∧ (Calculate M s).2.zenith = s.zenith ∧
    (Calculate M s).2.azimuthAstro = s.azimuthAstro ∧
    (Calculate M s).2.azimuth = s.azimuth ∧ (Calculate M s).2.incidence = s.incidence ∧
    (Calculate M s).2.suntransit = s.suntransit ∧ (Calculate M s).2.sunrise = s.sunrise ∧
    (Calculate M s).2.sunset = s.sunset := by
  rw [Calculate_snd_of_error M s herr]
  exact ⟨rfl, rfl, rfl, rfl, rfl, rfl, rfl, rfl, rfl, rfl, rfl, rfl, rfl, rfl, rfl,
    rfl, rfl, rfl, rfl, rfl, rfl, rfl, rfl, rfl, rfl, rfl, rfl, rfl, rfl, rfl,
    rfl, rfl, rfl, rfl, rfl, rfl, rfl, rfl, rfl, rfl, rfl, rfl, rfl, rfl, rfl⟩

/-- Witness for C4: with year 7000 `Calculate` returns "invalid year" and the outputs are
untouched. -/
theorem Calculate_error_keeps_outputs_witness :
    (Calculate polyMath { refSpa with year := 7000 }).1 = some "invalid year" ∧
    (Calculate polyMath { refSpa with year := 7000 }).2.jd =
      ({ refSpa with year := 7000 } : spa).jd :=
  have herr : (Calculate polyMath { refSpa with year := 7000 }).1 = some "invalid year" := by
    rw [Calculate_fst, renew_year_7000]
    norm_num [validate, refSpa, init, zeroSpa]
  ⟨herr, (Calculate_error_keeps_outputs polyMath { refSpa with year := 7000 }
    (by rw [herr]; exact Option.some_ne_none _)).1⟩

/-! ### Refraction correction, zenith, equation of time, azimuth, local hours -/

theorem atmosphericRefractionCorrection_below (M : GoMath) (P T ar e0 : ℚ)
    (h : e0 < -(SunRadius + ar)) : atmosphericRefractionCorrection M P T ar e0 = 0 := by
  unfold atmosphericRefractionCorrection
  rw [if_neg]
  intro hge
  linarith

theorem atmosphericRefractionCorrection_above (M : GoMath) (P T ar e0 : ℚ)
    (h : e0 ≥ -(SunRadius + ar)) :
    atmosphericRefractionCorrection M P T ar e0 =
      (P / 1010) * (283 / (273 + T)) * 1.02 /
        (60 * M.tan (deg2rad M (e0 + 10.3 / (e0 + 5.11)))) := by
  unfold atmosphericRefractionCorrection
  rw [if_pos]
  linarith

/-- C13: the refraction correction is 0 for every e0 below -(0.26667 + ar), and from that
bound on, the bound included, it is the formula
(P/1010)*(283/(273+T))*1.02 / (60*tan(deg2rad(e0 + 10.3/(e0 + 5.11)))). -/
theorem atmosphericRefractionCorrection_cases (M : GoMath) (P T ar e0 : ℚ) :
    (e0 < -(0.26667 + ar) → atmosphericRefractionCorrection M P T ar e0 = 0) ∧
    (e0 ≥ -(0.26667 + ar) →
      atmosphericRefractionCorrection M P T ar e0 =
        (P / 1010) * (283 / (273 + T)) * 1.02 /
          (60 * M.tan (deg2rad M (e0 + 10.3 / (e0 + 5.11))))) := by
  constructor
  · intro h
    exact atmosphericRefractionCorrection_below M P T ar e0 (by unfold SunRadius; exact h)
  · intro h
    exact atmosphericRefractionCorrection_above M P T ar e0 (by unfold SunRadius; exact h)

/-- Witness for C13: on the reference atmosphere the correction is 0 at e0 = -1 and is the
formula at the boundary e0 = -(0.26667 + 0.5667). -/
theorem atmosphericRefractionCorrection_cases_witness :
    atmosphericRefractionCorrection polyMath 820 11 0.5667 (-1) = 0 ∧
    atmosphericRefractionCorrection polyMath 820 11 0.5667 (-0.83337) =
      (820 / 1010) * (283 / (273 + 11)) * 1.02 /
        (60 * polyMath.tan (deg2rad polyMath (-0.83337 + 10.3 / (-0.83337 + 5.11)))) :=
  ⟨(atmosphericRefractionCorrection_cases polyMath 820 11 0.5667 (-1)).1 (by norm_num),
   (atmosphericRefractionCorrection_cases polyMath 820 11 0.5667 (-0.83337)).2 (by norm_num)⟩

theorem topocentricZenithAngle_range_iff (e : ℚ) :
    (0 ≤ topocentricZenithAngle e ∧ topocentricZenithAngle e ≤ 180) ↔ (-90 ≤ e ∧ e ≤ 90) := by
  unfold topocentricZenithAngle
  constructor <;> rintro ⟨h1, h2⟩ <;> constructor <;> linarith

/-- C11, as stated, fails at e0 = 0 with pressure 5000 and temperature -272 (both accepted
by `validate`): the factor 283/(273+T) is 283, the correction exceeds 90 degrees and the
zenith angle is negative. -/
theorem topocentricZenithAngle_counterexample :
    ((-90 : ℚ) ≤ 0 ∧ (0 : ℚ) ≤ 90) ∧ ((0 : ℚ) ≤ 5000 ∧ (5000 : ℚ) ≤ 5000) ∧
    ((-273 : ℚ) < -272 ∧ (-272 : ℚ) ≤ 6000) ∧ |(0 : ℚ)| ≤ 5 ∧
    topocentricZenithAngle
      (0 + atmosphericRefractionCorrection polyMath 5000 (-272) 0 0) < 0 := by
  refine ⟨by norm_num, by norm_num, by norm_num, by norm_num, ?_⟩
  norm_num [topocentricZenithAngle, atmosphericRefractionCorrection, SunRadius, polyMath,
    deg2rad, round12]

/-- At e0 = 0, pressure 5000 and temperature -272 the zenith angle is negative for every
math library whose tangent at deg2rad(10.3/5.11) lies in (0, 1/5]. -/
theorem topocentricZenithAngle_neg_of_tan (M : GoMath)
    (h0 : 0 < M.tan (deg2rad M (0 + 10.3 / (0 + 5.11))))
    (h1 : M.tan (deg2rad M (0 + 10.3 / (0 + 5.11))) ≤ 1 / 5) :
    topocentricZenithAngle (0 + atmosphericRefractionCorrection M 5000 (-272) 0 0) < 0 := by
  have hpos : (0 : ℚ) < 60 * M.tan (deg2rad M (0 + 10.3 / (0 + 5.11))) := by linarith
  have hge : (0 : ℚ) ≥ -1 * (SunRadius + 0) := by norm_num [SunRadius]
  unfold topocentricZenithAngle atmosphericRefractionCorrection
  rw [if_pos hge]
  have key : (100 : ℚ) < (5000 / 1010) * (283 / (273 + (-272))) * 1.02 /
      (60 * M.tan (deg2rad M (0 + 10.3 / (0 + 5.11)))) := by
    rw [lt_div_iff₀ hpos]
    norm_num at h1 ⊢
    linarith
  linarith

/-- C11, amended: the zenith angle is 90 - (e0 + delE).  For e0 in [-90, 90] below the
refraction threshold -(0.26667 + atmosRefract) the correction is 0 and the zenith angle lies
in [0, 180]; at or above the threshold it lies in [0, 180] exactly when the corrected
elevation e0 + delE lies in [-90, 90]. -/
theorem topocentricZenithAngle_range (M : GoMath) (P T ar e0 : ℚ)
    (he : -90 ≤ e0 ∧ e0 ≤ 90) :
    topocentricZenithAngle (e0 + atmosphericRefractionCorrection M P T ar e0) =
      90 - (e0 + atmosphericRefractionCorrection M P T ar e0) ∧
    (e0 < -(0.26667 + ar) →
      0 ≤ topocentricZenithAngle (e0 + atmosphericRefractionCorrection M P T ar e0) ∧
      topocentricZenithAngle (e0 + atmosphericRefractionCorrection M P T ar e0) ≤ 180) ∧
    ((0 ≤ topocentricZenithAngle (e0 + atmosphericRefractionCorrection M P T ar e0) ∧
      topocentricZenithAngle (e0 + atmosphericRefractionCorrection M P T ar e0) ≤ 180) ↔
      (-90 ≤ e0 + atmosphericRefractionCorrection M P T ar e0 ∧
        e0 + atmosphericRefractionCorrection M P T ar e0 ≤ 90)) := by
  refine ⟨rfl, ?_, topocentricZenithAngle_range_iff _⟩
  intro h
  rw [atmosphericRefractionCorrection_below M P T ar e0 (by unfold SunRadius; exact h),
    topocentricZenithAngle_range_iff]
  constructor <;> linarith [he.1, he.2]

/-- Witness for C11: at e0 = -10 on the reference atmosphere the sun is below the threshold
and the zenith angle is 100. -/
theorem topocentricZenithAngle_range_witness :
    0 ≤ topocentricZenithAngle
        (-10 + atmosphericRefractionCorrection polyMath 820 11 0.5667 (-10)) ∧
    topocentricZenithAngle
        (-10 + atmosphericRefractionCorrection polyMath 820 11 0.5667 (-10)) ≤ 180 :=
  (topocentricZenithAngle_range polyMath 820 11 0.5667 (-10) (by norm_num)).2.1 (by norm_num)

/-! ### Denominators of the refraction correction -/

/-- C12, as stated, fails at e0 = -5.11 with atmosRefract = 5: the inputs are in range, the
correction formula is evaluated (e0 is above the threshold -5.26667) and its denominator
e0 + 5.11 is zero. -/
theorem refraction_denominator_counterexample :
    ((-90 : ℚ) ≤ -5.11 ∧ (-5.11 : ℚ) ≤ 90) ∧ |(5 : ℚ)| ≤ 5 ∧
    (-5.11 : ℚ) ≥ -(0.26667 + 5) ∧ (-5.11 : ℚ) ≥ -1 * (SunRadius + 5) ∧
    ¬ ((-5.11 : ℚ) + 5.11 ≠ 0) := by
  refine ⟨by norm_num, by norm_num, by norm_num, by norm_num [SunRadius], by norm_num⟩

theorem refraction_argument_range (e0 : ℚ) (h1 : -5.05 ≤ e0) (h2 : e0 ≤ 90) :
    0 < e0 + 10.3 / (e0 + 5.11) ∧ e0 + 10.3 / (e0 + 5.11) < 180 := by
  have hu : (0 : ℚ) < e0 + 5.11 := by linarith
  have e : e0 + 10.3 / (e0 + 5.11) = (e0 * (e0 + 5.11) + 10.3) / (e0 + 5.11) := by
    field_simp
  rw [e, lt_div_iff₀ hu, div_lt_iff₀ hu]
  constructor
  · nlinarith [sq_nonneg (e0 + 2.555)]
  · nlinarith

/-- C12, amended: for temperature in (-273, 6000], atmosRefract in [-5, 4.78] and e0 in
[-90, 90] at or above the threshold -(0.26667 + atmosRefract), the denominators 273 +
temperature and e0 + 5.11 are non-zero, and the argument e0 + 10.3/(e0 + 5.11) of the
tangent lies strictly between 0 and 180 degrees, so that the third denominator is non-zero
for every tangent without a zero in (0, pi). -/
theorem refraction_denominators_nonzero (M : GoMath) (T ar e0 : ℚ)
    (hT : -273 < T ∧ T ≤ 6000) (har : -5 ≤ ar ∧ ar ≤ 4.78) (he : -90 ≤ e0 ∧ e0 ≤ 90)
    (hthr : e0 ≥ -(0.26667 + ar)) :
    e0 ≥ -1 * (SunRadius + ar) ∧
    273 + T ≠ 0 ∧ e0 + 5.11 ≠ 0 ∧
    (0 < e0 + 10.3 / (e0 + 5.11) ∧ e0 + 10.3 / (e0 + 5.11) < 180) ∧
    (0 < M.pi → (∀ x, 0 < x → x < M.pi → M.tan x ≠ 0) →
      M.tan (deg2rad M (e0 + 10.3 / (e0 + 5.11))) ≠ 0) := by
  have h505 : -5.05 ≤ e0 := by linarith [har.2]
  have harg := refraction_argument_range e0 h505 he.2
  refine ⟨by unfold SunRadius; linarith, by linarith [hT.1], by linarith, harg, ?_⟩
  intro hpi htan
  apply htan
  · unfold deg2rad
    exact mul_pos (div_pos hpi (by norm_num)) harg.1
  · unfold deg2rad
    have : M.pi / 180 * (e0 + 10.3 / (e0 + 5.11)) < M.pi / 180 * 180 :=
      mul_lt_mul_of_pos_left harg.2 (div_pos hpi (by norm_num))
    linarith

/-- Witness for C12: the reference atmosphere at the horizon. -/
theorem refraction_denominators_nonzero_witness :
    (273 : ℚ) + 11 ≠ 0 ∧ (0 : ℚ) + 5.11 ≠ 0 ∧
    (0 < (0 : ℚ) + 10.3 / (0 + 5.11) ∧ (0 : ℚ) + 10.3 / (0 + 5.11) < 180) :=
  have h := refraction_denominators_nonzero polyMath 11 0.5667 0 (by norm_num) (by norm_num)
    (by norm_num) (by norm_num)
  ⟨h.2.1, h.2.2.1, h.2.2.2.1⟩

/-! ### Equation of time -/

theorem limitMinutes_range_iff (x : ℚ) :
    (-20 ≤ limitMinutes x ∧ limitMinutes x ≤ 20) ↔
      ((-20 ≤ x ∧ x ≤ 20) ∨ (1420 ≤ x ∧ x ≤ 1460) ∨ (-1460 ≤ x ∧ x ≤ -1420)) := by
  unfold limitMinutes
  simp only
  split_ifs with h1 h2
  · constructor
    · rintro ⟨a, b⟩
      exact Or.inr (Or.inr ⟨by linarith, by linarith⟩)
    · rintro (⟨a, b⟩ | ⟨a, b⟩ | ⟨a, b⟩) <;> constructor <;> linarith
  · constructor
    · rintro ⟨a, b⟩
      exact Or.inr (Or.inl ⟨by linarith, by linarith⟩)
    · rintro (⟨a, b⟩ | ⟨a, b⟩ | ⟨a, b⟩) <;> constructor <;> linarith
  · constructor
    · rintro ⟨a, b⟩
      exact Or.inl ⟨a, b⟩
    · rintro (⟨a, b⟩ | ⟨a, b⟩ | ⟨a, b⟩) <;> constructor <;> linarith

/-- C17, evaluated on the code: for m = 180, alpha = 0, delPsi = 0 (both angles in
[0, 360)) the unlimited value is 4*(180 - 0.0057183) = 719.9771268; `limitMinutes` subtracts
1440 once and `eotf` returns -720.0228732, outside the interval [-20, 20] that the revision
note of 12-JUL-2005 ("Put a limit on the EOT calculation, so that the result is between -20
and 20") announces. -/
theorem eotf_exceeds_limit :
    ((0 : ℚ) ≤ 180 ∧ (180 : ℚ) < 360) ∧ ((0 : ℚ) ≤ 0 ∧ (0 : ℚ) < 360) ∧
    eotf polyMath 180 0 0 0 = -720.0228732 ∧
    ¬ (-20 ≤ eotf polyMath 180 0 0 0 ∧ eotf polyMath 180 0 0 0 ≤ 20) := by
  have h : eotf polyMath 180 0 0 0 = -720.0228732 := by
    norm_num [eotf, limitMinutes]
  refine ⟨by norm_num, by norm_num, h, ?_⟩
  rw [h]
  norm_num

/-- The result of `eotf`, which is `limitMinutes` of x = 4*(m - 0.0057183 - alpha +
delPsi*cos(deg2rad(epsilon))), lies in [-20, 20] exactly when x lies in [-20, 20], in
[1420, 1460] or in [-1460, -1420]. -/
theorem eotf_range_iff (M : GoMath) (m alpha delPsi epsilon : ℚ) :
    eotf M m alpha delPsi epsilon =
      limitMinutes (4 * (m - 0.0057183 - alpha + delPsi * M.cos (deg2rad M epsilon))) ∧
    ((-20 ≤ eotf M m alpha delPsi epsilon ∧ eotf M m alpha delPsi epsilon ≤ 20) ↔
      ((-20 ≤ 4 * (m - 0.0057183 - alpha + delPsi * M.cos (deg2rad M epsilon)) ∧
          4 * (m - 0.0057183 - alpha + delPsi * M.cos (deg2rad M epsilon)) ≤ 20) ∨
        (1420 ≤ 4 * (m - 0.0057183 - alpha + delPsi * M.cos (deg2rad M epsilon)) ∧
          4 * (m - 0.0057183 - alpha + delPsi * M.cos (deg2rad M epsilon)) ≤ 1460) ∨
        (-1460 ≤ 4 * (m - 0.0057183 - alpha + delPsi * M.cos (deg2rad M epsilon)) ∧
          4 * (m - 0.0057183 - alpha + delPsi * M.cos (deg2rad M epsilon)) ≤ -1420))) :=
  ⟨rfl, limitMinutes_range_iff _⟩

/-! ### Azimuth and local hours -/

theorem topocentricAzimuthAngle_eq (a : ℚ) (h0 : 0 ≤ a) (h1 : a < 360) :
    topocentricAzimuthAngle a = if a < 180 then a + 180 else a - 180 := by
  unfold topocentricAzimuthAngle limitDegrees goFloor
  simp only
  split_ifs with hlim h180 h180
  · exfalso
    have := Int.floor_le ((a + 180) / 360)
    linarith
  · exfalso
    have := Int.floor_le ((a + 180) / 360)
    linarith
  · have hf : ⌊(a + 180) / 360⌋ = 0 := by
      rw [Int.floor_eq_iff]
      constructor
      · norm_num
        positivity
      · norm_num
        rw [div_lt_iff₀ (by norm_num)]
        linarith
    rw [hf]
    norm_num
    ring
  · have hf : ⌊(a + 180) / 360⌋ = 1 := by
      rw [Int.floor_eq_iff]
      constructor
      · norm_num
        rw [le_div_iff₀ (by norm_num)]
        linarith
      · norm_num
        rw [div_lt_iff₀ (by norm_num)]
        linarith
    rw [hf]
    norm_num
    ring

theorem limitZero2one_eq (v : ℚ) : limitZero2one v = v - (⌊v⌋ : ℤ) := by
  unfold limitZero2one goFloor
  simp only
  rw [if_neg]
  have := Int.floor_le v
  linarith

theorem dayfracToLocalHr_range (d tz : ℚ) :
    0 ≤ dayfracToLocalHr d tz ∧ dayfracToLocalHr d tz < 24 ∧
    ∃ k : ℤ, dayfracToLocalHr d tz = 24 * d + tz - 24 * (k : ℚ) := by
  unfold dayfracToLocalHr
  rw [limitZero2one_eq]
  have h0 := Int.floor_le (d + tz / 24)
  have h1 := Int.lt_floor_add_one (d + tz / 24)
  refine ⟨by linarith, by linarith, ⌊d + tz / 24⌋, by ring⟩

/-! ### Dependencies of the pipeline stages -/

theorem sunHourAngleAtRiseSet_eq (M : GoMath) (latitude deltaZero h0Prime : ℚ) :
    sunHourAngleAtRiseSet M latitude deltaZero h0Prime =
      if |riseSetArgument M latitude deltaZero h0Prime| ≤ 1 then
        limitDegrees180 (rad2deg M (M.acos (riseSetArgument M latitude deltaZero h0Prime)))
      else -99999 := rfl

/-- In the polar branch the receiver gets `eot` and six sentinels. -/
theorem calculateEot_of_neg (M : GoMath) (s : spa) (h : ¬ rtsH0 M s ≥ 0) :
    calculateEotAndSunRiseTransitSet M s =
      { s with eot := eotf M (sunMeanLongitude s.jme) s.alpha s.delPsi s.epsilon,
               srha := -99999, ssha := -99999, sta := -99999,
               suntransit := -99999, sunrise := -99999, sunset := -99999 } := by
  unfold calculateEotAndSunRiseTransitSet
  lift_lets
  intro h0Prime m sEot nu loop1 alpha delta sunRts h0 sunRts1 locals
  have e : h0 = rtsH0 M s := rfl
  rw [if_neg (by rw [e]; exact h)]

/-- In the rise/set branch the three clock times are results of `dayfracToLocalHr` with the
timezone of the receiver. -/
theorem calculateEot_of_nonneg (M : GoMath) (s : spa) (h : rtsH0 M s ≥ 0) :
    ∃ x y z : ℚ,
      (calculateEotAndSunRiseTransitSet M s).suntransit = dayfracToLocalHr x s.timezone ∧
      (calculateEotAndSunRiseTransitSet M s).sunrise = dayfracToLocalHr y s.timezone ∧
      (calculateEotAndSunRiseTransitSet M s).sunset = dayfracToLocalHr z s.timezone := by
  unfold calculateEotAndSunRiseTransitSet
  lift_lets
  intro h0Prime m sEot nu loop1 alpha delta sunRts h0 sunRts1 locals
  have e : h0 = rtsH0 M s := rfl
  rw [if_pos (by rw [e]; exact h)]
  exact ⟨_, _, _, rfl, rfl, rfl⟩

/-- The geocentric stage reads `jd` and `deltaT` only. -/
theorem calcGeo_congr (M : GoMath) (s t : spa) (hjd : s.jd = t.jd) (hdt : s.deltaT = t.deltaT) :
    (calculateGeocentricSunRightAscensionAndDeclination M s).nu =
      (calculateGeocentricSunRightAscensionAndDeclination M t).nu ∧
    (calculateGeocentricSunRightAscensionAndDeclination M s).alpha =
      (calculateGeocentricSunRightAscensionAndDeclination M t).alpha ∧
    (calculateGeocentricSunRightAscensionAndDeclination M s).delta =
      (calculateGeocentricSunRightAscensionAndDeclination M t).delta := by
  simp only [calculateGeocentricSunRightAscensionAndDeclination,
    nutationLongitudeAndObliquity, hjd, hdt, and_self]

theorem calcGeo_nu (M : GoMath) (s : spa) :
    (calculateGeocentricSunRightAscensionAndDeclination M s).nu =
      (geoState M s.jd s.deltaT).nu :=
  (calcGeo_congr M s { zeroSpa with jd := s.jd, deltaT := s.deltaT } rfl rfl).1

theorem calcGeo_alpha (M : GoMath) (s : spa) :
    (calculateGeocentricSunRightAscensionAndDeclination M s).alpha =
      (geoState M s.jd s.deltaT).alpha :=
  (calcGeo_congr M s { zeroSpa with jd := s.jd, deltaT := s.deltaT } rfl rfl).2.1

theorem calcGeo_delta (M : GoMath) (s : spa) :
    (calculateGeocentricSunRightAscensionAndDeclination M s).delta =
      (geoState M s.jd s.deltaT).delta :=
  (calcGeo_congr M s { zeroSpa with jd := s.jd, deltaT := s.deltaT } rfl rfl).2.2

/-- Fields that the geocentric stage leaves alone and that the rise/set solver reads. -/
theorem calcGeo_keeps (M : GoMath) (s : spa) :
    (calculateGeocentricSunRightAscensionAndDeclination M s).jd = s.jd ∧
    (calculateGeocentricSunRightAscensionAndDeclination M s).deltaT = s.deltaT ∧
    (calculateGeocentricSunRightAscensionAndDeclination M s).mRts = s.mRts := by
  simp only [calculateGeocentricSunRightAscensionAndDeclination,
    nutationLongitudeAndObliquity, and_self]

theorem sunRtsMidnight_fields (M : GoMath) (s : spa) :
    (sunRtsMidnight M s).nu =
      (geoState M (julianDay s.year s.month s.day 0 0 0 0 0) s.deltaT).nu ∧
    (sunRtsMidnight M s).jd = julianDay s.year s.month s.day 0 0 0 0 0 ∧
    (sunRtsMidnight M s).mRts = List.replicate SunCount 0 := by
  unfold sunRtsMidnight
  simp only [calcGeo_nu, (calcGeo_keeps M _).1, (calcGeo_keeps M _).2.2, and_self]

theorem sunRtsSamples_fields (M : GoMath) (X : spa) :
    (sunRtsSamples M X).2.1 =
      [(geoState M (X.jd - 1) 0).alpha, (geoState M (X.jd - 1 + 1) 0).alpha,
        (geoState M (X.jd - 1 + 1 + 1) 0).alpha] ∧
    (sunRtsSamples M X).2.2 =
      [(geoState M (X.jd - 1) 0).delta, (geoState M (X.jd - 1 + 1) 0).delta,
        (geoState M (X.jd - 1 + 1 + 1) 0).delta] ∧
    (sunRtsSamples M X).1.mRts = X.mRts ∧
    (sunRtsSamples M X).1.deltaT = 0 := by
  have hr : List.range JdCount = [0, 1, 2] := rfl
  have hrep : List.replicate JdCount (0 : ℚ) = [0, 0, 0] := rfl
  unfold sunRtsSamples
  rw [hr, hrep]
  simp only [List.foldl_cons, List.foldl_nil, calcGeo_alpha, calcGeo_delta,
    (calcGeo_keeps M _).1, (calcGeo_keeps M _).2.1, (calcGeo_keeps M _).2.2,
    List.set_cons_zero, List.set_cons_succ, and_self]

/-- The rise/set solver reads twelve fields of the receiver: the date, `deltaT`, the
location, the timezone, `atmosRefract`, and `jme`, `alpha`, `delPsi`, `epsilon`. -/
theorem calculateEot_congr (M : GoMath) (s t : spa)
    (h1 : s.year = t.year) (h2 : s.month = t.month) (h3 : s.day = t.day)
    (h4 : s.deltaT = t.deltaT) (h5 : s.longitude = t.longitude)
    (h6 : s.latitude = t.latitude) (h7 : s.timezone = t.timezone)
    (h8 : s.atmosRefract = t.atmosRefract) (h9 : s.jme = t.jme) (h10 : s.alpha = t.alpha)
    (h11 : s.delPsi = t.delPsi) (h12 : s.epsilon = t.epsilon) :
    (calculateEotAndSunRiseTransitSet M s).eot = (calculateEotAndSunRiseTransitSet M t).eot ∧
    (calculateEotAndSunRiseTransitSet M s).srha = (calculateEotAndSunRiseTransitSet M t).srha ∧
    (calculateEotAndSunRiseTransitSet M s).ssha = (calculateEotAndSunRiseTransitSet M t).ssha ∧
    (calculateEotAndSunRiseTransitSet M s).sta = (calculateEotAndSunRiseTransitSet M t).sta ∧
    (calculateEotAndSunRiseTransitSet M s).suntransit =
      (calculateEotAndSunRiseTransitSet M t).suntransit ∧
    (calculateEotAndSunRiseTransitSet M s).sunrise =
      (calculateEotAndSunRiseTransitSet M t).sunrise ∧
    (calculateEotAndSunRiseTransitSet M s).sunset =
      (calculateEotAndSunRiseTransitSet M t).sunset := by
  simp only [calculateEotAndSunRiseTransitSet, rtsLoop, approxSunRiseAndSet,
    (sunRtsMidnight_fields M _).1, (sunRtsMidnight_fields M _).2.1,
    (sunRtsMidnight_fields M _).2.2,
    (sunRtsSamples_fields M _).1, (sunRtsSamples_fields M _).2.1,
    (sunRtsSamples_fields M _).2.2.1, (sunRtsSamples_fields M _).2.2.2,
    h1, h2, h3, h4, h5, h6, h7, h8, h9, h10, h11, h12]
  split <;> exact ⟨rfl, rfl, rfl, rfl, rfl, rfl, rfl⟩

/-- The stage `calculateTopocentric` reads fifteen input fields only: two states that agree
on them agree on the thirty-seven fields it writes. -/
theorem calculateTopocentric_congr (M : GoMath) (s t : spa)
    (hyear : s.year = t.year) (hmonth : s.month = t.month) (hday : s.day = t.day) (hhour :
    s.hour = t.hour) (hminute : s.minute = t.minute) (hsecond : s.second = t.second) (hdeltaUt1
    : s.deltaUt1 = t.deltaUt1) (hdeltaT : s.deltaT = t.deltaT) (htimezone : s.timezone =
    t.timezone) (hlongitude : s.longitude = t.longitude) (hlatitude : s.latitude = t.latitude)
    (helevation : s.elevation = t.elevation) (hpressure : s.pressure = t.pressure) (htemperature
    : s.temperature = t.temperature) (hatmosRefract : s.atmosRefract = t.atmosRefract) :
    (calculateTopocentric M s).jd = (calculateTopocentric M t).jd ∧
    (calculateTopocentric M s).jc = (calculateTopocentric M t).jc ∧
    (calculateTopocentric M s).jde = (calculateTopocentric M t).jde ∧
    (calculateTopocentric M s).jce = (calculateTopocentric M t).jce ∧
    (calculateTopocentric M s).jme = (calculateTopocentric M t).jme ∧
    (calculateTopocentric M s).l = (calculateTopocentric M t).l ∧
    (calculateTopocentric M s).b = (calculateTopocentric M t).b ∧
    (calculateTopocentric M s).r = (calculateTopocentric M t).r ∧
    (calculateTopocentric M s).theta = (calculateTopocentric M t).theta ∧
    (calculateTopocentric M s).beta = (calculateTopocentric M t).beta ∧
    (calculateTopocentric M s).x0 = (calculateTopocentric M t).x0 ∧
    (calculateTopocentric M s).x1 = (calculateTopocentric M t).x1 ∧
    (calculateTopocentric M s).x2 = (calculateTopocentric M t).x2 ∧
    (calculateTopocentric M s).x3 = (calculateTopocentric M t).x3 ∧
    (calculateTopocentric M s).x4 = (calculateTopocentric M t).x4 ∧
    (calculateTopocentric M s).delPsi = (calculateTopocentric M t).delPsi ∧
    (calculateTopocentric M s).delEpsilon = (calculateTopocentric M t).delEpsilon ∧
    (calculateTopocentric M s).epsilon0 = (calculateTopocentric M t).epsilon0 ∧
    (calculateTopocentric M s).epsilon = (calculateTopocentric M t).epsilon ∧
    (calculateTopocentric M s).delTau = (calculateTopocentric M t).delTau ∧
    (calculateTopocentric M s).lamda = (calculateTopocentric M t).lamda ∧
    (calculateTopocentric M s).nu0 = (calculateTopocentric M t).nu0 ∧
    (calculateTopocentric M s).nu = (calculateTopocentric M t).nu ∧
    (calculateTopocentric M s).alpha = (calculateTopocentric M t).alpha ∧
    (calculateTopocentric M s).delta = (calculateTopocentric M t).delta ∧
    (calculateTopocentric M s).h = (calculateTopocentric M t).h ∧
    (calculateTopocentric M s).xi = (calculateTopocentric M t).xi ∧
    (calculateTopocentric M s).delAlpha = (calculateTopocentric M t).delAlpha ∧
    (calculateTopocentric M s).deltaPrime = (calculateTopocentric M t).deltaPrime ∧
    (calculateTopocentric M s).alphaPrime = (calculateTopocentric M t).alphaPrime ∧
    (calculateTopocentric M s).hPrime = (calculateTopocentric M t).hPrime ∧
    (calculateTopocentric M s).e0 = (calculateTopocentric M t).e0 ∧
    (calculateTopocentric M s).delE = (calculateTopocentric M t).delE ∧
    (calculateTopocentric M s).e = (calculateTopocentric M t).e ∧
    (calculateTopocentric M s).zenith = (calculateTopocentric M t).zenith ∧
    (calculateTopocentric M s).azimuthAstro = (calculateTopocentric M t).azimuthAstro ∧
    (calculateTopocentric M s).azimuth = (calculateTopocentric M t).azimuth := by
  simp only [calculateTopocentric, calculateGeocentricSunRightAscensionAndDeclination,
    nutationLongitudeAndObliquity, rightAscensionParallaxAndTopocentricDec,
    hyear, hmonth, hday, hhour, hminute, hsecond, hdeltaUt1, hdeltaT, htimezone, hlongitude,
    hlatitude, helevation, hpressure, htemperature, hatmosRefract, and_self]

/-- The stage `calculateTopocentric` leaves the inputs, `incidence`, `eot`, the six
rise/transit/set outputs and `mRts` alone. -/
theorem calculateTopocentric_keeps (M : GoMath) (s : spa) :
    (calculateTopocentric M s).year = s.year ∧
    (calculateTopocentric M s).month = s.month ∧
    (calculateTopocentric M s).day = s.day ∧
    (calculateTopocentric M s).hour = s.hour ∧
    (calculateTopocentric M s).minute = s.minute ∧
    (calculateTopocentric M s).second = s.second ∧
    (calculateTopocentric M s).deltaUt1 = s.deltaUt1 ∧
    (calculateTopocentric M s).deltaT = s.deltaT ∧
    (calculateTopocentric M s).timezone = s.timezone ∧
    (calculateTopocentric M s).longitude = s.longitude ∧
    (calculateTopocentric M s).latitude = s.latitude ∧
    (calculateTopocentric M s).elevation = s.elevation ∧
    (calculateTopocentric M s).pressure = s.pressure ∧
    (calculateTopocentric M s).temperature = s.temperature ∧
    (calculateTopocentric M s).slope = s.slope ∧
    (calculateTopocentric M s).azmRotation = s.azmRotation ∧
    (calculateTopocentric M s).atmosRefract = s.atmosRefract ∧
    (calculateTopocentric M s).function = s.function ∧
    (calculateTopocentric M s).eot = s.eot ∧
    (calculateTopocentric M s).srha = s.srha ∧
    (calculateTopocentric M s).ssha = s.ssha ∧
    (calculateTopocentric M s).sta = s.sta ∧
    (calculateTopocentric M s).mRts = s.mRts ∧
    (calculateTopocentric M s).incidence = s.incidence ∧
    (calculateTopocentric M s).suntransit = s.suntransit ∧
    (calculateTopocentric M s).sunrise = s.sunrise ∧
    (calculateTopocentric M s).sunset = s.sunset := by
  simp only [calculateTopocentric, calculateGeocentricSunRightAscensionAndDeclination,
    nutationLongitudeAndObliquity, rightAscensionParallaxAndTopocentricDec, and_self]

/-- The two conditional blocks of `Calculate`, by selector. -/
theorem calculateSelected_eq (M : GoMath) (s : spa) :
    calculateSelected M s =
      if s.function = SpaZaRts ∨ s.function = SpaAll then
        calculateEotAndSunRiseTransitSet M
          (if s.function = SpaZaInc ∨ s.function = SpaAll then
            { s with
              incidence :=
                surfaceIncidenceAngle M s.zenith s.azimuthAstro s.azmRotation s.slope }
          else s)
      else
        (if s.function = SpaZaInc ∨ s.function = SpaAll then
          { s with
            incidence :=
              surfaceIncidenceAngle M s.zenith s.azimuthAstro s.azmRotation s.slope }
        else s) := by
  unfold calculateSelected
  by_cases h1 : s.function = SpaZaInc ∨ s.function = SpaAll <;>
    by_cases h2 : s.function = SpaZaRts ∨ s.function = SpaAll <;>
    simp only [h1, h2, if_true, if_false]

/-- The pipeline of `Calculate` leaves the eighteen inputs and `mRts` alone. -/
theorem pipeline_keeps (M : GoMath) (x : spa) :
    (calculateSelected M (calculateTopocentric M x)).year = x.year ∧
    (calculateSelected M (calculateTopocentric M x)).month = x.month ∧
    (calculateSelected M (calculateTopocentric M x)).day = x.day ∧
    (calculateSelected M (calculateTopocentric M x)).hour = x.hour ∧
    (calculateSelected M (calculateTopocentric M x)).minute = x.minute ∧
    (calculateSelected M (calculateTopocentric M x)).second = x.second ∧
    (calculateSelected M (calculateTopocentric M x)).deltaUt1 = x.deltaUt1 ∧
    (calculateSelected M (calculateTopocentric M x)).deltaT = x.deltaT ∧
    (calculateSelected M (calculateTopocentric M x)).timezone = x.timezone ∧
    (calculateSelected M (calculateTopocentric M x)).longitude = x.longitude ∧
    (calculateSelected M (calculateTopocentric M x)).latitude = x.latitude ∧
    (calculateSelected M (calculateTopocentric M x)).elevation = x.elevation ∧
    (calculateSelected M (calculateTopocentric M x)).pressure = x.pressure ∧
    (calculateSelected M (calculateTopocentric M x)).temperature = x.temperature ∧
    (calculateSelected M (calculateTopocentric M x)).slope = x.slope ∧
    (calculateSelected M (calculateTopocentric M x)).azmRotation = x.azmRotation ∧
    (calculateSelected M (calculateTopocentric M x)).atmosRefract = x.atmosRefract ∧
    (calculateSelected M (calculateTopocentric M x)).function = x.function ∧
    (calculateSelected M (calculateTopocentric M x)).mRts = x.mRts := by
  obtain ⟨i, a, b, c, d, e, f, g, hsel⟩ := calculateSelected_frame M (calculateTopocentric M x)
  rw [hsel]
  have hk := calculateTopocentric_keeps M x
  simp only [hk, and_self]

/-- The conditional blocks leave the thirty-seven fields written before them alone. -/
theorem pipeline_topo (M : GoMath) (x : spa) :
    (calculateSelected M (calculateTopocentric M x)).jd = (calculateTopocentric M x).jd ∧
    (calculateSelected M (calculateTopocentric M x)).jc = (calculateTopocentric M x).jc ∧
    (calculateSelected M (calculateTopocentric M x)).jde = (calculateTopocentric M x).jde ∧
    (calculateSelected M (calculateTopocentric M x)).jce = (calculateTopocentric M x).jce ∧
    (calculateSelected M (calculateTopocentric M x)).jme = (calculateTopocentric M x).jme ∧
    (calculateSelected M (calculateTopocentric M x)).l = (calculateTopocentric M x).l ∧
    (calculateSelected M (calculateTopocentric M x)).b = (calculateTopocentric M x).b ∧
    (calculateSelected M (calculateTopocentric M x)).r = (calculateTopocentric M x).r ∧
    (calculateSelected M (calculateTopocentric M x)).theta = (calculateTopocentric M x).theta ∧
    (calculateSelected M (calculateTopocentric M x)).beta = (calculateTopocentric M x).beta ∧
    (calculateSelected M (calculateTopocentric M x)).x0 = (calculateTopocentric M x).x0 ∧
    (calculateSelected M (calculateTopocentric M x)).x1 = (calculateTopocentric M x).x1 ∧
    (calculateSelected M (calculateTopocentric M x)).x2 = (calculateTopocentric M x).x2 ∧
    (calculateSelected M (calculateTopocentric M x)).x3 = (calculateTopocentric M x).x3 ∧
    (calculateSelected M (calculateTopocentric M x)).x4 = (calculateTopocentric M x).x4 ∧
    (calculateSelected M (calculateTopocentric M x)).delPsi = (calculateTopocentric M x).delPsi ∧
    (calculateSelected M (calculateTopocentric M x)).delEpsilon = (calculateTopocentric M x).delEpsilon ∧
    (calculateSelected M (calculateTopocentric M x)).epsilon0 = (calculateTopocentric M x).epsilon0 ∧
    (calculateSelected M (calculateTopocentric M x)).epsilon = (calculateTopocentric M x).epsilon ∧
    (calculateSelected M (calculateTopocentric M x)).delTau = (calculateTopocentric M x).delTau ∧
    (calculateSelected M (calculateTopocentric M x)).lamda = (calculateTopocentric M x).lamda ∧
    (calculateSelected M (calculateTopocentric M x)).nu0 = (calculateTopocentric M x).nu0 ∧
    (calculateSelected M (calculateTopocentric M x)).nu = (calculateTopocentric M x).nu ∧
    (calculateSelected M (calculateTopocentric M x)).alpha = (calculateTopocentric M x).alpha ∧
    (calculateSelected M (calculateTopocentric M x)).delta = (calculateTopocentric M x).delta ∧
    (calculateSelected M (calculateTopocentric M x)).h = (calculateTopocentric M x).h ∧
    (calculateSelected M (calculateTopocentric M x)).xi = (calculateTopocentric M x).xi ∧
    (calculateSelected M (calculateTopocentric M x)).delAlpha = (calculateTopocentric M x).delAlpha ∧
    (calculateSelected M (calculateTopocentric M x)).deltaPrime = (calculateTopocentric M x).deltaPrime ∧
    (calculateSelected M (calculateTopocentric M x)).alphaPrime = (calculateTopocentric M x).alphaPrime ∧
    (calculateSelected M (calculateTopocentric M x)).hPrime = (calculateTopocentric M x).hPrime ∧
    (calculateSelected M (calculateTopocentric M x)).e0 = (calculateTopocentric M x).e0 ∧
    (calculateSelected M (calculateTopocentric M x)).delE = (calculateTopocentric M x).delE ∧
    (calculateSelected M (calculateTopocentric M x)).e = (calculateTopocentric M x).e ∧
    (calculateSelected M (calculateTopocentric M x)).zenith = (calculateTopocentric M x).zenith ∧
    (calculateSelected M (calculateTopocentric M x)).azimuthAstro = (calculateTopocentric M x).azimuthAstro ∧
    (calculateSelected M (calculateTopocentric M x)).azimuth = (calculateTopocentric M x).azimuth := by
  obtain ⟨i, a, b, c, d, e, f, g, hsel⟩ := calculateSelected_frame M (calculateTopocentric M x)
  rw [hsel]
  simp only [and_self]

/-! ### Renewal of the date -/

theorem yoe_aux (doe a b cc yoe e f c q r : ℤ)
    (hc0 : 0 ≤ c) (hc1 : c ≤ 3) (hq0 : 0 ≤ q) (hq1 : q ≤ 24) (hr0 : 0 ≤ r) (hr1 : r ≤ 1460)
    (hx : 1461 * q + r ≤ 36523)
    (hd : doe = 36524 * c + 1461 * q + r)
    (ha : a = doe / 1460) (hb : b = doe / 36524) (hcc : cc = doe / 146096)
    (hy : yoe = (doe - a + b - cc) / 365) (he : e = yoe / 4) (hf : f = yoe / 100) :
    0 ≤ yoe ∧ yoe ≤ 399 ∧ 0 ≤ doe - (365 * yoe + e - f) ∧ doe - (365 * yoe + e - f) ≤ 365 := by
  have hb' : b = c := by omega
  have hcc' : cc = 0 := by omega
  have ha' : a = 25 * c + q ∨ a = 25 * c + q + 1 := by omega
  have hy' : yoe = 100 * c + 4 * q ∨ yoe = 100 * c + 4 * q + 1 ∨ yoe = 100 * c + 4 * q + 2 ∨
      yoe = 100 * c + 4 * q + 3 := by
    rcases ha' with h | h <;> omega
  have he' : e = 25 * c + q := by omega
  have hf' : f = c := by omega
  rcases ha' with h | h <;> rcases hy' with h2 | h2 | h2 | h2 <;> omega

theorem yoe_facts (doe : ℤ) (h0 : 0 ≤ doe) (h1 : doe ≤ 146096) :
    0 ≤ (doe - doe / 1460 + doe / 36524 - doe / 146096) / 365 ∧
    (doe - doe / 1460 + doe / 36524 - doe / 146096) / 365 ≤ 399 ∧
    0 ≤ doe - (365 * ((doe - doe / 1460 + doe / 36524 - doe / 146096) / 365) +
        (doe - doe / 1460 + doe / 36524 - doe / 146096) / 365 / 4 -
        (doe - doe / 1460 + doe / 36524 - doe / 146096) / 365 / 100) ∧
    doe - (365 * ((doe - doe / 1460 + doe / 36524 - doe / 146096) / 365) +
        (doe - doe / 1460 + doe / 36524 - doe / 146096) / 365 / 4 -
        (doe - doe / 1460 + doe / 36524 - doe / 146096) / 365 / 100) ≤ 365 := by
  by_cases hlast : doe = 146096
  · subst hlast
    decide
  · exact yoe_aux doe _ _ _ _ _ _ (doe / 36524) (doe % 36524 / 1461) (doe % 36524 % 1461)
      (by omega) (by omega) (by omega) (by omega) (by omega) (by omega) (by omega) (by omega)
      rfl rfl rfl rfl rfl rfl

theorem civil_roundtrip_aux (z era doe yoe doy mp : ℤ)
    (hera : era = (z + 719468) / 146097) (hdoe : doe = z + 719468 - era * 146097)
    (hy0 : 0 ≤ yoe) (hy1 : yoe ≤ 399)
    (hdoy : doy = doe - (365 * yoe + yoe / 4 - yoe / 100)) (hd0 : 0 ≤ doy) (hd1 : doy ≤ 365)
    (hmp : mp = (5 * doy + 2) / 153) :
    1 ≤ (if mp < 10 then mp + 3 else mp - 9) ∧ (if mp < 10 then mp + 3 else mp - 9) ≤ 12 ∧
    daysFromCivil
      (if (if mp < 10 then mp + 3 else mp - 9) ≤ 2 then yoe + era * 400 + 1
        else yoe + era * 400)
      (if mp < 10 then mp + 3 else mp - 9)
      (doy - (153 * mp + 2) / 5 + 1) = z := by
  have hmp0 : 0 ≤ mp := by omega
  have hmp1 : mp ≤ 11 := by omega
  have hg : (yoe + era * 400) / 400 = era := by omega
  have hg1 : (yoe + era * 400 + 1 - 1) / 400 = era := by omega
  have hm1 : mp < 10 → (mp + 3 + 9) % 12 = mp := by omega
  have hm2 : ¬ mp < 10 → (mp - 9 + 9) % 12 = mp := by omega
  unfold daysFromCivil
  simp only
  split_ifs with h10 h2 h2'
  · omega
  · have hy2 : yoe + era * 400 - era * 400 = yoe := by ring
    simp only [hg, hm1 h10, hy2]
    omega
  · have hy3 : yoe + era * 400 + 1 - 1 - era * 400 = yoe := by ring
    simp only [hg1, hm2 h10, hy3]
    omega
  · omega

theorem civil_roundtrip (z : ℤ) :
    1 ≤ (civilFromDays z).2.1 ∧ (civilFromDays z).2.1 ≤ 12 ∧
    daysFromCivil (civilFromDays z).1 (civilFromDays z).2.1 (civilFromDays z).2.2 = z := by
  have hdoe0 : 0 ≤ z + 719468 - (z + 719468) / 146097 * 146097 := by omega
  have hdoe1 : z + 719468 - (z + 719468) / 146097 * 146097 ≤ 146096 := by omega
  obtain ⟨hy0, hy1, hd0, hd1⟩ :=
    yoe_facts (z + 719468 - (z + 719468) / 146097 * 146097) hdoe0 hdoe1
  exact civil_roundtrip_aux z _ _ _ _ _ rfl rfl hy0 hy1 rfl hd0 hd1 rfl

/-- The incidence angle is not written by `calculateEotAndSunRiseTransitSet`. -/
theorem calculateEot_incidence (M : GoMath) (s : spa) :
    (calculateEotAndSunRiseTransitSet M s).incidence = s.incidence := by
  obtain ⟨a, b, c, d, e, f, g, h⟩ := calculateEotAndSunRiseTransitSet_frame M s
  rw [h]

/-- The incidence angle after the pipeline: computed when the selector asks for it, kept
otherwise. -/
theorem pipeline_incidence (M : GoMath) (x : spa) :
    (calculateSelected M (calculateTopocentric M x)).incidence =
      if x.function = SpaZaInc ∨ x.function = SpaAll then
        surfaceIncidenceAngle M (calculateTopocentric M x).zenith
          (calculateTopocentric M x).azimuthAstro x.azmRotation x.slope
      else x.incidence := by
  obtain ⟨k_year, k_month, k_day, k_hour, k_minute, k_second, k_deltaUt1, k_deltaT, k_timezone,
    k_longitude, k_latitude, k_elevation, k_pressure, k_temperature, k_slope, k_azmRotation,
    k_atmosRefract, k_function, k_eot, k_srha, k_ssha, k_sta, k_mRts, k_incidence,
    k_suntransit, k_sunrise, k_sunset⟩ :=
    calculateTopocentric_keeps M x
  rw [calculateSelected_eq, ← k_function, ← k_azmRotation, ← k_slope, ← k_incidence]
  generalize calculateTopocentric M x = X
  by_cases h1 : X.function = SpaZaInc ∨ X.function = SpaAll <;>
    by_cases h2 : X.function = SpaZaRts ∨ X.function = SpaAll
  · simp only [h1, h2, if_true]
    rw [calculateEot_incidence]
  · simp only [h1, h2, if_true, if_false]
  · simp only [h1, h2, if_true, if_false]
    rw [calculateEot_incidence]
  · simp only [h1, h2, if_false]

/-- The rise/set solver does not read the incidence angle. -/
theorem calculateEot_set_incidence (M : GoMath) (Z : spa) (v : ℚ) :
    (calculateEotAndSunRiseTransitSet M { Z with incidence := v }).eot =
      (calculateEotAndSunRiseTransitSet M Z).eot ∧
    (calculateEotAndSunRiseTransitSet M { Z with incidence := v }).srha =
      (calculateEotAndSunRiseTransitSet M Z).srha ∧
    (calculateEotAndSunRiseTransitSet M { Z with incidence := v }).ssha =
      (calculateEotAndSunRiseTransitSet M Z).ssha ∧
    (calculateEotAndSunRiseTransitSet M { Z with incidence := v }).sta =
      (calculateEotAndSunRiseTransitSet M Z).sta ∧
    (calculateEotAndSunRiseTransitSet M { Z with incidence := v }).suntransit =
      (calculateEotAndSunRiseTransitSet M Z).suntransit ∧
    (calculateEotAndSunRiseTransitSet M { Z with incidence := v }).sunrise =
      (calculateEotAndSunRiseTransitSet M Z).sunrise ∧
    (calculateEotAndSunRiseTransitSet M { Z with incidence := v }).sunset =
      (calculateEotAndSunRiseTransitSet M Z).sunset :=
  calculateEot_congr M { Z with incidence := v } Z
    rfl rfl rfl rfl rfl rfl rfl rfl rfl rfl rfl rfl

/-- The equation of time and the six rise/transit/set outputs after the pipeline: those of
`calculateEotAndSunRiseTransitSet` when the selector asks for them, kept otherwise. -/
theorem pipeline_rts (M : GoMath) (x : spa) :
    (calculateSelected M (calculateTopocentric M x)).eot =
      (if x.function = SpaZaRts ∨ x.function = SpaAll then
        (calculateEotAndSunRiseTransitSet M (calculateTopocentric M x)).eot
      else x.eot) ∧
    (calculateSelected M (calculateTopocentric M x)).srha =
      (if x.function = SpaZaRts ∨ x.function = SpaAll then
        (calculateEotAndSunRiseTransitSet M (calculateTopocentric M x)).srha
      else x.srha) ∧
    (calculateSelected M (calculateTopocentric M x)).ssha =
      (if x.function = SpaZaRts ∨ x.function = SpaAll then
        (calculateEotAndSunRiseTransitSet M (calculateTopocentric M x)).ssha
      else x.ssha) ∧
    (calculateSelected M (calculateTopocentric M x)).sta =
      (if x.function = SpaZaRts ∨ x.function = SpaAll then
        (calculateEotAndSunRiseTransitSet M (calculateTopocentric M x)).sta
      else x.sta) ∧
    (calculateSelected M (calculateTopocentric M x)).suntransit =
      (if x.function = SpaZaRts ∨ x.function = SpaAll then
        (calculateEotAndSunRiseTransitSet M (calculateTopocentric M x)).suntransit
      else x.suntransit) ∧
    (calculateSelected M (calculateTopocentric M x)).sunrise =
      (if x.function = SpaZaRts ∨ x.function = SpaAll then
        (calculateEotAndSunRiseTransitSet M (calculateTopocentric M x)).sunrise
      else x.sunrise) ∧
    (calculateSelected M (calculateTopocentric M x)).sunset =
      (if x.function = SpaZaRts ∨ x.function = SpaAll then
        (calculateEotAndSunRiseTransitSet M (calculateTopocentric M x)).sunset
      else x.sunset) := by
  obtain ⟨k_year, k_month, k_day, k_hour, k_minute, k_second, k_deltaUt1, k_deltaT, k_timezone,
    k_longitude, k_latitude, k_elevation, k_pressure, k_temperature, k_slope, k_azmRotation,
    k_atmosRefract, k_function, k_eot, k_srha, k_ssha, k_sta, k_mRts, k_incidence,
    k_suntransit, k_sunrise, k_sunset⟩ :=
    calculateTopocentric_keeps M x
  rw [calculateSelected_eq, ← k_function, ← k_eot, ← k_srha, ← k_ssha, ← k_sta, ← k_suntransit,
    ← k_sunrise, ← k_sunset]
  generalize calculateTopocentric M x = X
  by_cases h1 : X.function = SpaZaInc ∨ X.function = SpaAll <;>
    by_cases h2 : X.function = SpaZaRts ∨ X.function = SpaAll
  · simp only [h1, h2, if_true]
    exact calculateEot_set_incidence M X _
  · simp only [h1, h2, if_true, if_false, and_self]
  · simp only [h1, h2, if_true, if_false, and_self]
  · simp only [h1, h2, if_false, and_self]
/-- The three final angles are computed from fields of the same state. -/
theorem calculateTopocentric_final (M : GoMath) (s : spa) :
    (calculateTopocentric M s).zenith = topocentricZenithAngle (calculateTopocentric M s).e ∧
    (calculateTopocentric M s).azimuthAstro =
      topocentricAzimuthAngleAstro M (calculateTopocentric M s).hPrime
        (calculateTopocentric M s).latitude (calculateTopocentric M s).deltaPrime ∧
    (calculateTopocentric M s).azimuth =
      topocentricAzimuthAngle (calculateTopocentric M s).azimuthAstro := by
  simp only [calculateTopocentric, calculateGeocentricSunRightAscensionAndDeclination,
    nutationLongitudeAndObliquity, rightAscensionParallaxAndTopocentricDec, and_self]

/-- The declination sample of the day is the geocentric declination at 0 UT of the date,
computed with deltaT 0. -/
theorem rtsDeltaZero_eq (M : GoMath) (s : spa) :
    rtsDeltaZero M s = (geoState M (julianDay s.year s.month s.day 0 0 0 0 0) 0).delta := by
  unfold rtsDeltaZero
  rw [(sunRtsSamples_fields M _).2.1, (sunRtsMidnight_fields M s).2.1]
  have e : julianDay s.year s.month s.day 0 0 0 0 0 - 1 + 1 =
      julianDay s.year s.month s.day 0 0 0 0 0 := by ring
  rw [e]
  rfl

/-- The local `h0` depends on the date, the latitude and `atmosRefract` only. -/
theorem rtsH0_congr (M : GoMath) (s t : spa) (h1 : s.year = t.year) (h2 : s.month = t.month)
    (h3 : s.day = t.day) (h4 : s.latitude = t.latitude)
    (h5 : s.atmosRefract = t.atmosRefract) : rtsH0 M s = rtsH0 M t := by
  unfold rtsH0
  rw [rtsDeltaZero_eq, rtsDeltaZero_eq, h1, h2, h3, h4, h5]

/-- In the polar branch the six rise/transit/set outputs are -99999. -/
theorem calculateEot_sentinels (M : GoMath) (s : spa) (h : ¬ rtsH0 M s ≥ 0) :
    (calculateEotAndSunRiseTransitSet M s).srha = -99999 ∧
    (calculateEotAndSunRiseTransitSet M s).ssha = -99999 ∧
    (calculateEotAndSunRiseTransitSet M s).sta = -99999 ∧
    (calculateEotAndSunRiseTransitSet M s).suntransit = -99999 ∧
    (calculateEotAndSunRiseTransitSet M s).sunrise = -99999 ∧
    (calculateEotAndSunRiseTransitSet M s).sunset = -99999 := by
  rw [calculateEot_of_neg M s h]
  exact ⟨rfl, rfl, rfl, rfl, rfl, rfl⟩

/-- In the rise/set branch the three clock times lie in [0, 24). -/
theorem calculateEot_hours (M : GoMath) (s : spa) (h : rtsH0 M s ≥ 0) :
    (0 ≤ (calculateEotAndSunRiseTransitSet M s).suntransit ∧
      (calculateEotAndSunRiseTransitSet M s).suntransit < 24) ∧
    (0 ≤ (calculateEotAndSunRiseTransitSet M s).sunrise ∧
      (calculateEotAndSunRiseTransitSet M s).sunrise < 24) ∧
    (0 ≤ (calculateEotAndSunRiseTransitSet M s).sunset ∧
      (calculateEotAndSunRiseTransitSet M s).sunset < 24) := by
  obtain ⟨x, y, z, hx, hy, hz⟩ := calculateEot_of_nonneg M s h
  rw [hx, hy, hz]
  exact ⟨⟨(dayfracToLocalHr_range x _).1, (dayfracToLocalHr_range x _).2.1⟩,
    ⟨(dayfracToLocalHr_range y _).1, (dayfracToLocalHr_range y _).2.1⟩,
    ⟨(dayfracToLocalHr_range z _).1, (dayfracToLocalHr_range z _).2.1⟩⟩

/-- A polar argument makes `sunHourAngleAtRiseSet` return the sentinel, which is negative. -/
theorem sunHourAngleAtRiseSet_polar (M : GoMath) (latitude deltaZero h0Prime : ℚ)
    (h : |riseSetArgument M latitude deltaZero h0Prime| > 1) :
    sunHourAngleAtRiseSet M latitude deltaZero h0Prime = -99999 := by
  rw [sunHourAngleAtRiseSet_eq, if_neg (not_le.mpr h)]

/-- The function `norm` leaves a pair with `0 ≤ lo < base` unchanged. -/
theorem norm_normalized (hi lo base : ℤ) (h0 : 0 ≤ lo) (h1 : lo < base) :
    norm hi lo base = (hi, lo) := by
  simp only [norm, Int.ediv_eq_zero_of_lt h0 h1, Int.emod_eq_of_lt h0 h1, add_zero]

/-- A date produced by `timeDate` is already normalised: passing its fields through
`timeDate` again returns them unchanged. -/
theorem timeDate_normalized (year month day hour min sec offset offset2 : ℤ) :
    timeDate (timeDate year month day hour min sec offset).year
      (timeDate year month day hour min sec offset).month
      (timeDate year month day hour min sec offset).day
      (timeDate year month day hour min sec offset).hour
      (timeDate year month day hour min sec offset).minute
      (timeDate year month day hour min sec offset).second offset2 =
    { timeDate year month day hour min sec offset with offset := offset2 } := by
  have hS0 : 0 ≤ sec % 60 := Int.emod_nonneg _ (by decide)
  have hS1 : sec % 60 < 60 := Int.emod_lt_of_pos _ (by decide)
  have hM0 : 0 ≤ (min + sec / 60) % 60 := Int.emod_nonneg _ (by decide)
  have hM1 : (min + sec / 60) % 60 < 60 := Int.emod_lt_of_pos _ (by decide)
  have hH0 : 0 ≤ (hour + (min + sec / 60) / 60) % 24 := Int.emod_nonneg _ (by decide)
  have hH1 : (hour + (min + sec / 60) / 60) % 24 < 24 := Int.emod_lt_of_pos _ (by decide)
  obtain ⟨hm1, hm2, hz⟩ := civil_roundtrip
    (daysFromCivil (year + (month - 1) / 12) ((month - 1) % 12 + 1)
      (day + (hour + (min + sec / 60) / 60) / 24))
  have hmo0 : 0 ≤ (civilFromDays (daysFromCivil (year + (month - 1) / 12)
      ((month - 1) % 12 + 1) (day + (hour + (min + sec / 60) / 60) / 24))).2.1 - 1 := by
    omega
  have hmo1 : (civilFromDays (daysFromCivil (year + (month - 1) / 12)
      ((month - 1) % 12 + 1) (day + (hour + (min + sec / 60) / 60) / 24))).2.1 - 1 < 12 := by
    omega
  simp only [timeDate, norm, Int.ediv_eq_zero_of_lt hS0 hS1, Int.emod_eq_of_lt hS0 hS1,
    Int.ediv_eq_zero_of_lt hM0 hM1, Int.emod_eq_of_lt hM0 hM1,
    Int.ediv_eq_zero_of_lt hH0 hH1, Int.emod_eq_of_lt hH0 hH1,
    Int.ediv_eq_zero_of_lt hmo0 hmo1, Int.emod_eq_of_lt hmo0 hmo1, add_zero,
    sub_add_cancel, hz]

/-- The date read back from a renewed state is the date it was renewed with, up to the
zone offset, which is rounded to whole hours. -/
theorem GetDate_renewed (s : spa) :
    GetDate (SetDate s (GetDate s)) =
      { GetDate s with offset := Int.tdiv (GetDate s).offset 3600 * 3600 } := by
  have h1 : GetDate (SetDate s (GetDate s)) =
      timeDate (GetDate s).year (GetDate s).month (GetDate s).day (GetDate s).hour
        (GetDate s).minute (goInt (((GetDate s).second : ℤ) : ℚ))
        (goInt (((Int.tdiv (GetDate s).offset 3600 : ℤ) : ℚ) * 3600)) := rfl
  have h2 : (((Int.tdiv (GetDate s).offset 3600 : ℤ) : ℚ) * 3600) =
      ((Int.tdiv (GetDate s).offset 3600 * 3600 : ℤ) : ℚ) := by
    push_cast
    ring
  rw [h1, h2, goInt_intCast, goInt_intCast]
  exact timeDate_normalized _ _ _ _ _ _ _ _

/-- Renewing the date is idempotent: `s.SetDate(s.GetDate())` applied to its own result
changes nothing. -/
theorem renew_idem (s : spa) :
    SetDate (SetDate s (GetDate s)) (GetDate (SetDate s (GetDate s))) =
      SetDate s (GetDate s) := by
  rw [GetDate_renewed]
  have h : Int.tdiv (Int.tdiv (GetDate s).offset 3600 * 3600) 3600 =
      Int.tdiv (GetDate s).offset 3600 := Int.mul_tdiv_cancel _ (by decide)
  simp only [SetDate, h]

/-- Two states with the same value in every field are equal. -/
theorem spa_eq_of_fields (s t : spa)
    (h : s.year = t.year ∧
      s.month = t.month ∧
      s.day = t.day ∧
      s.hour = t.hour ∧
      s.minute = t.minute ∧
      s.second = t.second ∧
      s.deltaUt1 = t.deltaUt1 ∧
      s.deltaT = t.deltaT ∧
      s.timezone = t.timezone ∧
      s.longitude = t.longitude ∧
      s.latitude = t.latitude ∧
      s.elevation = t.elevation ∧
      s.pressure = t.pressure ∧
      s.temperature = t.temperature ∧
      s.slope = t.slope ∧
      s.azmRotation = t.azmRotation ∧
      s.atmosRefract = t.atmosRefract ∧
      s.function = t.function ∧
      s.jd = t.jd ∧
      s.jc = t.jc ∧
      s.jde = t.jde ∧
      s.jce = t.jce ∧
      s.jme = t.jme ∧
      s.l = t.l ∧
      s.b = t.b ∧
      s.r = t.r ∧
      s.theta = t.theta ∧
      s.beta = t.beta ∧
      s.x0 = t.x0 ∧
      s.x1 = t.x1 ∧
      s.x2 = t.x2 ∧
      s.x3 = t.x3 ∧
      s.x4 = t.x4 ∧
      s.delPsi = t.delPsi ∧
      s.delEpsilon = t.delEpsilon ∧
      s.epsilon0 = t.epsilon0 ∧
      s.epsilon = t.epsilon ∧
      s.delTau = t.delTau ∧
      s.lamda = t.lamda ∧
      s.nu0 = t.nu0 ∧
      s.nu = t.nu ∧
      s.alpha = t.alpha ∧
      s.delta = t.delta ∧
      s.h = t.h ∧
      s.xi = t.xi ∧
      s.delAlpha = t.delAlpha ∧
      s.deltaPrime = t.deltaPrime ∧
      s.alphaPrime = t.alphaPrime ∧
      s.hPrime = t.hPrime ∧
      s.e0 = t.e0 ∧
      s.delE = t.delE ∧
      s.e = t.e ∧
      s.eot = t.eot ∧
      s.srha = t.srha ∧
      s.ssha = t.ssha ∧
      s.sta = t.sta ∧
      s.mRts = t.mRts ∧
      s.zenith = t.zenith ∧
      s.azimuthAstro = t.azimuthAstro ∧
      s.azimuth = t.azimuth ∧
      s.incidence = t.incidence ∧
      s.suntransit = t.suntransit ∧
      s.sunrise = t.sunrise ∧
      s.sunset = t.sunset) :
    s = t := by
  cases s
  cases t
  simpa using h

/-- Writing back a date whose fields are those of the state changes nothing. -/
theorem SetDate_self (x : spa) (dt : GoTime) (h1 : dt.year = x.year) (h2 : dt.month = x.month)
    (h3 : dt.day = x.day) (h4 : dt.hour = x.hour) (h5 : dt.minute = x.minute)
    (h6 : (dt.second : ℚ) = x.second)
    (h7 : ((Int.tdiv dt.offset 3600 : ℤ) : ℚ) = x.timezone) : SetDate x dt = x := by
  unfold SetDate
  rw [h1, h2, h3, h4, h5, h6, h7]

/-- A state with the date fields of a renewed state is itself unchanged by the renewal. -/
theorem renew_fixed (x y : spa) (h1 : x.year = y.year) (h2 : x.month = y.month)
    (h3 : x.day = y.day) (h4 : x.hour = y.hour) (h5 : x.minute = y.minute)
    (h6 : x.second = y.second) (h7 : x.timezone = y.timezone)
    (hy : SetDate y (GetDate y) = y) : SetDate x (GetDate x) = x := by
  have hG : GetDate x = GetDate y := by
    simp only [GetDate, h1, h2, h3, h4, h5, h6, h7]
  rw [hG]
  exact SetDate_self x (GetDate y)
    ((congrArg spa.year hy).trans h1.symm) ((congrArg spa.month hy).trans h2.symm)
    ((congrArg spa.day hy).trans h3.symm) ((congrArg spa.hour hy).trans h4.symm)
    ((congrArg spa.minute hy).trans h5.symm) ((congrArg spa.second hy).trans h6.symm)
    ((congrArg spa.timezone hy).trans h7.symm)

/-- The renewal of the date reads the input fields only. -/
theorem renew_congr (s t : spa)
    (hyear : s.year = t.year) (hmonth : s.month = t.month) (hday : s.day = t.day)
    (hhour : s.hour = t.hour) (hminute : s.minute = t.minute) (hsecond : s.second = t.second)
    (hdeltaUt1 : s.deltaUt1 = t.deltaUt1) (hdeltaT : s.deltaT = t.deltaT)
    (htimezone : s.timezone = t.timezone) (hlongitude : s.longitude = t.longitude)
    (hlatitude : s.latitude = t.latitude) (helevation : s.elevation = t.elevation)
    (hpressure : s.pressure = t.pressure) (htemperature : s.temperature = t.temperature)
    (hslope : s.slope = t.slope) (hazmRotation : s.azmRotation = t.azmRotation)
    (hatmosRefract : s.atmosRefract = t.atmosRefract) (hfunction : s.function = t.function) :
    (SetDate s (GetDate s)).year = (SetDate t (GetDate t)).year ∧
    (SetDate s (GetDate s)).month = (SetDate t (GetDate t)).month ∧
    (SetDate s (GetDate s)).day = (SetDate t (GetDate t)).day ∧
    (SetDate s (GetDate s)).hour = (SetDate t (GetDate t)).hour ∧
    (SetDate s (GetDate s)).minute = (SetDate t (GetDate t)).minute ∧
    (SetDate s (GetDate s)).second = (SetDate t (GetDate t)).second ∧
    (SetDate s (GetDate s)).deltaUt1 = (SetDate t (GetDate t)).deltaUt1 ∧
    (SetDate s (GetDate s)).deltaT = (SetDate t (GetDate t)).deltaT ∧
    (SetDate s (GetDate s)).timezone = (SetDate t (GetDate t)).timezone ∧
    (SetDate s (GetDate s)).longitude = (SetDate t (GetDate t)).longitude ∧
    (SetDate s (GetDate s)).latitude = (SetDate t (GetDate t)).latitude ∧
    (SetDate s (GetDate s)).elevation = (SetDate t (GetDate t)).elevation ∧
    (SetDate s (GetDate s)).pressure = (SetDate t (GetDate t)).pressure ∧
    (SetDate s (GetDate s)).temperature = (SetDate t (GetDate t)).temperature ∧
    (SetDate s (GetDate s)).slope = (SetDate t (GetDate t)).slope ∧
    (SetDate s (GetDate s)).azmRotation = (SetDate t (GetDate t)).azmRotation ∧
    (SetDate s (GetDate s)).atmosRefract = (SetDate t (GetDate t)).atmosRefract ∧
    (SetDate s (GetDate s)).function = (SetDate t (GetDate t)).function := by
  have hG : GetDate s = GetDate t := by
    simp only [GetDate, hyear, hmonth, hday, hhour, hminute, hsecond, htimezone]
  rw [hG]
  exact ⟨rfl, rfl, rfl, rfl, rfl, rfl, hdeltaUt1, hdeltaT, rfl, hlongitude, hlatitude, helevation, hpressure, htemperature, hslope, hazmRotation, hatmosRefract, hfunction⟩

/-- The validation reads the input fields only. -/
theorem validate_congr (s t : spa)
    (hyear : s.year = t.year) (hmonth : s.month = t.month) (hday : s.day = t.day)
    (hhour : s.hour = t.hour) (hminute : s.minute = t.minute) (hsecond : s.second = t.second)
    (hdeltaUt1 : s.deltaUt1 = t.deltaUt1) (hdeltaT : s.deltaT = t.deltaT)
    (htimezone : s.timezone = t.timezone) (hlongitude : s.longitude = t.longitude)
    (hlatitude : s.latitude = t.latitude) (helevation : s.elevation = t.elevation)
    (hpressure : s.pressure = t.pressure) (htemperature : s.temperature = t.temperature)
    (hslope : s.slope = t.slope) (hazmRotation : s.azmRotation = t.azmRotation)
    (hatmosRefract : s.atmosRefract = t.atmosRefract) (hfunction : s.function = t.function) :
    validate s = validate t := by
  unfold validate
  rw [hyear, hmonth, hday, hhour, hminute, hsecond, hdeltaUt1, hdeltaT, htimezone, hlongitude, hlatitude, helevation, hpressure, htemperature, hslope, hazmRotation, hatmosRefract, hfunction]

/-- The outputs of the pipeline are functions of the input fields: on two states with
the same inputs the 37 unconditional outputs agree, and each selected output agrees, while an
output that is not selected keeps the value of its own state. -/
theorem pipeline_outputs_congr (M : GoMath) (x y : spa)
    (hyear : x.year = y.year) (hmonth : x.month = y.month) (hday : x.day = y.day)
    (hhour : x.hour = y.hour) (hminute : x.minute = y.minute) (hsecond : x.second = y.second)
    (hdeltaUt1 : x.deltaUt1 = y.deltaUt1) (hdeltaT : x.deltaT = y.deltaT)
    (htimezone : x.timezone = y.timezone) (hlongitude : x.longitude = y.longitude)
    (hlatitude : x.latitude = y.latitude) (helevation : x.elevation = y.elevation)
    (hpressure : x.pressure = y.pressure) (htemperature : x.temperature = y.temperature)
    (hslope : x.slope = y.slope) (hazmRotation : x.azmRotation = y.azmRotation)
    (hatmosRefract : x.atmosRefract = y.atmosRefract) (hfunction : x.function = y.function) :
    (calculateSelected M (calculateTopocentric M x)).jd = (calculateSelected M (calculateTopocentric M y)).jd ∧
    (calculateSelected M (calculateTopocentric M x)).jc = (calculateSelected M (calculateTopocentric M y)).jc ∧
    (calculateSelected M (calculateTopocentric M x)).jde = (calculateSelected M (calculateTopocentric M y)).jde ∧
    (calculateSelected M (calculateTopocentric M x)).jce = (calculateSelected M (calculateTopocentric M y)).jce ∧
    (calculateSelected M (calculateTopocentric M x)).jme = (calculateSelected M (calculateTopocentric M y)).jme ∧
    (calculateSelected M (calculateTopocentric M x)).l = (calculateSelected M (calculateTopocentric M y)).l ∧
    (calculateSelected M (calculateTopocentric M x)).b = (calculateSelected M (calculateTopocentric M y)).b ∧
    (calculateSelected M (calculateTopocentric M x)).r = (calculateSelected M (calculateTopocentric M y)).r ∧
    (calculateSelected M (calculateTopocentric M x)).theta = (calculateSelected M (calculateTopocentric M y)).theta ∧
    (calculateSelected M (calculateTopocentric M x)).beta = (calculateSelected M (calculateTopocentric M y)).beta ∧
    (calculateSelected M (calculateTopocentric M x)).x0 = (calculateSelected M (calculateTopocentric M y)).x0 ∧
    (calculateSelected M (calculateTopocentric M x)).x1 = (calculateSelected M (calculateTopocentric M y)).x1 ∧
    (calculateSelected M (calculateTopocentric M x)).x2 = (calculateSelected M (calculateTopocentric M y)).x2 ∧
    (calculateSelected M (calculateTopocentric M x)).x3 = (calculateSelected M (calculateTopocentric M y)).x3 ∧
    (calculateSelected M (calculateTopocentric M x)).x4 = (calculateSelected M (calculateTopocentric M y)).x4 ∧
    (calculateSelected M (calculateTopocentric M x)).delPsi = (calculateSelected M (calculateTopocentric M y)).delPsi ∧
    (calculateSelected M (calculateTopocentric M x)).delEpsilon = (calculateSelected M (calculateTopocentric M y)).delEpsilon ∧
    (calculateSelected M (calculateTopocentric M x)).epsilon0 = (calculateSelected M (calculateTopocentric M y)).epsilon0 ∧
    (calculateSelected M (calculateTopocentric M x)).epsilon = (calculateSelected M (calculateTopocentric M y)).epsilon ∧
    (calculateSelected M (calculateTopocentric M x)).delTau = (calculateSelected M (calculateTopocentric M y)).delTau ∧
    (calculateSelected M (calculateTopocentric M x)).lamda = (calculateSelected M (calculateTopocentric M y)).lamda ∧
    (calculateSelected M (calculateTopocentric M x)).nu0 = (calculateSelected M (calculateTopocentric M y)).nu0 ∧
    (calculateSelected M (calculateTopocentric M x)).nu = (calculateSelected M (calculateTopocentric M y)).nu ∧
    (calculateSelected M (calculateTopocentric M x)).alpha = (calculateSelected M (calculateTopocentric M y)).alpha ∧
    (calculateSelected M (calculateTopocentric M x)).delta = (calculateSelected M (calculateTopocentric M y)).delta ∧
    (calculateSelected M (calculateTopocentric M x)).h = (calculateSelected M (calculateTopocentric M y)).h ∧
    (calculateSelected M (calculateTopocentric M x)).xi = (calculateSelected M (calculateTopocentric M y)).xi ∧
    (calculateSelected M (calculateTopocentric M x)).delAlpha = (calculateSelected M (calculateTopocentric M y)).delAlpha ∧
    (calculateSelected M (calculateTopocentric M x)).deltaPrime = (calculateSelected M (calculateTopocentric M y)).deltaPrime ∧
    (calculateSelected M (calculateTopocentric M x)).alphaPrime = (calculateSelected M (calculateTopocentric M y)).alphaPrime ∧
    (calculateSelected M (calculateTopocentric M x)).hPrime = (calculateSelected M (calculateTopocentric M y)).hPrime ∧
    (calculateSelected M (calculateTopocentric M x)).e0 = (calculateSelected M (calculateTopocentric M y)).e0 ∧
    (calculateSelected M (calculateTopocentric M x)).delE = (calculateSelected M (calculateTopocentric M y)).delE ∧
    (calculateSelected M (calculateTopocentric M x)).e = (calculateSelected M (calculateTopocentric M y)).e ∧
    (calculateSelected M (calculateTopocentric M x)).zenith = (calculateSelected M (calculateTopocentric M y)).zenith ∧
    (calculateSelected M (calculateTopocentric M x)).azimuthAstro = (calculateSelected M (calculateTopocentric M y)).azimuthAstro ∧
    (calculateSelected M (calculateTopocentric M x)).azimuth = (calculateSelected M (calculateTopocentric M y)).azimuth ∧
    (calculateSelected M (calculateTopocentric M x)).incidence =
      (if x.function = SpaZaInc ∨ x.function = SpaAll then
        (calculateSelected M (calculateTopocentric M y)).incidence
      else x.incidence) ∧
    (calculateSelected M (calculateTopocentric M x)).eot =
      (if x.function = SpaZaRts ∨ x.function = SpaAll then
        (calculateSelected M (calculateTopocentric M y)).eot
      else x.eot) ∧
    (calculateSelected M (calculateTopocentric M x)).srha =
      (if x.function = SpaZaRts ∨ x.function = SpaAll then
        (calculateSelected M (calculateTopocentric M y)).srha
      else x.srha) ∧
    (calculateSelected M (calculateTopocentric M x)).ssha =
      (if x.function = SpaZaRts ∨ x.function = SpaAll then
        (calculateSelected M (calculateTopocentric M y)).ssha
      else x.ssha) ∧
    (calculateSelected M (calculateTopocentric M x)).sta =
      (if x.function = SpaZaRts ∨ x.function = SpaAll then
        (calculateSelected M (calculateTopocentric M y)).sta
      else x.sta) ∧
    (calculateSelected M (calculateTopocentric M x)).suntransit =
      (if x.function = SpaZaRts ∨ x.function = SpaAll then
        (calculateSelected M (calculateTopocentric M y)).suntransit
      else x.suntransit) ∧
    (calculateSelected M (calculateTopocentric M x)).sunrise =
      (if x.function = SpaZaRts ∨ x.function = SpaAll then
        (calculateSelected M (calculateTopocentric M y)).sunrise
      else x.sunrise) ∧
    (calculateSelected M (calculateTopocentric M x)).sunset =
      (if x.function = SpaZaRts ∨ x.function = SpaAll then
        (calculateSelected M (calculateTopocentric M y)).sunset
      else x.sunset) := by
  obtain ⟨
    c_jd, c_jc, c_jde, c_jce, c_jme, c_l, c_b, c_r, c_theta, c_beta, c_x0, c_x1, c_x2, c_x3,
    c_x4, c_delPsi, c_delEpsilon, c_epsilon0, c_epsilon, c_delTau, c_lamda, c_nu0, c_nu,
    c_alpha, c_delta, c_h, c_xi, c_delAlpha, c_deltaPrime, c_alphaPrime, c_hPrime, c_e0,
    c_delE, c_e, c_zenith, c_azimuthAstro, c_azimuth⟩ :=
    calculateTopocentric_congr M x y hyear hmonth hday hhour hminute hsecond hdeltaUt1 hdeltaT htimezone hlongitude hlatitude helevation hpressure htemperature hatmosRefract
  obtain ⟨
    px_jd, px_jc, px_jde, px_jce, px_jme, px_l, px_b, px_r, px_theta, px_beta, px_x0, px_x1,
    px_x2, px_x3, px_x4, px_delPsi, px_delEpsilon, px_epsilon0, px_epsilon, px_delTau,
    px_lamda, px_nu0, px_nu, px_alpha, px_delta, px_h, px_xi, px_delAlpha, px_deltaPrime,
    px_alphaPrime, px_hPrime, px_e0, px_delE, px_e, px_zenith, px_azimuthAstro, px_azimuth⟩ :=
    pipeline_topo M x
  obtain ⟨
    py_jd, py_jc, py_jde, py_jce, py_jme, py_l, py_b, py_r, py_theta, py_beta, py_x0, py_x1,
    py_x2, py_x3, py_x4, py_delPsi, py_delEpsilon, py_epsilon0, py_epsilon, py_delTau,
    py_lamda, py_nu0, py_nu, py_alpha, py_delta, py_h, py_xi, py_delAlpha, py_deltaPrime,
    py_alphaPrime, py_hPrime, py_e0, py_delE, py_e, py_zenith, py_azimuthAstro, py_azimuth⟩ :=
    pipeline_topo M y
  obtain ⟨
    kx_year, kx_month, kx_day, kx_hour, kx_minute, kx_second, kx_deltaUt1, kx_deltaT,
    kx_timezone, kx_longitude, kx_latitude, kx_elevation, kx_pressure, kx_temperature,
    kx_slope, kx_azmRotation, kx_atmosRefract, kx_function, kx_eot, kx_srha, kx_ssha, kx_sta,
    kx_mRts, kx_incidence, kx_suntransit, kx_sunrise, kx_sunset⟩ :=
    calculateTopocentric_keeps M x
  obtain ⟨
    ky_year, ky_month, ky_day, ky_hour, ky_minute, ky_second, ky_deltaUt1, ky_deltaT,
    ky_timezone, ky_longitude, ky_latitude, ky_elevation, ky_pressure, ky_temperature,
    ky_slope, ky_azmRotation, ky_atmosRefract, ky_function, ky_eot, ky_srha, ky_ssha, ky_sta,
    ky_mRts, ky_incidence, ky_suntransit, ky_sunrise, ky_sunset⟩ :=
    calculateTopocentric_keeps M y
  obtain ⟨
    rx_eot, rx_srha, rx_ssha, rx_sta, rx_suntransit, rx_sunrise, rx_sunset⟩ :=
    pipeline_rts M x
  obtain ⟨
    ry_eot, ry_srha, ry_ssha, ry_sta, ry_suntransit, ry_sunrise, ry_sunset⟩ :=
    pipeline_rts M y
  have hinc := pipeline_incidence M x
  have hincy := pipeline_incidence M y
  have hE := calculateEot_congr M (calculateTopocentric M x) (calculateTopocentric M y)
    (kx_year.trans (hyear.trans ky_year.symm)) (kx_month.trans (hmonth.trans ky_month.symm))
    (kx_day.trans (hday.trans ky_day.symm)) (kx_deltaT.trans (hdeltaT.trans ky_deltaT.symm))
    (kx_longitude.trans (hlongitude.trans ky_longitude.symm))
    (kx_latitude.trans (hlatitude.trans ky_latitude.symm))
    (kx_timezone.trans (htimezone.trans ky_timezone.symm))
    (kx_atmosRefract.trans (hatmosRefract.trans ky_atmosRefract.symm)) c_jme c_alpha c_delPsi
    c_epsilon
  obtain ⟨
    e_eot, e_srha, e_ssha, e_sta, e_suntransit, e_sunrise, e_sunset⟩ := hE
  rw [← hfunction] at hincy ry_eot ry_srha ry_ssha ry_sta ry_suntransit ry_sunrise ry_sunset
  rw [← hslope, ← hazmRotation, ← c_zenith, ← c_azimuthAstro] at hincy
  refine ⟨(px_jd.trans c_jd).trans py_jd.symm,
    (px_jc.trans c_jc).trans py_jc.symm,
    (px_jde.trans c_jde).trans py_jde.symm,
    (px_jce.trans c_jce).trans py_jce.symm,
    (px_jme.trans c_jme).trans py_jme.symm,
    (px_l.trans c_l).trans py_l.symm,
    (px_b.trans c_b).trans py_b.symm,
    (px_r.trans c_r).trans py_r.symm,
    (px_theta.trans c_theta).trans py_theta.symm,
    (px_beta.trans c_beta).trans py_beta.symm,
    (px_x0.trans c_x0).trans py_x0.symm,
    (px_x1.trans c_x1).trans py_x1.symm,
    (px_x2.trans c_x2).trans py_x2.symm,
    (px_x3.trans c_x3).trans py_x3.symm,
    (px_x4.trans c_x4).trans py_x4.symm,
    (px_delPsi.trans c_delPsi).trans py_delPsi.symm,
    (px_delEpsilon.trans c_delEpsilon).trans py_delEpsilon.symm,
    (px_epsilon0.trans c_epsilon0).trans py_epsilon0.symm,
    (px_epsilon.trans c_epsilon).trans py_epsilon.symm,
    (px_delTau.trans c_delTau).trans py_delTau.symm,
    (px_lamda.trans c_lamda).trans py_lamda.symm,
    (px_nu0.trans c_nu0).trans py_nu0.symm,
    (px_nu.trans c_nu).trans py_nu.symm,
    (px_alpha.trans c_alpha).trans py_alpha.symm,
    (px_delta.trans c_delta).trans py_delta.symm,
    (px_h.trans c_h).trans py_h.symm,
    (px_xi.trans c_xi).trans py_xi.symm,
    (px_delAlpha.trans c_delAlpha).trans py_delAlpha.symm,
    (px_deltaPrime.trans c_deltaPrime).trans py_deltaPrime.symm,
    (px_alphaPrime.trans c_alphaPrime).trans py_alphaPrime.symm,
    (px_hPrime.trans c_hPrime).trans py_hPrime.symm,
    (px_e0.trans c_e0).trans py_e0.symm,
    (px_delE.trans c_delE).trans py_delE.symm,
    (px_e.trans c_e).trans py_e.symm,
    (px_zenith.trans c_zenith).trans py_zenith.symm,
    (px_azimuthAstro.trans c_azimuthAstro).trans py_azimuthAstro.symm,
    (px_azimuth.trans c_azimuth).trans py_azimuth.symm,
    ?_, ?_, ?_, ?_, ?_, ?_, ?_, ?_⟩
  · rw [hinc, hincy]
    split_ifs <;> rfl
  · rw [rx_eot, ry_eot, e_eot]
    split_ifs <;> rfl
  · rw [rx_srha, ry_srha, e_srha]
    split_ifs <;> rfl
  · rw [rx_ssha, ry_ssha, e_ssha]
    split_ifs <;> rfl
  · rw [rx_sta, ry_sta, e_sta]
    split_ifs <;> rfl
  · rw [rx_suntransit, ry_suntransit, e_suntransit]
    split_ifs <;> rfl
  · rw [rx_sunrise, ry_sunrise, e_sunrise]
    split_ifs <;> rfl
  · rw [rx_sunset, ry_sunset, e_sunset]
    split_ifs <;> rfl

/-! ### Claims on the selected outputs -/

/-- C14: a polar argument (absolute value above 1) makes `sunHourAngleAtRiseSet` return
-99999 and makes `calculateEotAndSunRiseTransitSet` set srha, ssha, sta, suntransit, sunrise
and sunset to -99999, where h0' = -(0.26667 + atmosRefract) and delta0 is the declination
sample of the day (the geocentric declination at 0 UT of the date); a request that passes
validation with rise/transit/set selected then gets nil from `Calculate` together with the
six sentinels. -/
theorem polar_sentinels (M : GoMath) (s : spa) (latitude deltaZero h0Prime : ℚ) :
    (|riseSetArgument M latitude deltaZero h0Prime| > 1 →
      sunHourAngleAtRiseSet M latitude deltaZero h0Prime = -99999) ∧
    rtsDeltaZero M s = (geoState M (julianDay s.year s.month s.day 0 0 0 0 0) 0).delta ∧
    (|riseSetArgument M s.latitude (rtsDeltaZero M s) (-(0.26667 + s.atmosRefract))| > 1 →
      (calculateEotAndSunRiseTransitSet M s).srha = -99999 ∧
      (calculateEotAndSunRiseTransitSet M s).ssha = -99999 ∧
      (calculateEotAndSunRiseTransitSet M s).sta = -99999 ∧
      (calculateEotAndSunRiseTransitSet M s).suntransit = -99999 ∧
      (calculateEotAndSunRiseTransitSet M s).sunrise = -99999 ∧
      (calculateEotAndSunRiseTransitSet M s).sunset = -99999) ∧
    (validate (SetDate s (GetDate s)) = none →
      (s.function = SpaZaRts ∨ s.function = SpaAll) →
      |riseSetArgument M s.latitude (rtsDeltaZero M (SetDate s (GetDate s)))
          (-(0.26667 + s.atmosRefract))| > 1 →
      (Calculate M s).1 = none ∧
      (Calculate M s).2.srha = -99999 ∧
      (Calculate M s).2.ssha = -99999 ∧
      (Calculate M s).2.sta = -99999 ∧
      (Calculate M s).2.suntransit = -99999 ∧
      (Calculate M s).2.sunrise = -99999 ∧
      (Calculate M s).2.sunset = -99999) := by
  have hneg : ∀ t : spa,
      |riseSetArgument M t.latitude (rtsDeltaZero M t) (-(0.26667 + t.atmosRefract))| > 1 →
      ¬ rtsH0 M t ≥ 0 := by
    intro t ht
    have e : (-(0.26667 + t.atmosRefract) : ℚ) = -1 * (SunRadius + t.atmosRefract) := by
      unfold SunRadius
      ring
    rw [e] at ht
    unfold rtsH0
    rw [sunHourAngleAtRiseSet_polar M _ _ _ ht]
    norm_num
  refine ⟨sunHourAngleAtRiseSet_polar M latitude deltaZero h0Prime, rtsDeltaZero_eq M s,
    fun h => calculateEot_sentinels M s (hneg s h), ?_⟩
  intro hv hsel hpolar
  have hT := calculateTopocentric_keeps M (SetDate s (GetDate s))
  have hH : rtsH0 M (calculateTopocentric M (SetDate s (GetDate s))) =
      rtsH0 M (SetDate s (GetDate s)) :=
    rtsH0_congr M _ _ hT.1 hT.2.1 hT.2.2.1 hT.2.2.2.2.2.2.2.2.2.2.1
      hT.2.2.2.2.2.2.2.2.2.2.2.2.2.2.2.2.1
  have hn : ¬ rtsH0 M (calculateTopocentric M (SetDate s (GetDate s))) ≥ 0 := by
    rw [hH]
    exact hneg (SetDate s (GetDate s)) hpolar
  have hsent := calculateEot_sentinels M _ hn
  have hr := pipeline_rts M (SetDate s (GetDate s))
  have hsel' : (SetDate s (GetDate s)).function = SpaZaRts ∨
      (SetDate s (GetDate s)).function = SpaAll := hsel
  simp only [hsel', if_true] at hr
  refine ⟨by rw [Calculate_fst, hv], ?_⟩
  rw [Calculate_snd_of_ok M s hv]
  rw [hr.2.1, hr.2.2.1, hr.2.2.2.1, hr.2.2.2.2.1, hr.2.2.2.2.2.1, hr.2.2.2.2.2.2]
  exact hsent

/-- Witness for C14: at latitude 89 with declination 23 the stand-in math library gives a
polar argument, and `sunHourAngleAtRiseSet` returns -99999. -/
theorem polar_sentinels_witness :
    |riseSetArgument polyMath 89 23 (-0.83337)| > 1 ∧
    sunHourAngleAtRiseSet polyMath 89 23 (-0.83337) = -99999 :=
  have h : |riseSetArgument polyMath 89 23 (-0.83337)| > 1 := by
    norm_num [riseSetArgument, polyMath, deg2rad, round12, lt_abs]
  ⟨h, (polar_sentinels polyMath refSpa 89 23 (-0.83337)).1 h⟩

/-- C15: after a successful `Calculate` the zenith and the two azimuth angles are computed
for every selector; the incidence angle is computed when function is SpaZaInc or SpaAll and
otherwise keeps the value it had before the call; eot, srha, ssha, sta, suntransit, sunrise
and sunset are those computed by `calculateEotAndSunRiseTransitSet` when function is
SpaZaRts or SpaAll and otherwise keep their values; with SpaZa all eight keep their
values. -/
theorem Calculate_selected_outputs (M : GoMath) (s : spa) (hok : (Calculate M s).1 = none) :
    ((Calculate M s).2.zenith = topocentricZenithAngle (Calculate M s).2.e ∧
      (Calculate M s).2.azimuthAstro =
        topocentricAzimuthAngleAstro M (Calculate M s).2.hPrime (Calculate M s).2.latitude
          (Calculate M s).2.deltaPrime ∧
      (Calculate M s).2.azimuth = topocentricAzimuthAngle (Calculate M s).2.azimuthAstro) ∧
    ((Calculate M s).2.incidence =
      if s.function = SpaZaInc ∨ s.function = SpaAll then
        surfaceIncidenceAngle M (Calculate M s).2.zenith (Calculate M s).2.azimuthAstro
          (Calculate M s).2.azmRotation (Calculate M s).2.slope
      else s.incidence) ∧
    ((Calculate M s).2.eot =
        (if s.function = SpaZaRts ∨ s.function = SpaAll then
          (calculateEotAndSunRiseTransitSet M (Calculate M s).2).eot
        else s.eot) ∧
      (Calculate M s).2.srha =
        (if s.function = SpaZaRts ∨ s.function = SpaAll then
          (calculateEotAndSunRiseTransitSet M (Calculate M s).2).srha
        else s.srha) ∧
      (Calculate M s).2.ssha =
        (if s.function = SpaZaRts ∨ s.function = SpaAll then
          (calculateEotAndSunRiseTransitSet M (Calculate M s).2).ssha
        else s.ssha) ∧
      (Calculate M s).2.sta =
        (if s.function = SpaZaRts ∨ s.function = SpaAll then
          (calculateEotAndSunRiseTransitSet M (Calculate M s).2).sta
        else s.sta) ∧
      (Calculate M s).2.suntransit =
        (if s.function = SpaZaRts ∨ s.function = SpaAll then
          (calculateEotAndSunRiseTransitSet M (Calculate M s).2).suntransit
        else s.suntransit) ∧
      (Calculate M s).2.sunrise =
        (if s.function = SpaZaRts ∨ s.function = SpaAll then
          (calculateEotAndSunRiseTransitSet M (Calculate M s).2).sunrise
        else s.sunrise) ∧
      (Calculate M s).2.sunset =
        (if s.function = SpaZaRts ∨ s.function = SpaAll then
          (calculateEotAndSunRiseTransitSet M (Calculate M s).2).sunset
        else s.sunset)) ∧
    (s.function = SpaZa →
      (Calculate M s).2.incidence = s.incidence ∧
      (Calculate M s).2.eot = s.eot ∧
      (Calculate M s).2.srha = s.srha ∧
      (Calculate M s).2.ssha = s.ssha ∧
      (Calculate M s).2.sta = s.sta ∧
      (Calculate M s).2.suntransit = s.suntransit ∧
      (Calculate M s).2.sunrise = s.sunrise ∧
      (Calculate M s).2.sunset = s.sunset) := by
  rw [Calculate_fst] at hok
  rw [Calculate_snd_of_ok M s hok]
  generalize hs' : SetDate s (GetDate s) = s'
  have hfun : s'.function = s.function := by rw [← hs']; rfl
  have hold : s'.incidence = s.incidence ∧ s'.eot = s.eot ∧ s'.srha = s.srha ∧
      s'.ssha = s.ssha ∧ s'.sta = s.sta ∧ s'.suntransit = s.suntransit ∧
      s'.sunrise = s.sunrise ∧ s'.sunset = s.sunset := by
    rw [← hs']
    exact ⟨rfl, rfl, rfl, rfl, rfl, rfl, rfl, rfl⟩
  obtain ⟨o1, o2, o3, o4, o5, o6, o7, o8⟩ := hold
  have hk := pipeline_keeps M s'
  have ht := pipeline_topo M s'
  have hT := calculateTopocentric_keeps M s'
  have hf := calculateTopocentric_final M s'
  have hi := pipeline_incidence M s'
  have hr := pipeline_rts M s'
  have hcongr := calculateEot_congr M (calculateTopocentric M s')
    (calculateSelected M (calculateTopocentric M s'))
    (by rw [hk.1, hT.1]) (by rw [hk.2.1, hT.2.1]) (by rw [hk.2.2.1, hT.2.2.1])
    (by rw [hk.2.2.2.2.2.2.2.1, hT.2.2.2.2.2.2.2.1])
    (by rw [hk.2.2.2.2.2.2.2.2.2.1, hT.2.2.2.2.2.2.2.2.2.1])
    (by rw [hk.2.2.2.2.2.2.2.2.2.2.1, hT.2.2.2.2.2.2.2.2.2.2.1])
    (by rw [hk.2.2.2.2.2.2.2.2.1, hT.2.2.2.2.2.2.2.2.1])
    (by rw [hk.2.2.2.2.2.2.2.2.2.2.2.2.2.2.2.2.1, hT.2.2.2.2.2.2.2.2.2.2.2.2.2.2.2.2.1])
    (by rw [ht.2.2.2.2.1])
    (by rw [ht.2.2.2.2.2.2.2.2.2.2.2.2.2.2.2.2.2.2.2.2.2.2.2.1])
    (by rw [ht.2.2.2.2.2.2.2.2.2.2.2.2.2.2.2.1])
    (by rw [ht.2.2.2.2.2.2.2.2.2.2.2.2.2.2.2.2.2.2.1])
  refine ⟨?_, ?_, ?_, ?_⟩
  · simp only [ht, hk]
    rw [← hT.2.2.2.2.2.2.2.2.2.2.1]
    exact hf
  · rw [hi, hfun, o1]
    simp only [ht, hk]
  · simp only [← hcongr]
    rw [← hfun, ← o2, ← o3, ← o4, ← o5, ← o6, ← o7, ← o8]
    exact hr
  · intro hza
    have h1 : ¬ (s'.function = SpaZaInc ∨ s'.function = SpaAll) := by
      rw [hfun, hza]
      decide
    have h2 : ¬ (s'.function = SpaZaRts ∨ s'.function = SpaAll) := by
      rw [hfun, hza]
      decide
    rw [hi]
    simp only [hr, h1, h2, if_false]
    exact ⟨o1, o2, o3, o4, o5, o6, o7, o8⟩

/-- Witness for C15: on the reference request (function SpaAll) the azimuth is
`topocentricAzimuthAngle` of the astronomical azimuth. -/
theorem Calculate_selected_outputs_witness :
    (Calculate polyMath refSpa).2.azimuth =
      topocentricAzimuthAngle (Calculate polyMath refSpa).2.azimuthAstro :=
  (Calculate_selected_outputs polyMath refSpa
    (by rw [Calculate_fst, renew_refSpa]; exact validate_refSpa)).1.2.2

/-- C19: for azimuthAstro in [0, 360) the navigational azimuth is azimuthAstro + 180 below
180 and azimuthAstro - 180 from 180 on, and after every successful `Calculate` the two
azimuth outputs differ by exactly 180 degrees. -/
theorem topocentricAzimuthAngle_half_turn (M : GoMath) (s : spa) (a : ℚ) :
    (0 ≤ a → a < 360 →
      topocentricAzimuthAngle a = if a < 180 then a + 180 else a - 180) ∧
    ((Calculate M s).1 = none →
      (Calculate M s).2.azimuth = topocentricAzimuthAngle (Calculate M s).2.azimuthAstro ∧
      |(Calculate M s).2.azimuth - (Calculate M s).2.azimuthAstro| = 180) := by
  refine ⟨topocentricAzimuthAngle_eq a, ?_⟩
  intro hok
  rw [Calculate_fst] at hok
  rw [Calculate_snd_of_ok M s hok]
  have ht := pipeline_topo M (SetDate s (GetDate s))
  have hf := calculateTopocentric_final M (SetDate s (GetDate s))
  obtain ⟨x, hx⟩ := calculateTopocentric_azimuthAstro M (SetDate s (GetDate s))
  have hrange := limitDegrees_range x
  rw [ht.2.2.2.2.2.2.2.2.2.2.2.2.2.2.2.2.2.2.2.2.2.2.2.2.2.2.2.2.2.2.2.2.2.2.2.2,
    ht.2.2.2.2.2.2.2.2.2.2.2.2.2.2.2.2.2.2.2.2.2.2.2.2.2.2.2.2.2.2.2.2.2.2.2.1]
  refine ⟨hf.2.2, ?_⟩
  rw [hf.2.2, hx, topocentricAzimuthAngle_eq _ hrange.1 hrange.2]
  split_ifs
  · rw [add_sub_cancel_left]
    norm_num
  · rw [sub_sub_cancel_left]
    norm_num

/-- Witness for C19: astronomical azimuth 14.340241 gives azimuth 194.340241, and the
two azimuths of the reference request differ by 180. -/
theorem topocentricAzimuthAngle_half_turn_witness :
    topocentricAzimuthAngle 14.340241 = 194.340241 ∧
    (Calculate polyMath refSpa).1 = none ∧
    |(Calculate polyMath refSpa).2.azimuth - (Calculate polyMath refSpa).2.azimuthAstro| =
      180 :=
  have hok : (Calculate polyMath refSpa).1 = none := by
    rw [Calculate_fst, renew_refSpa]
    exact validate_refSpa
  ⟨((topocentricAzimuthAngle_half_turn polyMath refSpa 14.340241).1
      (by norm_num) (by norm_num)).trans (by norm_num),
    hok, ((topocentricAzimuthAngle_half_turn polyMath refSpa 14.340241).2 hok).2⟩

/-- In exact arithmetic `dayfracToLocalHr` lies in [0, 24) and differs from 24*d + tz by
an integer multiple of 24 (with float64 rounding it can return exactly 24; see
`dayfracToLocalHr64`); hence whenever the sun rises and sets (h0 >= 0), suntransit, sunrise and
sunset lie in [0, 24), both after `calculateEotAndSunRiseTransitSet` and after a successful
`Calculate` with rise/transit/set selected. -/
theorem dayfracToLocalHr_hours (M : GoMath) (s : spa) (d tz : ℚ) :
    (0 ≤ dayfracToLocalHr d tz ∧ dayfracToLocalHr d tz < 24 ∧
      ∃ k : ℤ, dayfracToLocalHr d tz = 24 * d + tz - 24 * (k : ℚ)) ∧
    (rtsH0 M s ≥ 0 →
      (0 ≤ (calculateEotAndSunRiseTransitSet M s).suntransit ∧
        (calculateEotAndSunRiseTransitSet M s).suntransit < 24) ∧
      (0 ≤ (calculateEotAndSunRiseTransitSet M s).sunrise ∧
        (calculateEotAndSunRiseTransitSet M s).sunrise < 24) ∧
      (0 ≤ (calculateEotAndSunRiseTransitSet M s).sunset ∧
        (calculateEotAndSunRiseTransitSet M s).sunset < 24)) ∧
    ((Calculate M s).1 = none → (s.function = SpaZaRts ∨ s.function = SpaAll) →
      rtsH0 M (SetDate s (GetDate s)) ≥ 0 →
      (0 ≤ (Calculate M s).2.suntransit ∧ (Calculate M s).2.suntransit < 24) ∧
      (0 ≤ (Calculate M s).2.sunrise ∧ (Calculate M s).2.sunrise < 24) ∧
      (0 ≤ (Calculate M s).2.sunset ∧ (Calculate M s).2.sunset < 24)) := by
  refine ⟨dayfracToLocalHr_range d tz, calculateEot_hours M s, ?_⟩
  intro hok hsel hh0
  rw [Calculate_fst] at hok
  rw [Calculate_snd_of_ok M s hok]
  have hT := calculateTopocentric_keeps M (SetDate s (GetDate s))
  have hH : rtsH0 M (calculateTopocentric M (SetDate s (GetDate s))) =
      rtsH0 M (SetDate s (GetDate s)) :=
    rtsH0_congr M _ _ hT.1 hT.2.1 hT.2.2.1 hT.2.2.2.2.2.2.2.2.2.2.1
      hT.2.2.2.2.2.2.2.2.2.2.2.2.2.2.2.2.1
  have hr := pipeline_rts M (SetDate s (GetDate s))
  have hsel' : (SetDate s (GetDate s)).function = SpaZaRts ∨
      (SetDate s (GetDate s)).function = SpaAll := hsel
  simp only [hsel', if_true] at hr
  rw [hr.2.2.2.2.1, hr.2.2.2.2.2.1, hr.2.2.2.2.2.2]
  exact calculateEot_hours M _ (by rw [hH]; exact hh0)

/-- An instance of `dayfracToLocalHr_hours`: a day fraction 0.75 in timezone -7 is 11 o'clock local time, and the
reference request moved to the equator with refraction -0.26667 (so that the rise/set
argument is 0 and the sun rises and sets) gets a sunrise in [0, 24). -/
theorem dayfracToLocalHr_hours_witness :
    dayfracToLocalHr 0.75 (-7) = 11 ∧
    (Calculate polyMath { refSpa with latitude := 0, atmosRefract := -0.26667 }).1 = none ∧
    (0 ≤ (Calculate polyMath
        { refSpa with latitude := 0, atmosRefract := -0.26667 }).2.sunrise ∧
      (Calculate polyMath
        { refSpa with latitude := 0, atmosRefract := -0.26667 }).2.sunrise < 24) :=
  have hren : SetDate { refSpa with latitude := 0, atmosRefract := -0.26667 }
      (GetDate { refSpa with latitude := 0, atmosRefract := -0.26667 }) =
      { refSpa with latitude := 0, atmosRefract := -0.26667 } :=
    renew_fixed _ refSpa rfl rfl rfl rfl rfl rfl rfl renew_refSpa
  have hok : (Calculate polyMath
      { refSpa with latitude := 0, atmosRefract := -0.26667 }).1 = none := by
    rw [Calculate_fst, hren, validate_none_unfold]
    norm_num [refSpa, init, zeroSpa, SpaAll, SpaZaInc, lt_abs]
  have hh0 : rtsH0 polyMath (SetDate { refSpa with latitude := 0, atmosRefract := -0.26667 }
      (GetDate { refSpa with latitude := 0, atmosRefract := -0.26667 })) ≥ 0 := by
    rw [hren]
    unfold rtsH0
    generalize rtsDeltaZero polyMath _ = d
    norm_num [sunHourAngleAtRiseSet, refSpa, init, zeroSpa, SunRadius, polyMath, deg2rad,
      rad2deg, round12, limitDegrees180, goFloor]
  ⟨by norm_num [dayfracToLocalHr, limitZero2one, goFloor], hok,
    ((dayfracToLocalHr_hours polyMath
      { refSpa with latitude := 0, atmosRefract := -0.26667 } 0.75 (-7)).2.2
      hok (Or.inr rfl) hh0).2.1⟩

/-- The conversion `rad2deg` maps [-pi/2, pi/2] into [-90, 90]. -/
theorem rad2deg_quarter (M : GoMath) (hpi : 0 < M.pi) (y : ℚ)
    (h1 : -(M.pi / 2) ≤ y) (h2 : y ≤ M.pi / 2) :
    -90 ≤ rad2deg M y ∧ rad2deg M y ≤ 90 := by
  unfold rad2deg
  have hk : 0 < 180 / M.pi := div_pos (by norm_num) hpi
  have e : 180 / M.pi * (M.pi / 2) = 90 := by
    field_simp
    ring
  constructor
  · have := mul_le_mul_of_nonneg_left h1 hk.le
    rw [mul_neg, e] at this
    exact this
  · have := mul_le_mul_of_nonneg_left h2 hk.le
    rw [e] at this
    exact this

/-- The conversion `rad2deg` maps [0, pi] into [0, 180]. -/
theorem rad2deg_half (M : GoMath) (hpi : 0 < M.pi) (y : ℚ) (h1 : 0 ≤ y) (h2 : y ≤ M.pi) :
    0 ≤ rad2deg M y ∧ rad2deg M y ≤ 180 := by
  unfold rad2deg
  have hk : 0 < 180 / M.pi := div_pos (by norm_num) hpi
  have e : 180 / M.pi * M.pi = 180 := by
    field_simp
  constructor
  · exact mul_nonneg hk.le h1
  · have := mul_le_mul_of_nonneg_left h2 hk.le
    rw [e] at this
    exact this

/-- C18: for a math library with positive pi whose `Asin` maps [-1, 1] into [-pi/2, pi/2]
and whose `Acos` maps [-1, 1] into [0, pi], whenever the inverse-trigonometric argument is in
[-1, 1], `geocentricDeclination` and `topocentricElevationAngle` are in [-90, 90] and
`surfaceIncidenceAngle` is in [0, 180] (in exact arithmetic). -/
theorem inverse_trig_outputs_range (M : GoMath) (hpi : 0 < M.pi)
    (hasin : ∀ x : ℚ, -1 ≤ x → x ≤ 1 → -(M.pi / 2) ≤ M.asin x ∧ M.asin x ≤ M.pi / 2)
    (hacos : ∀ x : ℚ, -1 ≤ x → x ≤ 1 → 0 ≤ M.acos x ∧ M.acos x ≤ M.pi) :
    (∀ beta epsilon lambda : ℚ,
      -1 ≤ M.sin (deg2rad M beta) * M.cos (deg2rad M epsilon) +
          M.cos (deg2rad M beta) * M.sin (deg2rad M epsilon) * M.sin (deg2rad M lambda) →
      M.sin (deg2rad M beta) * M.cos (deg2rad M epsilon) +
          M.cos (deg2rad M beta) * M.sin (deg2rad M epsilon) * M.sin (deg2rad M lambda) ≤ 1 →
      -90 ≤ geocentricDeclination M beta epsilon lambda ∧
        geocentricDeclination M beta epsilon lambda ≤ 90) ∧
    (∀ latitude deltaPrime hPrime : ℚ,
      -1 ≤ M.sin (deg2rad M latitude) * M.sin (deg2rad M deltaPrime) +
          M.cos (deg2rad M latitude) * M.cos (deg2rad M deltaPrime) *
            M.cos (deg2rad M hPrime) →
      M.sin (deg2rad M latitude) * M.sin (deg2rad M deltaPrime) +
          M.cos (deg2rad M latitude) * M.cos (deg2rad M deltaPrime) *
            M.cos (deg2rad M hPrime) ≤ 1 →
      -90 ≤ topocentricElevationAngle M latitude deltaPrime hPrime ∧
        topocentricElevationAngle M latitude deltaPrime hPrime ≤ 90) ∧
    (∀ zenith azimuthAstro azmRotation slope : ℚ,
      -1 ≤ M.cos (deg2rad M zenith) * M.cos (deg2rad M slope) +
          M.sin (deg2rad M slope) * M.sin (deg2rad M zenith) *
            M.cos (deg2rad M (azimuthAstro - azmRotation)) →
      M.cos (deg2rad M zenith) * M.cos (deg2rad M slope) +
          M.sin (deg2rad M slope) * M.sin (deg2rad M zenith) *
            M.cos (deg2rad M (azimuthAstro - azmRotation)) ≤ 1 →
      0 ≤ surfaceIncidenceAngle M zenith azimuthAstro azmRotation slope ∧
        surfaceIncidenceAngle M zenith azimuthAstro azmRotation slope ≤ 180) := by
  refine ⟨?_, ?_, ?_⟩
  · intro beta epsilon lambda h1 h2
    exact rad2deg_quarter M hpi _ (hasin _ h1 h2).1 (hasin _ h1 h2).2
  · intro latitude deltaPrime hPrime h1 h2
    exact rad2deg_quarter M hpi _ (hasin _ h1 h2).1 (hasin _ h1 h2).2
  · intro zenith azimuthAstro azmRotation slope h1 h2
    exact rad2deg_half M hpi _ (hacos _ h1 h2).1 (hacos _ h1 h2).2

/-- Rounding to twelve places moves a value down by less than 1e-12. -/
theorem round12_bounds (x : ℚ) : x - 1 / 1000000000000 < round12 x ∧ round12 x ≤ x := by
  unfold round12
  have h1 := Int.floor_le (x * 1000000000000)
  have h2 := Int.lt_floor_add_one (x * 1000000000000)
  constructor
  · rw [lt_div_iff₀ (by norm_num)]
    linarith
  · rw [div_le_iff₀ (by norm_num)]
    exact h1

/-- The cubic `x + x^3/6` stays within 7/6 of zero on [-1, 1]. -/
theorem asin_poly_bounds (x : ℚ) (h1 : -1 ≤ x) (h2 : x ≤ 1) :
    -(7 / 6) ≤ x + x ^ 3 / 6 ∧ x + x ^ 3 / 6 ≤ 7 / 6 := by
  constructor
  · nlinarith [sq_nonneg x, sq_nonneg (x + 1), mul_nonneg (sq_nonneg x) (by linarith : 0 ≤ x + 1)]
  · nlinarith [sq_nonneg x, sq_nonneg (x - 1), mul_nonneg (sq_nonneg x) (by linarith : 0 ≤ 1 - x)]

/-- Witness for C18: the stand-in library has the principal ranges, and at ecliptic
latitude 0, obliquity 23 and longitude 90 the declination is within [-90, 90]. -/
theorem inverse_trig_outputs_range_witness :
    -90 ≤ geocentricDeclination polyMath 0 23 90 ∧
      geocentricDeclination polyMath 0 23 90 ≤ 90 :=
  (inverse_trig_outputs_range polyMath (by norm_num [polyMath])
    (by
      intro x h1 h2
      have hb := asin_poly_bounds x h1 h2
      have hr := round12_bounds (x + x ^ 3 / 6)
      simp only [polyMath]
      constructor <;> norm_num <;> linarith [hb.1, hb.2, hr.1, hr.2])
    (by
      intro x h1 h2
      have hb := asin_poly_bounds x h1 h2
      have hr := round12_bounds (355 / 226 - (x + x ^ 3 / 6))
      have h0 : (0 : ℚ) ≤ round12 (355 / 226 - (x + x ^ 3 / 6)) := by
        unfold round12
        apply div_nonneg _ (by norm_num)
        exact_mod_cast Int.floor_nonneg.mpr (mul_nonneg (by linarith [hb.2]) (by norm_num))
      simp only [polyMath]
      constructor
      · exact h0
      · linarith [hb.1, hr.2])).1 0 23 90
    (by norm_num [polyMath, deg2rad, round12])
    (by norm_num [polyMath, deg2rad, round12])

/-- Running the pipeline on its own result changes nothing. -/
theorem pipeline_idem (M : GoMath) (r : spa) :
    calculateSelected M (calculateTopocentric M (calculateSelected M (calculateTopocentric M r))) =
      calculateSelected M (calculateTopocentric M r) := by
  obtain ⟨
    k_year, k_month, k_day, k_hour, k_minute, k_second, k_deltaUt1, k_deltaT, k_timezone,
    k_longitude, k_latitude, k_elevation, k_pressure, k_temperature, k_slope, k_azmRotation,
    k_atmosRefract, k_function, k_mRts⟩ :=
    pipeline_keeps M r
  obtain ⟨
    kk_year, kk_month, kk_day, kk_hour, kk_minute, kk_second, kk_deltaUt1, kk_deltaT,
    kk_timezone, kk_longitude, kk_latitude, kk_elevation, kk_pressure, kk_temperature,
    kk_slope, kk_azmRotation, kk_atmosRefract, kk_function, kk_mRts⟩ :=
    pipeline_keeps M (calculateSelected M (calculateTopocentric M r))
  obtain ⟨
    i_jd, i_jc, i_jde, i_jce, i_jme, i_l, i_b, i_r, i_theta, i_beta, i_x0, i_x1, i_x2, i_x3,
    i_x4, i_delPsi, i_delEpsilon, i_epsilon0, i_epsilon, i_delTau, i_lamda, i_nu0, i_nu,
    i_alpha, i_delta, i_h, i_xi, i_delAlpha, i_deltaPrime, i_alphaPrime, i_hPrime, i_e0,
    i_delE, i_e, i_zenith, i_azimuthAstro, i_azimuth, i_incidence, i_eot, i_srha, i_ssha,
    i_sta, i_suntransit, i_sunrise, i_sunset⟩ :=
    pipeline_outputs_congr M (calculateSelected M (calculateTopocentric M r)) r
      k_year k_month k_day k_hour k_minute k_second k_deltaUt1 k_deltaT k_timezone k_longitude
      k_latitude k_elevation k_pressure k_temperature k_slope k_azmRotation k_atmosRefract
      k_function
  exact spa_eq_of_fields _ _ ⟨
    kk_year, kk_month, kk_day, kk_hour, kk_minute, kk_second, kk_deltaUt1, kk_deltaT,
    kk_timezone, kk_longitude, kk_latitude, kk_elevation, kk_pressure, kk_temperature,
    kk_slope, kk_azmRotation, kk_atmosRefract, kk_function, i_jd, i_jc, i_jde, i_jce, i_jme,
    i_l, i_b, i_r, i_theta, i_beta, i_x0, i_x1, i_x2, i_x3, i_x4, i_delPsi, i_delEpsilon,
    i_epsilon0, i_epsilon, i_delTau, i_lamda, i_nu0, i_nu, i_alpha, i_delta, i_h, i_xi,
    i_delAlpha, i_deltaPrime, i_alphaPrime, i_hPrime, i_e0, i_delE, i_e,
    (i_eot.trans (ite_self _)), (i_srha.trans (ite_self _)), (i_ssha.trans (ite_self _)),
    (i_sta.trans (ite_self _)), kk_mRts, i_zenith, i_azimuthAstro, i_azimuth,
    (i_incidence.trans (ite_self _)), (i_suntransit.trans (ite_self _)),
    (i_sunrise.trans (ite_self _)), (i_sunset.trans (ite_self _))⟩

/-- The input fields after `Calculate` are those of the renewed date, whether or not
validation succeeds. -/
theorem Calculate_inputs_all (M : GoMath) (s : spa) :
    (Calculate M s).2.year = (SetDate s (GetDate s)).year ∧
    (Calculate M s).2.month = (SetDate s (GetDate s)).month ∧
    (Calculate M s).2.day = (SetDate s (GetDate s)).day ∧
    (Calculate M s).2.hour = (SetDate s (GetDate s)).hour ∧
    (Calculate M s).2.minute = (SetDate s (GetDate s)).minute ∧
    (Calculate M s).2.second = (SetDate s (GetDate s)).second ∧
    (Calculate M s).2.deltaUt1 = (SetDate s (GetDate s)).deltaUt1 ∧
    (Calculate M s).2.deltaT = (SetDate s (GetDate s)).deltaT ∧
    (Calculate M s).2.timezone = (SetDate s (GetDate s)).timezone ∧
    (Calculate M s).2.longitude = (SetDate s (GetDate s)).longitude ∧
    (Calculate M s).2.latitude = (SetDate s (GetDate s)).latitude ∧
    (Calculate M s).2.elevation = (SetDate s (GetDate s)).elevation ∧
    (Calculate M s).2.pressure = (SetDate s (GetDate s)).pressure ∧
    (Calculate M s).2.temperature = (SetDate s (GetDate s)).temperature ∧
    (Calculate M s).2.slope = (SetDate s (GetDate s)).slope ∧
    (Calculate M s).2.azmRotation = (SetDate s (GetDate s)).azmRotation ∧
    (Calculate M s).2.atmosRefract = (SetDate s (GetDate s)).atmosRefract ∧
    (Calculate M s).2.function = (SetDate s (GetDate s)).function := by
  cases hv : validate (SetDate s (GetDate s)) with
  | some err =>
    have h1 : Calculate M s = (some err, SetDate s (GetDate s)) := by
      unfold Calculate
      rw [hv]
    rw [h1]
    exact ⟨rfl, rfl, rfl, rfl, rfl, rfl, rfl, rfl, rfl, rfl, rfl, rfl, rfl, rfl, rfl, rfl, rfl, rfl⟩
  | none =>
    rw [Calculate_snd_of_ok M s hv]
    obtain ⟨
      k_year, k_month, k_day, k_hour, k_minute, k_second, k_deltaUt1, k_deltaT, k_timezone,
      k_longitude, k_latitude, k_elevation, k_pressure, k_temperature, k_slope, k_azmRotation,
      k_atmosRefract, k_function, k_mRts⟩ :=
      pipeline_keeps M (SetDate s (GetDate s))
    exact ⟨k_year, k_month, k_day, k_hour, k_minute, k_second, k_deltaUt1, k_deltaT, k_timezone,
      k_longitude, k_latitude, k_elevation, k_pressure, k_temperature, k_slope, k_azmRotation,
      k_atmosRefract, k_function⟩

/-- C16: `Calculate` is idempotent and deterministic.  Calling it on the state left by a
first call returns the same error and leaves every field as it was; equal states give equal
results; and for two states with the same 18 input fields and function `SpaAll`, whatever
their output fields hold, the returned errors and the input fields afterwards agree and, when
the call succeeds, all 45 output fields agree.  (A call that fails writes no output.) -/
theorem Calculate_idempotent (M : GoMath) (s t : spa) :
    Calculate M (Calculate M s).2 = Calculate M s ∧
    (s = t → Calculate M s = Calculate M t) ∧
    ((s.year = t.year ∧
      s.month = t.month ∧
      s.day = t.day ∧
      s.hour = t.hour ∧
      s.minute = t.minute ∧
      s.second = t.second ∧
      s.deltaUt1 = t.deltaUt1 ∧
      s.deltaT = t.deltaT ∧
      s.timezone = t.timezone ∧
      s.longitude = t.longitude ∧
      s.latitude = t.latitude ∧
      s.elevation = t.elevation ∧
      s.pressure = t.pressure ∧
      s.temperature = t.temperature ∧
      s.slope = t.slope ∧
      s.azmRotation = t.azmRotation ∧
      s.atmosRefract = t.atmosRefract ∧
      s.function = t.function) →
      s.function = SpaAll →
      (Calculate M s).1 = (Calculate M t).1 ∧
      ((Calculate M s).2.year = (Calculate M t).2.year ∧
        (Calculate M s).2.month = (Calculate M t).2.month ∧
        (Calculate M s).2.day = (Calculate M t).2.day ∧
        (Calculate M s).2.hour = (Calculate M t).2.hour ∧
        (Calculate M s).2.minute = (Calculate M t).2.minute ∧
        (Calculate M s).2.second = (Calculate M t).2.second ∧
        (Calculate M s).2.deltaUt1 = (Calculate M t).2.deltaUt1 ∧
        (Calculate M s).2.deltaT = (Calculate M t).2.deltaT ∧
        (Calculate M s).2.timezone = (Calculate M t).2.timezone ∧
        (Calculate M s).2.longitude = (Calculate M t).2.longitude ∧
        (Calculate M s).2.latitude = (Calculate M t).2.latitude ∧
        (Calculate M s).2.elevation = (Calculate M t).2.elevation ∧
        (Calculate M s).2.pressure = (Calculate M t).2.pressure ∧
        (Calculate M s).2.temperature = (Calculate M t).2.temperature ∧
        (Calculate M s).2.slope = (Calculate M t).2.slope ∧
        (Calculate M s).2.azmRotation = (Calculate M t).2.azmRotation ∧
        (Calculate M s).2.atmosRefract = (Calculate M t).2.atmosRefract ∧
        (Calculate M s).2.function = (Calculate M t).2.function) ∧
      ((Calculate M s).1 = none →
        ((Calculate M s).2.jd = (Calculate M t).2.jd ∧
          (Calculate M s).2.jc = (Calculate M t).2.jc ∧
          (Calculate M s).2.jde = (Calculate M t).2.jde ∧
          (Calculate M s).2.jce = (Calculate M t).2.jce ∧
          (Calculate M s).2.jme = (Calculate M t).2.jme ∧
          (Calculate M s).2.l = (Calculate M t).2.l ∧
          (Calculate M s).2.b = (Calculate M t).2.b ∧
          (Calculate M s).2.r = (Calculate M t).2.r ∧
          (Calculate M s).2.theta = (Calculate M t).2.theta ∧
          (Calculate M s).2.beta = (Calculate M t).2.beta ∧
          (Calculate M s).2.x0 = (Calculate M t).2.x0 ∧
          (Calculate M s).2.x1 = (Calculate M t).2.x1 ∧
          (Calculate M s).2.x2 = (Calculate M t).2.x2 ∧
          (Calculate M s).2.x3 = (Calculate M t).2.x3 ∧
          (Calculate M s).2.x4 = (Calculate M t).2.x4 ∧
          (Calculate M s).2.delPsi = (Calculate M t).2.delPsi ∧
          (Calculate M s).2.delEpsilon = (Calculate M t).2.delEpsilon ∧
          (Calculate M s).2.epsilon0 = (Calculate M t).2.epsilon0 ∧
          (Calculate M s).2.epsilon = (Calculate M t).2.epsilon ∧
          (Calculate M s).2.delTau = (Calculate M t).2.delTau ∧
          (Calculate M s).2.lamda = (Calculate M t).2.lamda ∧
          (Calculate M s).2.nu0 = (Calculate M t).2.nu0 ∧
          (Calculate M s).2.nu = (Calculate M t).2.nu ∧
          (Calculate M s).2.alpha = (Calculate M t).2.alpha ∧
          (Calculate M s).2.delta = (Calculate M t).2.delta ∧
          (Calculate M s).2.h = (Calculate M t).2.h ∧
          (Calculate M s).2.xi = (Calculate M t).2.xi ∧
          (Calculate M s).2.delAlpha = (Calculate M t).2.delAlpha ∧
          (Calculate M s).2.deltaPrime = (Calculate M t).2.deltaPrime ∧
          (Calculate M s).2.alphaPrime = (Calculate M t).2.alphaPrime ∧
          (Calculate M s).2.hPrime = (Calculate M t).2.hPrime ∧
          (Calculate M s).2.e0 = (Calculate M t).2.e0 ∧
          (Calculate M s).2.delE = (Calculate M t).2.delE ∧
          (Calculate M s).2.e = (Calculate M t).2.e ∧
          (Calculate M s).2.eot = (Calculate M t).2.eot ∧
          (Calculate M s).2.srha = (Calculate M t).2.srha ∧
          (Calculate M s).2.ssha = (Calculate M t).2.ssha ∧
          (Calculate M s).2.sta = (Calculate M t).2.sta ∧
          (Calculate M s).2.zenith = (Calculate M t).2.zenith ∧
          (Calculate M s).2.azimuthAstro = (Calculate M t).2.azimuthAstro ∧
          (Calculate M s).2.azimuth = (Calculate M t).2.azimuth ∧
          (Calculate M s).2.incidence = (Calculate M t).2.incidence ∧
          (Calculate M s).2.suntransit = (Calculate M t).2.suntransit ∧
          (Calculate M s).2.sunrise = (Calculate M t).2.sunrise ∧
          (Calculate M s).2.sunset = (Calculate M t).2.sunset))) := by
  refine ⟨?_, fun h => congrArg (Calculate M) h, ?_⟩
  · cases hv : validate (SetDate s (GetDate s)) with
    | some err =>
      have h1 : Calculate M s = (some err, SetDate s (GetDate s)) := by
        unfold Calculate
        rw [hv]
      rw [h1]
      unfold Calculate
      rw [renew_idem, hv]
    | none =>
      have h1 : Calculate M s =
          (none, calculateSelected M (calculateTopocentric M (SetDate s (GetDate s)))) := by
        unfold Calculate
        rw [hv]
      obtain ⟨
        k_year, k_month, k_day, k_hour, k_minute, k_second, k_deltaUt1, k_deltaT, k_timezone,
        k_longitude, k_latitude, k_elevation, k_pressure, k_temperature, k_slope, k_azmRotation,
        k_atmosRefract, k_function, k_mRts⟩ :=
        pipeline_keeps M (SetDate s (GetDate s))
      have h2 := renew_fixed
        (calculateSelected M (calculateTopocentric M (SetDate s (GetDate s))))
        (SetDate s (GetDate s)) k_year k_month k_day k_hour k_minute k_second k_timezone
        (renew_idem s)
      have h3 : validate (calculateSelected M (calculateTopocentric M (SetDate s (GetDate s)))) =
          none := by
        rw [validate_congr _ (SetDate s (GetDate s))
          k_year k_month k_day k_hour k_minute k_second k_deltaUt1 k_deltaT k_timezone
          k_longitude k_latitude k_elevation k_pressure k_temperature k_slope k_azmRotation
          k_atmosRefract k_function]
        exact hv
      rw [h1]
      show Calculate M (calculateSelected M (calculateTopocentric M (SetDate s (GetDate s)))) = _
      unfold Calculate
      rw [h2, h3, pipeline_idem]
  · rintro ⟨
    hyear, hmonth, hday, hhour, hminute, hsecond, hdeltaUt1, hdeltaT, htimezone, hlongitude,
    hlatitude, helevation, hpressure, htemperature, hslope, hazmRotation, hatmosRefract,
    hfunction⟩ hall
    obtain ⟨
      r_year, r_month, r_day, r_hour, r_minute, r_second, r_deltaUt1, r_deltaT, r_timezone,
      r_longitude, r_latitude, r_elevation, r_pressure, r_temperature, r_slope, r_azmRotation,
      r_atmosRefract, r_function⟩ :=
      renew_congr s t
        hyear hmonth hday hhour hminute hsecond hdeltaUt1 hdeltaT htimezone hlongitude
        hlatitude helevation hpressure htemperature hslope hazmRotation hatmosRefract hfunction
    have hval : validate (SetDate s (GetDate s)) = validate (SetDate t (GetDate t)) :=
      validate_congr _ _
        r_year r_month r_day r_hour r_minute r_second r_deltaUt1 r_deltaT r_timezone
        r_longitude r_latitude r_elevation r_pressure r_temperature r_slope r_azmRotation
        r_atmosRefract r_function
    have herr : (Calculate M s).1 = (Calculate M t).1 := by
      rw [Calculate_fst, Calculate_fst, hval]
    refine ⟨herr, ?_, ?_⟩
    · obtain ⟨
        a_year, a_month, a_day, a_hour, a_minute, a_second, a_deltaUt1, a_deltaT, a_timezone,
        a_longitude, a_latitude, a_elevation, a_pressure, a_temperature, a_slope, a_azmRotation,
        a_atmosRefract, a_function⟩ :=
        Calculate_inputs_all M s
      obtain ⟨
        b_year, b_month, b_day, b_hour, b_minute, b_second, b_deltaUt1, b_deltaT, b_timezone,
        b_longitude, b_latitude, b_elevation, b_pressure, b_temperature, b_slope, b_azmRotation,
        b_atmosRefract, b_function⟩ :=
        Calculate_inputs_all M t
      exact ⟨(a_year.trans r_year).trans b_year.symm, (a_month.trans r_month).trans b_month.symm,
        (a_day.trans r_day).trans b_day.symm, (a_hour.trans r_hour).trans b_hour.symm,
        (a_minute.trans r_minute).trans b_minute.symm,
        (a_second.trans r_second).trans b_second.symm,
        (a_deltaUt1.trans r_deltaUt1).trans b_deltaUt1.symm,
        (a_deltaT.trans r_deltaT).trans b_deltaT.symm,
        (a_timezone.trans r_timezone).trans b_timezone.symm,
        (a_longitude.trans r_longitude).trans b_longitude.symm,
        (a_latitude.trans r_latitude).trans b_latitude.symm,
        (a_elevation.trans r_elevation).trans b_elevation.symm,
        (a_pressure.trans r_pressure).trans b_pressure.symm,
        (a_temperature.trans r_temperature).trans b_temperature.symm,
        (a_slope.trans r_slope).trans b_slope.symm,
        (a_azmRotation.trans r_azmRotation).trans b_azmRotation.symm,
        (a_atmosRefract.trans r_atmosRefract).trans b_atmosRefract.symm,
        (a_function.trans r_function).trans b_function.symm⟩
    · intro hok
      have hoks : validate (SetDate s (GetDate s)) = none := by
        rw [← Calculate_fst M s]
        exact hok
      have hokt : validate (SetDate t (GetDate t)) = none := by
        rw [← hval]
        exact hoks
      rw [Calculate_snd_of_ok M s hoks, Calculate_snd_of_ok M t hokt]
      have hfun : (SetDate s (GetDate s)).function = SpaAll := hall
      obtain ⟨
        i_jd, i_jc, i_jde, i_jce, i_jme, i_l, i_b, i_r, i_theta, i_beta, i_x0, i_x1, i_x2, i_x3,
        i_x4, i_delPsi, i_delEpsilon, i_epsilon0, i_epsilon, i_delTau, i_lamda, i_nu0, i_nu,
        i_alpha, i_delta, i_h, i_xi, i_delAlpha, i_deltaPrime, i_alphaPrime, i_hPrime, i_e0,
        i_delE, i_e, i_zenith, i_azimuthAstro, i_azimuth, i_incidence, i_eot, i_srha, i_ssha,
        i_sta, i_suntransit, i_sunrise, i_sunset⟩ :=
        pipeline_outputs_congr M (SetDate s (GetDate s)) (SetDate t (GetDate t))
          r_year r_month r_day r_hour r_minute r_second r_deltaUt1 r_deltaT r_timezone
          r_longitude r_latitude r_elevation r_pressure r_temperature r_slope r_azmRotation
          r_atmosRefract r_function
      simp only [hfun, or_true, if_true] at i_incidence i_eot i_srha i_ssha i_sta i_suntransit i_sunrise i_sunset
      exact ⟨i_jd, i_jc, i_jde, i_jce, i_jme, i_l, i_b, i_r, i_theta, i_beta, i_x0, i_x1, i_x2,
        i_x3, i_x4, i_delPsi, i_delEpsilon, i_epsilon0, i_epsilon, i_delTau, i_lamda, i_nu0,
        i_nu, i_alpha, i_delta, i_h, i_xi, i_delAlpha, i_deltaPrime, i_alphaPrime, i_hPrime,
        i_e0, i_delE, i_e, i_eot, i_srha, i_ssha, i_sta, i_zenith, i_azimuthAstro, i_azimuth,
        i_incidence, i_suntransit, i_sunrise, i_sunset⟩

/-- Witness for C16: the reference request and the same request with stale zenith and
sunrise fields give the same zenith and sunrise. -/
theorem Calculate_idempotent_witness :
    (Calculate polyMath refSpa).1 = none ∧
    (Calculate polyMath refSpa).2.zenith =
      (Calculate polyMath { refSpa with zenith := 1, sunrise := 5 }).2.zenith ∧
    (Calculate polyMath refSpa).2.sunrise =
      (Calculate polyMath { refSpa with zenith := 1, sunrise := 5 }).2.sunrise :=
  have hok : (Calculate polyMath refSpa).1 = none := by
    rw [Calculate_fst, renew_refSpa]
    exact validate_refSpa
  have h := ((Calculate_idempotent polyMath refSpa
    { refSpa with zenith := 1, sunrise := 5 }).2.2
    ⟨rfl, rfl, rfl, rfl, rfl, rfl, rfl, rfl, rfl, rfl, rfl, rfl, rfl, rfl, rfl, rfl, rfl, rfl⟩
    rfl).2.2 hok
  ⟨hok, h.2.2.2.2.2.2.2.2.2.2.2.2.2.2.2.2.2.2.2.2.2.2.2.2.2.2.2.2.2.2.2.2.2.2.2.2.2.2.1, h.2.2.2.2.2.2.2.2.2.2.2.2.2.2.2.2.2.2.2.2.2.2.2.2.2.2.2.2.2.2.2.2.2.2.2.2.2.2.2.2.2.2.2.1⟩

/-! ### Angle reductions -/

theorem limitDegrees_floor (x : ℚ) : limitDegrees x = x - 360 * (⌊x / 360⌋ : ℤ) := by
  have h0 := Int.floor_le (x / 360)
  have hn : ¬ (360 * (x / 360 - goFloor (x / 360)) < 0) := by
    unfold goFloor
    linarith
  unfold limitDegrees
  simp only [hn, if_false]
  unfold goFloor
  ring

/-- Two values of [0, 360) that differ by a multiple of 360 are equal. -/
theorem eq_of_range_of_multiple (y z : ℚ) (c : ℚ) (hc : 0 < c) (hy : 0 ≤ y ∧ y < c)
    (hz : 0 ≤ z ∧ z < c) (k : ℤ) (h : y - z = c * k) : y = z := by
  have hk : k = 0 := by
    by_contra hne
    rcases lt_or_gt_of_ne hne with hlt | hgt
    · have h1 : (k : ℚ) ≤ -1 := by exact_mod_cast Int.le_sub_one_of_lt hlt
      nlinarith [hy.1, hz.2]
    · have h1 : (1 : ℚ) ≤ k := by exact_mod_cast hgt
      nlinarith [hy.2, hz.1]
  rw [hk] at h
  simp at h
  linarith

/-- In exact arithmetic `limitDegrees x` lies in [0, 360) and differs from `x` by an
integer multiple of 360, and it is the only such value; hence `limitDegrees` is idempotent
and has period 360 there.  (With float64 rounding the range and the idempotence fail; see
`limitDegrees64`.) -/
theorem limitDegrees_unique (x : ℚ) :
    (0 ≤ limitDegrees x ∧ limitDegrees x < 360) ∧
    (∃ k : ℤ, x - limitDegrees x = 360 * k) ∧
    (∀ y : ℚ, 0 ≤ y → y < 360 → (∃ k : ℤ, x - y = 360 * k) → y = limitDegrees x) ∧
    limitDegrees (limitDegrees x) = limitDegrees x ∧
    (∀ k : ℤ, limitDegrees (x + 360 * k) = limitDegrees x) := by
  have hr := limitDegrees_range
  have hex : ∀ z : ℚ, ∃ k : ℤ, z - limitDegrees z = 360 * k := by
    intro z
    refine ⟨⌊z / 360⌋, ?_⟩
    rw [limitDegrees_floor]
    ring
  have huniq : ∀ z y : ℚ, 0 ≤ y → y < 360 → (∃ k : ℤ, z - y = 360 * k) →
      y = limitDegrees z := by
    intro z y h0 h1 hk
    obtain ⟨k, hk⟩ := hk
    obtain ⟨j, hj⟩ := hex z
    refine eq_of_range_of_multiple y (limitDegrees z) 360 (by norm_num) ⟨h0, h1⟩ (hr z)
      (j - k) ?_
    push_cast
    linarith
  refine ⟨hr x, hex x, huniq x, ?_, ?_⟩
  · exact (huniq (limitDegrees x) (limitDegrees x) (hr x).1 (hr x).2 ⟨0, by simp⟩).symm
  · intro k
    obtain ⟨j, hj⟩ := hex x
    refine (huniq (x + 360 * k) (limitDegrees x) (hr x).1 (hr x).2 ⟨j + k, ?_⟩).symm
    push_cast
    linarith

/-- An instance of `limitDegrees_unique`: 725 reduces to 5, and 5 is the value of [0, 360) that differs from 725
by a multiple of 360. -/
theorem limitDegrees_unique_witness : (5 : ℚ) = limitDegrees 725 :=
  (limitDegrees_unique 725).2.2.1 5 (by norm_num) (by norm_num) ⟨2, by norm_num⟩

theorem limitDegrees180pm_floor (x : ℚ) :
    limitDegrees180pm x =
      if 360 * (x / 360 - (⌊x / 360⌋ : ℤ)) > 180 then 360 * (x / 360 - (⌊x / 360⌋ : ℤ)) - 360
      else 360 * (x / 360 - (⌊x / 360⌋ : ℤ)) := by
  have h0 := Int.floor_le (x / 360)
  have hn : ¬ (360 * (x / 360 - goFloor (x / 360)) < -180) := by
    unfold goFloor
    linarith
  unfold limitDegrees180pm
  simp only [hn, if_false]
  unfold goFloor
  rfl

theorem limitDegrees180pm_range (x : ℚ) :
    (-180 < limitDegrees180pm x ∧ limitDegrees180pm x ≤ 180) ∧
    ∃ k : ℤ, x - limitDegrees180pm x = 360 * k := by
  have h0 := Int.floor_le (x / 360)
  have h1 := Int.lt_floor_add_one (x / 360)
  rw [limitDegrees180pm_floor]
  split_ifs with h
  · refine ⟨⟨by linarith, by linarith⟩, ⌊x / 360⌋ + 1, ?_⟩
    push_cast
    ring
  · refine ⟨⟨by linarith, by linarith⟩, ⌊x / 360⌋, ?_⟩
    ring

/-- Two values of (-180, 180] that differ by a multiple of 360 are equal. -/
theorem eq_of_signed_range_of_multiple (y z : ℚ) (hy : -180 < y ∧ y ≤ 180)
    (hz : -180 < z ∧ z ≤ 180) (k : ℤ) (h : y - z = 360 * k) : y = z := by
  have hk : k = 0 := by
    by_contra hne
    rcases lt_or_gt_of_ne hne with hlt | hgt
    · have h1 : (k : ℚ) ≤ -1 := by exact_mod_cast Int.le_sub_one_of_lt hlt
      nlinarith [hy.1, hz.2]
    · have h1 : (1 : ℚ) ≤ k := by exact_mod_cast hgt
      nlinarith [hy.2, hz.1]
  rw [hk] at h
  simp at h
  linarith

/-- C23: `limitDegrees180pm x` lies in (-180, 180] and differs from `x` by an integer
multiple of 360, and it is the only such value; an input 180 + 360k gives +180. -/
theorem limitDegrees180pm_unique (x : ℚ) :
    (-180 < limitDegrees180pm x ∧ limitDegrees180pm x ≤ 180) ∧
    (∃ k : ℤ, x - limitDegrees180pm x = 360 * k) ∧
    (∀ y : ℚ, -180 < y → y ≤ 180 → (∃ k : ℤ, x - y = 360 * k) →
      y = limitDegrees180pm x) ∧
    limitDegrees180pm 180 = 180 ∧
    (∀ k : ℤ, limitDegrees180pm (180 + 360 * k) = 180) := by
  have huniq : ∀ z y : ℚ, -180 < y → y ≤ 180 → (∃ k : ℤ, z - y = 360 * k) →
      y = limitDegrees180pm z := by
    intro z y h0 h1 hk
    obtain ⟨k, hk⟩ := hk
    obtain ⟨j, hj⟩ := (limitDegrees180pm_range z).2
    refine eq_of_signed_range_of_multiple y (limitDegrees180pm z) ⟨h0, h1⟩
      (limitDegrees180pm_range z).1 (j - k) ?_
    push_cast
    linarith
  refine ⟨(limitDegrees180pm_range x).1, (limitDegrees180pm_range x).2, huniq x, ?_, ?_⟩
  · exact (huniq 180 180 (by norm_num) (by norm_num) ⟨0, by simp⟩).symm
  · intro k
    exact (huniq (180 + 360 * k) 180 (by norm_num) (by norm_num) ⟨k, by ring⟩).symm

/-- Witness for C23: 540 reduces to +180 and 190 to -170. -/
theorem limitDegrees180pm_unique_witness :
    (180 : ℚ) = limitDegrees180pm 540 ∧ (-170 : ℚ) = limitDegrees180pm 190 :=
  ⟨(limitDegrees180pm_unique 540).2.2.1 180 (by norm_num) (by norm_num) ⟨1, by norm_num⟩,
    (limitDegrees180pm_unique 190).2.2.1 (-170) (by norm_num) (by norm_num)
      ⟨1, by norm_num⟩⟩

/-- C24: `limitMinutes` is the identity on [-20, 20], subtracts 1440 once above 20 and adds
1440 once below -20; its result is in [-20, 20] exactly when the input is in [-20, 20],
[1420, 1460] or [-1460, -1420]. -/
theorem limitMinutes_cases (x : ℚ) :
    (-20 ≤ x → x ≤ 20 → limitMinutes x = x) ∧
    (x > 20 → limitMinutes x = x - 1440) ∧
    (x < -20 → limitMinutes x = x + 1440) ∧
    ((-20 ≤ limitMinutes x ∧ limitMinutes x ≤ 20) ↔
      ((-20 ≤ x ∧ x ≤ 20) ∨ (1420 ≤ x ∧ x ≤ 1460) ∨ (-1460 ≤ x ∧ x ≤ -1420))) := by
  refine ⟨?_, ?_, ?_, limitMinutes_range_iff x⟩
  · intro h1 h2
    unfold limitMinutes
    simp only
    rw [if_neg (by linarith), if_neg (by linarith)]
  · intro h
    unfold limitMinutes
    simp only
    rw [if_neg (by linarith), if_pos h]
  · intro h
    unfold limitMinutes
    simp only
    rw [if_pos h]

/-- Witness for C24: 10 is kept, 30 becomes -1410 and 3000 becomes 1560 (one correction
only). -/
theorem limitMinutes_cases_witness :
    limitMinutes 10 = 10 ∧ limitMinutes 30 = -1410 ∧ limitMinutes 3000 = 1560 ∧
    limitMinutes (-30) = 1410 :=
  ⟨(limitMinutes_cases 10).1 (by norm_num) (by norm_num),
    ((limitMinutes_cases 30).2.1 (by norm_num)).trans (by norm_num),
    ((limitMinutes_cases 3000).2.1 (by norm_num)).trans (by norm_num),
    ((limitMinutes_cases (-30)).2.2.1 (by norm_num)).trans (by norm_num)⟩

/-- C30: on [0, 360) `geocentricLongitude l` is `limitDegrees (l + 180)`, and it lies in
[0, 360). -/
theorem geocentricLongitude_eq_limitDegrees (l : ℚ) (h0 : 0 ≤ l) (h1 : l < 360) :
    geocentricLongitude l = limitDegrees (l + 180) ∧
    (0 ≤ geocentricLongitude l ∧ geocentricLongitude l < 360) := by
  refine ⟨?_, geocentricLongitude_range l ⟨h0, h1⟩⟩
  have h := topocentricAzimuthAngle_eq l h0 h1
  unfold topocentricAzimuthAngle at h
  rw [h]
  unfold geocentricLongitude
  simp only
  split_ifs <;> linarith

/-- Witness for C30: the heliocentric longitude 24.0182 of the reference request gives
204.0182, and 200 gives 20. -/
theorem geocentricLongitude_eq_limitDegrees_witness :
    geocentricLongitude 24.0182 = limitDegrees (24.0182 + 180) ∧
    geocentricLongitude 200 = limitDegrees (200 + 180) ∧ geocentricLongitude 200 = 20 :=
  ⟨(geocentricLongitude_eq_limitDegrees 24.0182 (by norm_num) (by norm_num)).1,
    (geocentricLongitude_eq_limitDegrees 200 (by norm_num) (by norm_num)).1,
    by norm_num [geocentricLongitude]⟩

/-! ### Hour angle at rise and set -/

theorem limitDegrees180_floor (x : ℚ) : limitDegrees180 x = x - 180 * (⌊x / 180⌋ : ℤ) := by
  have h0 := Int.floor_le (x / 180)
  have hn : ¬ (180 * (x / 180 - goFloor (x / 180)) < 0) := by
    unfold goFloor
    linarith
  unfold limitDegrees180
  simp only [hn, if_false]
  unfold goFloor
  ring

theorem limitDegrees180_range (x : ℚ) : 0 ≤ limitDegrees180 x ∧ limitDegrees180 x < 180 := by
  have h0 := Int.floor_le (x / 180)
  have h1 := Int.lt_floor_add_one (x / 180)
  rw [limitDegrees180_floor]
  constructor <;> linarith

theorem limitDegrees180_of_range (x : ℚ) (h0 : 0 ≤ x) (h1 : x < 180) :
    limitDegrees180 x = x := by
  have hf : ⌊x / 180⌋ = 0 := by
    rw [Int.floor_eq_iff]
    constructor
    · norm_num
      linarith
    · norm_num
      linarith
  rw [limitDegrees180_floor, hf]
  simp

theorem limitDegrees180_half_turn : limitDegrees180 180 = 0 := by
  norm_num [limitDegrees180, goFloor]

/-- The arccosine of the stand-in library maps [-1, 1] into [0, pi]. -/
theorem polyMath_acos_range (x : ℚ) (h1 : -1 ≤ x) (h2 : x ≤ 1) :
    0 ≤ polyMath.acos x ∧ polyMath.acos x ≤ polyMath.pi := by
  have hb := asin_poly_bounds x h1 h2
  have hr := round12_bounds (355 / 226 - (x + x ^ 3 / 6))
  have h0 : (0 : ℚ) ≤ round12 (355 / 226 - (x + x ^ 3 / 6)) := by
    unfold round12
    apply div_nonneg _ (by norm_num)
    exact_mod_cast Int.floor_nonneg.mpr (mul_nonneg (by linarith [hb.2]) (by norm_num))
  simp only [polyMath]
  constructor
  · exact h0
  · linarith [hb.1, hr.2]

/-- C25, as stated, fails at argument = -1: at latitude 0, declination 0 and h0' = -90 the
argument is sin(-pi/2) = -1, its arccosine is pi, rad2deg of it is 180, and
`sunHourAngleAtRiseSet` returns `limitDegrees180 180`, which is 0 and not 180. -/
theorem sunHourAngleAtRiseSet_counterexample :
    riseSetArgument cornerMath 0 0 (-90) = -1 ∧
    cornerMath.acos (-1) = cornerMath.pi ∧
    rad2deg cornerMath (cornerMath.acos (-1)) = 180 ∧
    sunHourAngleAtRiseSet cornerMath 0 0 (-90) = 0 ∧
    sunHourAngleAtRiseSet cornerMath 0 0 (-90) ≠
      rad2deg cornerMath (cornerMath.acos (riseSetArgument cornerMath 0 0 (-90))) := by
  have harg : riseSetArgument cornerMath 0 0 (-90) = -1 := by
    norm_num [riseSetArgument, cornerMath, polyMath, deg2rad, round12]
  have hacos : cornerMath.acos (-1) = cornerMath.pi := by
    simp [cornerMath, polyMath]
  have hdeg : rad2deg cornerMath (cornerMath.acos (-1)) = 180 := by
    rw [hacos]
    norm_num [rad2deg, cornerMath, polyMath]
  have hres : sunHourAngleAtRiseSet cornerMath 0 0 (-90) = 0 := by
    rw [sunHourAngleAtRiseSet_eq, harg, if_pos (by norm_num), hdeg,
      limitDegrees180_half_turn]
  refine ⟨harg, hacos, hdeg, hres, ?_⟩
  rw [hres, harg, hdeg]
  norm_num

/-- C25, amended: for a math library with positive pi whose `Acos` maps [-1, 1] into
[0, pi], whenever |argument| <= 1 `sunHourAngleAtRiseSet` returns
`limitDegrees180 (rad2deg (acos argument))`, a value in [0, 180); it equals
`rad2deg (acos argument)` when the arccosine is below pi, and it is 0 when the arccosine is
pi (argument -1). -/
theorem sunHourAngleAtRiseSet_acos (M : GoMath) (latitude deltaZero h0Prime : ℚ)
    (hpi : 0 < M.pi)
    (hacos : ∀ x : ℚ, -1 ≤ x → x ≤ 1 → 0 ≤ M.acos x ∧ M.acos x ≤ M.pi)
    (harg : |riseSetArgument M latitude deltaZero h0Prime| ≤ 1) :
    sunHourAngleAtRiseSet M latitude deltaZero h0Prime =
      limitDegrees180 (rad2deg M (M.acos (riseSetArgument M latitude deltaZero h0Prime))) ∧
    (0 ≤ sunHourAngleAtRiseSet M latitude deltaZero h0Prime ∧
      sunHourAngleAtRiseSet M latitude deltaZero h0Prime < 180) ∧
    (M.acos (riseSetArgument M latitude deltaZero h0Prime) < M.pi →
      sunHourAngleAtRiseSet M latitude deltaZero h0Prime =
        rad2deg M (M.acos (riseSetArgument M latitude deltaZero h0Prime))) ∧
    (M.acos (riseSetArgument M latitude deltaZero h0Prime) = M.pi →
      sunHourAngleAtRiseSet M latitude deltaZero h0Prime = 0) := by
  have hb := abs_le.mp harg
  have hr := hacos _ hb.1 hb.2
  have e : sunHourAngleAtRiseSet M latitude deltaZero h0Prime =
      limitDegrees180 (rad2deg M (M.acos (riseSetArgument M latitude deltaZero h0Prime))) := by
    rw [sunHourAngleAtRiseSet_eq, if_pos harg]
  have hk : 0 < 180 / M.pi := div_pos (by norm_num) hpi
  refine ⟨e, ?_, ?_, ?_⟩
  · rw [e]
    exact limitDegrees180_range _
  · intro hlt
    rw [e]
    apply limitDegrees180_of_range
    · exact (rad2deg_half M hpi _ hr.1 hr.2).1
    · unfold rad2deg
      have h := mul_lt_mul_of_pos_left hlt hk
      have e2 : 180 / M.pi * M.pi = 180 := by field_simp
      linarith
  · intro heq
    rw [e, heq]
    have e2 : rad2deg M M.pi = 180 := by
      unfold rad2deg
      field_simp
    rw [e2, limitDegrees180_half_turn]

/-- Witness for C25: at the equator with declination 0 and h0' = -0.83337 the argument is
within [-1, 1] and the hour angle lies in [0, 180). -/
theorem sunHourAngleAtRiseSet_acos_witness :
    |riseSetArgument polyMath 0 0 (-0.83337)| ≤ 1 ∧
    (0 ≤ sunHourAngleAtRiseSet polyMath 0 0 (-0.83337) ∧
      sunHourAngleAtRiseSet polyMath 0 0 (-0.83337) < 180) :=
  have harg : |riseSetArgument polyMath 0 0 (-0.83337)| ≤ 1 := by
    rw [abs_le]
    norm_num [riseSetArgument, polyMath, deg2rad, round12]
  ⟨harg, (sunHourAngleAtRiseSet_acos polyMath 0 0 (-0.83337) (by norm_num [polyMath])
    polyMath_acos_range harg).2.1⟩

/-! ### The interpolation fraction of the rise/transit/set loop -/

/-- The interpolated right ascensions and declinations of the loop over transit, rise and
set are `rtsAlphaDeltaPrime` at the fractions `n` of the three events. -/
theorem rtsLoop_primes (M : GoMath) (s sunRts : spa) (nu : ℚ) (alpha delta : List ℚ) :
    (rtsLoop M s sunRts nu alpha delta).alphaPrime =
      [rtsAlphaDeltaPrime alpha (rtsFraction sunRts SunTransit),
        rtsAlphaDeltaPrime alpha (rtsFraction sunRts SunRise),
        rtsAlphaDeltaPrime alpha (rtsFraction sunRts SunSet)] ∧
    (rtsLoop M s sunRts nu alpha delta).deltaPrime =
      [rtsAlphaDeltaPrime delta (rtsFraction sunRts SunTransit),
        rtsAlphaDeltaPrime delta (rtsFraction sunRts SunRise),
        rtsAlphaDeltaPrime delta (rtsFraction sunRts SunSet)] := by
  have hr : List.range SunCount = [0, 1, 2] := rfl
  have hrep : List.replicate SunCount (0 : ℚ) = [0, 0, 0] := rfl
  unfold rtsLoop
  rw [hr, hrep]
  simp only [List.foldl_cons, List.foldl_nil, List.set, rtsFraction, SunTransit, SunRise,
    SunSet, and_self]

/-- The copy `sunRts` has `deltaT` 0 when the loop over transit, rise and set starts. -/
theorem rtsSunRts_deltaT (M : GoMath) (s : spa) : (rtsSunRts M s).deltaT = 0 := by
  unfold rtsSunRts approxSunRiseAndSet
  exact (sunRtsSamples_fields M (sunRtsMidnight M s)).2.2.2

/-- When the sun rises and sets, the hour angles and the transit altitude written by
`calculateEotAndSunRiseTransitSet` are those of the loop run on `rtsSunRts`. -/
theorem calculateEot_loop (M : GoMath) (s : spa) (h : rtsH0 M s ≥ 0) :
    (calculateEotAndSunRiseTransitSet M s).srha =
      idx (rtsLoop M { s with eot := eotf M (sunMeanLongitude s.jme) s.alpha s.delPsi s.epsilon }
        (rtsSunRts M s) (sunRtsMidnight M s).nu
        (sunRtsSamples M (sunRtsMidnight M s)).2.1
        (sunRtsSamples M (sunRtsMidnight M s)).2.2).hPrime SunRise ∧
    (calculateEotAndSunRiseTransitSet M s).ssha =
      idx (rtsLoop M { s with eot := eotf M (sunMeanLongitude s.jme) s.alpha s.delPsi s.epsilon }
        (rtsSunRts M s) (sunRtsMidnight M s).nu
        (sunRtsSamples M (sunRtsMidnight M s)).2.1
        (sunRtsSamples M (sunRtsMidnight M s)).2.2).hPrime SunSet ∧
    (calculateEotAndSunRiseTransitSet M s).sta =
      idx (rtsLoop M { s with eot := eotf M (sunMeanLongitude s.jme) s.alpha s.delPsi s.epsilon }
        (rtsSunRts M s) (sunRtsMidnight M s).nu
        (sunRtsSamples M (sunRtsMidnight M s)).2.1
        (sunRtsSamples M (sunRtsMidnight M s)).2.2).hRts SunTransit := by
  unfold calculateEotAndSunRiseTransitSet
  lift_lets
  intro h0Prime m sEot nu loop1 alpha delta sunRts h0 sunRts1 locals
  have e : h0 = rtsH0 M s := rfl
  rw [if_pos (by rw [e]; exact h)]
  exact ⟨rfl, rfl, rfl⟩

/-- C26, evaluated on the code: the fraction `n` of the loop is
`sunRts.mRts[i] + sunRts.deltaT/86400` read from the copy `sunRts`, whose `deltaT` was set
to 0 before the loop; so n_i = m_i for every request, both `rtsAlphaDeltaPrime` calls get
m_i, and for the reference request (deltaT 67) n_i is not m_i + 67/86400. -/
theorem rtsFraction_drops_deltaT (M : GoMath) (s sE : spa) (nu : ℚ) (alpha delta : List ℚ) :
    (rtsSunRts M s).deltaT = 0 ∧
    (∀ i : ℕ, rtsFraction (rtsSunRts M s) i = idx (rtsSunRts M s).mRts i) ∧
    (rtsLoop M sE (rtsSunRts M s) nu alpha delta).alphaPrime =
      [rtsAlphaDeltaPrime alpha (idx (rtsSunRts M s).mRts SunTransit),
        rtsAlphaDeltaPrime alpha (idx (rtsSunRts M s).mRts SunRise),
        rtsAlphaDeltaPrime alpha (idx (rtsSunRts M s).mRts SunSet)] ∧
    (rtsLoop M sE (rtsSunRts M s) nu alpha delta).deltaPrime =
      [rtsAlphaDeltaPrime delta (idx (rtsSunRts M s).mRts SunTransit),
        rtsAlphaDeltaPrime delta (idx (rtsSunRts M s).mRts SunRise),
        rtsAlphaDeltaPrime delta (idx (rtsSunRts M s).mRts SunSet)] ∧
    refSpa.deltaT = 67 ∧
    (∀ i : ℕ, rtsFraction (rtsSunRts M refSpa) i ≠
      idx (rtsSunRts M refSpa).mRts i + refSpa.deltaT / 86400) := by
  have hfrac : ∀ (t : spa) (i : ℕ), rtsFraction (rtsSunRts M t) i = idx (rtsSunRts M t).mRts i := by
    intro t i
    unfold rtsFraction
    rw [rtsSunRts_deltaT]
    simp
  have hl := rtsLoop_primes M sE (rtsSunRts M s) nu alpha delta
  simp only [hfrac] at hl
  refine ⟨rtsSunRts_deltaT M s, hfrac s, hl.1, hl.2, rfl, ?_⟩
  intro i
  rw [hfrac]
  have e : refSpa.deltaT = 67 := rfl
  rw [e]
  intro hcontra
  have : (67 : ℚ) / 86400 = 0 := by linarith
  norm_num at this

/-! ### Interpolation across the 0/360 crossing -/

/-- The difference of the reductions of two values whose increment `d` lies in [0, 2) is
`d` or `d - 360`. -/
theorem limitDegrees_increment (x y : ℚ) (h0 : 0 ≤ y - x) (h1 : y - x < 2) :
    limitDegrees y - limitDegrees x = y - x ∨
      limitDegrees y - limitDegrees x = y - x - 360 := by
  have hx := limitDegrees_range x
  have hy := limitDegrees_range y
  have ex := limitDegrees_floor x
  have ey := limitDegrees_floor y
  have hm : ⌊y / 360⌋ - ⌊x / 360⌋ = 0 ∨ ⌊y / 360⌋ - ⌊x / 360⌋ = 1 := by
    have ha : (-1 : ℚ) < ((⌊y / 360⌋ - ⌊x / 360⌋ : ℤ) : ℚ) := by
      push_cast
      linarith
    have hb : ((⌊y / 360⌋ - ⌊x / 360⌋ : ℤ) : ℚ) < 2 := by
      push_cast
      linarith
    have ha' : (-1 : ℤ) < ⌊y / 360⌋ - ⌊x / 360⌋ := by exact_mod_cast ha
    have hb' : ⌊y / 360⌋ - ⌊x / 360⌋ < (2 : ℤ) := by exact_mod_cast hb
    omega
  rcases hm with hm | hm
  · left
    have hq : ((⌊y / 360⌋ - ⌊x / 360⌋ : ℤ) : ℚ) = 0 := by exact_mod_cast hm
    push_cast at hq
    linarith
  · right
    have hq : ((⌊y / 360⌋ - ⌊x / 360⌋ : ℤ) : ℚ) = 1 := by exact_mod_cast hm
    push_cast at hq
    linarith

/-- The difference `a` (or `b`) of `rtsAlphaDeltaPrime` after its re-wrap equals the true
increment `d` when the samples do not wrap, or when they wrap and `d` is below 1. -/
theorem rtsIncrement_rewrap (x y : ℚ) (h0 : 0 ≤ y - x) (h1 : y - x < 2)
    (hw : y - x < 1 ∨ limitDegrees y - limitDegrees x = y - x) :
    (if |limitDegrees y - limitDegrees x| ≥ 2 then
        limitZero2one (limitDegrees y - limitDegrees x)
      else limitDegrees y - limitDegrees x) = y - x := by
  have key : limitDegrees y - limitDegrees x = y - x ∨
      (limitDegrees y - limitDegrees x = y - x - 360 ∧ y - x < 1) := by
    rcases limitDegrees_increment x y h0 h1 with h | h
    · exact Or.inl h
    · rcases hw with hw | hw
      · exact Or.inr ⟨h, hw⟩
      · exact Or.inl hw
  rcases key with h | ⟨h, hlt⟩
  · rw [h, if_neg]
    rw [abs_of_nonneg h0]
    linarith
  · rw [h, if_pos]
    · rw [limitZero2one_eq]
      have hf : ⌊y - x - 360⌋ = -360 := by
        rw [Int.floor_eq_iff]
        constructor
        · push_cast
          linarith
        · push_cast
          linarith
      rw [hf]
      push_cast
      ring
    · rw [abs_of_neg (by linarith)]
      linarith

/-- C27, as stated, fails for the unwrapped samples 359, 360.5, 362 (increments 1.5 and
1.5, reduced samples 359, 0.5, 2) at n = 1/2: the wrapped difference -358.5 is re-wrapped to
0.5 instead of 1.5, the result is 1.125, the interpolation of the unwrapped samples is
361.25, and the difference -360.125 is not a multiple of 360. -/
theorem rtsAlphaDeltaPrime_counterexample :
    (limitDegrees 359 = 359 ∧ limitDegrees 360.5 = 0.5 ∧ limitDegrees 362 = 2) ∧
    ((0 : ℚ) ≤ 360.5 - 359 ∧ (360.5 : ℚ) - 359 < 2) ∧
    ((0 : ℚ) ≤ 362 - 360.5 ∧ (362 : ℚ) - 360.5 < 2) ∧
    rtsAlphaDeltaPrime [limitDegrees 359, limitDegrees 360.5, limitDegrees 362] (1 / 2) =
      1.125 ∧
    quadraticInterpolation 359 360.5 362 (1 / 2) = 361.25 ∧
    ¬ ∃ k : ℤ,
      rtsAlphaDeltaPrime [limitDegrees 359, limitDegrees 360.5, limitDegrees 362] (1 / 2) -
        quadraticInterpolation 359 360.5 362 (1 / 2) = 360 * k := by
  have e1 : limitDegrees 359 = 359 := by norm_num [limitDegrees, goFloor]
  have e2 : limitDegrees 360.5 = 0.5 := by norm_num [limitDegrees, goFloor]
  have e3 : limitDegrees 362 = 2 := by norm_num [limitDegrees, goFloor]
  have e4 : rtsAlphaDeltaPrime [limitDegrees 359, limitDegrees 360.5, limitDegrees 362]
      (1 / 2) = 1.125 := by
    rw [e1, e2, e3]
    have hf : ⌊((1 : ℚ) / 2 - 359)⌋ = -359 := by
      rw [Int.floor_eq_iff]
      norm_num
    have ha : |(717 : ℚ) / 2| = 717 / 2 := abs_of_pos (by norm_num)
    have hb : |(3 : ℚ) / 2| = 3 / 2 := abs_of_pos (by norm_num)
    norm_num [rtsAlphaDeltaPrime, idx, JdZero, JdMinus, JdPlus, limitZero2one_eq, hf, ha, hb]
  have e5 : quadraticInterpolation 359 360.5 362 (1 / 2) = 361.25 := by
    norm_num [quadraticInterpolation]
  refine ⟨⟨e1, e2, e3⟩, by norm_num, by norm_num, e4, e5, ?_⟩
  rintro ⟨k, hk⟩
  rw [e4, e5] at hk
  have h2 : ((2880 * k : ℤ) : ℚ) = ((-2881 : ℤ) : ℚ) := by
    push_cast
    linarith
  have h3 : 2880 * k = -2881 := by exact_mod_cast h2
  omega

/-- C27, amended: if the samples are the [0, 360) reductions of an unwrapped sequence um,
u0, up whose increments both lie in [0, 2), and each increment is below 1 wherever its two
reduced samples wrap (their difference is not the increment itself), then for every n the
result of `rtsAlphaDeltaPrime` differs by an integer multiple of 360 from the quadratic
interpolation of the unwrapped sequence. -/
theorem rtsAlphaDeltaPrime_unwrapped (um u0 up n : ℚ)
    (ha : 0 ≤ u0 - um ∧ u0 - um < 2) (hb : 0 ≤ up - u0 ∧ up - u0 < 2)
    (hwa : u0 - um < 1 ∨ limitDegrees u0 - limitDegrees um = u0 - um)
    (hwb : up - u0 < 1 ∨ limitDegrees up - limitDegrees u0 = up - u0) :
    ∃ k : ℤ,
      rtsAlphaDeltaPrime [limitDegrees um, limitDegrees u0, limitDegrees up] n -
        quadraticInterpolation um u0 up n = 360 * k := by
  have ea := rtsIncrement_rewrap um u0 ha.1 ha.2 hwa
  have eb := rtsIncrement_rewrap u0 up hb.1 hb.2 hwb
  have e : rtsAlphaDeltaPrime [limitDegrees um, limitDegrees u0, limitDegrees up] n =
      limitDegrees u0 + n * ((u0 - um) + (up - u0) + ((up - u0) - (u0 - um)) * n) / 2 := by
    unfold rtsAlphaDeltaPrime
    simp only [idx, JdZero, JdMinus, JdPlus, List.getD_cons_zero, List.getD_cons_succ]
    rw [ea, eb]
  refine ⟨-⌊u0 / 360⌋, ?_⟩
  rw [e, limitDegrees_floor]
  unfold quadraticInterpolation
  push_cast
  ring

/-- Witness for C27: the unwrapped samples 359.5, 360.4, 361.3 (increments 0.9, crossing
360 between the first two) at n = 1/2. -/
theorem rtsAlphaDeltaPrime_unwrapped_witness :
    ∃ k : ℤ,
      rtsAlphaDeltaPrime [limitDegrees 359.5, limitDegrees 360.4, limitDegrees 361.3] (1 / 2) -
        quadraticInterpolation 359.5 360.4 361.3 (1 / 2) = 360 * k :=
  rtsAlphaDeltaPrime_unwrapped 359.5 360.4 361.3 (1 / 2) (by norm_num) (by norm_num)
    (Or.inl (by norm_num)) (Or.inl (by norm_num))

/-! ### The mean obliquity polynomial -/

/-- C28, as stated, fails: no polynomial of degree 9 or less in u = jme/10 agrees with
`eclipticMeanObliquity`, whose term 2.45*u^10 has degree 10. -/
theorem eclipticMeanObliquity_counterexample :
    ¬ ∃ c : ℕ → ℚ, ∀ jme : ℚ,
      eclipticMeanObliquity jme = ∑ k in Finset.range 10, c k * (jme / 10) ^ k := by
  rintro ⟨c, h⟩
  have h0 := h 0
  have h1 := h 10
  have h2 := h 20
  have h3 := h 30
  have h4 := h 40
  have h5 := h 50
  have h6 := h 60
  have h7 := h 70
  have h8 := h 80
  have h9 := h 90
  have h10 := h 100
  simp only [eclipticMeanObliquity, Finset.sum_range_succ, Finset.sum_range_zero] at h0 h1 h2 h3
  simp only [eclipticMeanObliquity, Finset.sum_range_succ, Finset.sum_range_zero] at h4 h5 h6 h7
  simp only [eclipticMeanObliquity, Finset.sum_range_succ, Finset.sum_range_zero] at h8 h9 h10
  norm_num at h0 h1 h2 h3 h4 h5 h6 h7 h8 h9 h10
  linarith

/-- C28, amended: the mean obliquity is a polynomial of degree 10 in u = jme/10, the sum
over k = 0..10 of c_k * u^k with constant term 84381.448 and leading coefficient 2.45. -/
theorem eclipticMeanObliquity_polynomial (jme : ℚ) :
    eclipticMeanObliquity jme =
      ∑ k in Finset.range 11, idx obliquityCoefficients k * (jme / 10) ^ k ∧
    obliquityCoefficients.length = 11 ∧
    idx obliquityCoefficients 0 = 84381.448 ∧
    idx obliquityCoefficients 10 = 2.45 ∧ idx obliquityCoefficients 10 ≠ 0 := by
  refine ⟨?_, rfl, rfl, rfl, ?_⟩
  · simp only [eclipticMeanObliquity, Finset.sum_range_succ, Finset.sum_range_zero,
      obliquityCoefficients, idx, List.getD_cons_zero, List.getD_cons_succ]
    ring
  · simp only [obliquityCoefficients, idx, List.getD_cons_zero, List.getD_cons_succ]
    norm_num

/-! ### The periodic series of the Earth -/

/-- A left fold that adds `g` of each row, over the indices of all rows, is the sum of `g`
over the rows. -/
theorem foldl_rows_sum (g : List ℚ → ℚ) (terms : List (List ℚ)) (acc : ℚ) :
    (List.range terms.length).foldl (fun sum i => sum + g (row terms i)) acc =
      acc + (terms.map g).sum := by
  induction terms generalizing acc with
  | nil => simp
  | cons x xs ih =>
    rw [List.length_cons, List.range_succ_eq_map, List.foldl_cons, List.foldl_map]
    have hrow : ∀ i : ℕ, row (x :: xs) (i + 1) = row xs i := fun i => rfl
    simp only [Nat.succ_eq_add_one, hrow]
    rw [ih]
    have h0 : row (x :: xs) 0 = x := rfl
    rw [h0, List.map_cons, List.sum_cons]
    ring

/-- Summing `count` rows with `earthPeriodicTermSummation`, where `count` is the number of
rows, sums over all rows. -/
theorem earthPeriodicTermSummation_all (M : GoMath) (terms : List (List ℚ)) (count : ℕ)
    (jme : ℚ) (h : count = terms.length) :
    earthPeriodicTermSummation M terms count jme = periodicSum M terms jme := by
  unfold earthPeriodicTermSummation periodicSum
  rw [h]
  have e := foldl_rows_sum
    (fun r => idx r TermA * M.cos (idx r TermB + idx r TermC * jme)) terms 0
  simp only [zero_add] at e
  exact e

/-- C29: the heliocentric longitude is `limitDegrees (rad2deg (series of LTerms))`, the
latitude is `rad2deg (series of BTerms)` and the radius vector is the series of `RTerms`,
where the series is (sum over i of S_i * jme^i) / 1e8 and S_i sums A*cos(B + C*jme) over all
rows of subset i; the subsets have 64, 34, 20, 7, 3, 1 rows, 5, 2 rows and 40, 10, 6, 2, 1
rows; at jme = 0 the series is S_0 / 1e8. -/
theorem earth_periodic_series (M : GoMath) (jme : ℚ) :
    earthHeliocentricLongitude M jme =
      limitDegrees (rad2deg M (periodicSeries M LTerms jme)) ∧
    earthHeliocentricLatitude M jme = rad2deg M (periodicSeries M BTerms jme) ∧
    earthRadiusVector M jme = periodicSeries M RTerms jme ∧
    LTerms.map List.length = [64, 34, 20, 7, 3, 1] ∧
    BTerms.map List.length = [5, 2] ∧
    RTerms.map List.length = [40, 10, 6, 2, 1] ∧
    periodicSeries M LTerms 0 = periodicSum M (row LTerms 0) 0 / 100000000 ∧
    periodicSeries M BTerms 0 = periodicSum M (row BTerms 0) 0 / 100000000 ∧
    periodicSeries M RTerms 0 = periodicSum M (row RTerms 0) 0 / 100000000 := by
  have hL : LTerms.length = 6 := rfl
  have hB : BTerms.length = 2 := rfl
  have hR : RTerms.length = 5 := rfl
  have r6 : List.range LCount = [0, 1, 2, 3, 4, 5] := rfl
  have r2 : List.range BCount = [0, 1] := rfl
  have r5 : List.range RCount = [0, 1, 2, 3, 4] := rfl
  have sL : ∀ i : ℕ, i < 6 →
      earthPeriodicTermSummation M (row LTerms i) (idx lSubcount i) jme =
        periodicSum M (row LTerms i) jme := by
    intro i hi
    apply earthPeriodicTermSummation_all
    interval_cases i <;> rfl
  have sB : ∀ i : ℕ, i < 2 →
      earthPeriodicTermSummation M (row BTerms i) (idx bSubcount i) jme =
        periodicSum M (row BTerms i) jme := by
    intro i hi
    apply earthPeriodicTermSummation_all
    interval_cases i <;> rfl
  have sR : ∀ i : ℕ, i < 5 →
      earthPeriodicTermSummation M (row RTerms i) (idx rSubcount i) jme =
        periodicSum M (row RTerms i) jme := by
    intro i hi
    apply earthPeriodicTermSummation_all
    interval_cases i <;> rfl
  refine ⟨?_, ?_, ?_, rfl, rfl, rfl, ?_, ?_, ?_⟩
  · unfold earthHeliocentricLongitude earthValues periodicSeries
    rw [hL, r6]
    simp only [List.map_cons, List.map_nil, List.foldl_cons, List.foldl_nil, idx,
      List.getD_cons_zero, List.getD_cons_succ, Finset.sum_range_succ, Finset.sum_range_zero]
    simp only [← idx.eq_1, sL 0 (by norm_num), sL 1 (by norm_num), sL 2 (by norm_num),
      sL 3 (by norm_num), sL 4 (by norm_num), sL 5 (by norm_num)]
  · unfold earthHeliocentricLatitude earthValues periodicSeries
    rw [hB, r2]
    simp only [List.map_cons, List.map_nil, List.foldl_cons, List.foldl_nil, idx,
      List.getD_cons_zero, List.getD_cons_succ, Finset.sum_range_succ, Finset.sum_range_zero]
    simp only [← idx.eq_1, sB 0 (by norm_num), sB 1 (by norm_num)]
  · unfold earthRadiusVector earthValues periodicSeries
    rw [hR, r5]
    simp only [List.map_cons, List.map_nil, List.foldl_cons, List.foldl_nil, idx,
      List.getD_cons_zero, List.getD_cons_succ, Finset.sum_range_succ, Finset.sum_range_zero]
    simp only [← idx.eq_1, sR 0 (by norm_num), sR 1 (by norm_num), sR 2 (by norm_num),
      sR 3 (by norm_num), sR 4 (by norm_num)]
  · unfold periodicSeries
    rw [hL]
    simp [Finset.sum_range_succ]
  · unfold periodicSeries
    rw [hB]
    simp [Finset.sum_range_succ]
  · unfold periodicSeries
    rw [hR]
    simp [Finset.sum_range_succ]

/-! ### Frame of the rise/transit/set solver -/

/-- C35: `calculateEotAndSunRiseTransitSet` changes `eot`, `srha`, `ssha`, `sta`,
`suntransit`, `sunrise` and `sunset` on the receiver and nothing else: the 18 input fields,
`mRts` and the 38 other output fields are the same after the call as before. -/
theorem calculateEotAndSunRiseTransitSet_keeps (M : GoMath) (s : spa) :
    (∃ a b c d e f g : ℚ, calculateEotAndSunRiseTransitSet M s =
      { s with eot := a, srha := b, ssha := c, sta := d, suntransit := e,
               sunrise := f, sunset := g }) ∧
    (calculateEotAndSunRiseTransitSet M s).year = s.year ∧
    (calculateEotAndSunRiseTransitSet M s).month = s.month ∧
    (calculateEotAndSunRiseTransitSet M s).day = s.day ∧
    (calculateEotAndSunRiseTransitSet M s).hour = s.hour ∧
    (calculateEotAndSunRiseTransitSet M s).minute = s.minute ∧
    (calculateEotAndSunRiseTransitSet M s).second = s.second ∧
    (calculateEotAndSunRiseTransitSet M s).deltaUt1 = s.deltaUt1 ∧
    (calculateEotAndSunRiseTransitSet M s).deltaT = s.deltaT ∧
    (calculateEotAndSunRiseTransitSet M s).timezone = s.timezone ∧
    (calculateEotAndSunRiseTransitSet M s).longitude = s.longitude ∧
    (calculateEotAndSunRiseTransitSet M s).latitude = s.latitude ∧
    (calculateEotAndSunRiseTransitSet M s).elevation = s.elevation ∧
    (calculateEotAndSunRiseTransitSet M s).pressure = s.pressure ∧
    (calculateEotAndSunRiseTransitSet M s).temperature = s.temperature ∧
    (calculateEotAndSunRiseTransitSet M s).slope = s.slope ∧
    (calculateEotAndSunRiseTransitSet M s).azmRotation = s.azmRotation ∧
    (calculateEotAndSunRiseTransitSet M s).atmosRefract = s.atmosRefract ∧
    (calculateEotAndSunRiseTransitSet M s).function = s.function ∧
    (calculateEotAndSunRiseTransitSet M s).jd = s.jd ∧
    (calculateEotAndSunRiseTransitSet M s).jc = s.jc ∧
    (calculateEotAndSunRiseTransitSet M s).jde = s.jde ∧
    (calculateEotAndSunRiseTransitSet M s).jce = s.jce ∧
    (calculateEotAndSunRiseTransitSet M s).jme = s.jme ∧
    (calculateEotAndSunRiseTransitSet M s).l = s.l ∧
    (calculateEotAndSunRiseTransitSet M s).b = s.b ∧
    (calculateEotAndSunRiseTransitSet M s).r = s.r ∧
    (calculateEotAndSunRiseTransitSet M s).theta = s.theta ∧
    (calculateEotAndSunRiseTransitSet M s).beta = s.beta ∧
    (calculateEotAndSunRiseTransitSet M s).x0 = s.x0 ∧
    (calculateEotAndSunRiseTransitSet M s).x1 = s.x1 ∧
    (calculateEotAndSunRiseTransitSet M s).x2 = s.x2 ∧
    (calculateEotAndSunRiseTransitSet M s).x3 = s.x3 ∧
    (calculateEotAndSunRiseTransitSet M s).x4 = s.x4 ∧
    (calculateEotAndSunRiseTransitSet M s).delPsi = s.delPsi ∧
    (calculateEotAndSunRiseTransitSet M s).delEpsilon = s.delEpsilon ∧
    (calculateEotAndSunRiseTransitSet M s).epsilon0 = s.epsilon0 ∧
    (calculateEotAndSunRiseTransitSet M s).epsilon = s.epsilon ∧
    (calculateEotAndSunRiseTransitSet M s).delTau = s.delTau ∧
    (calculateEotAndSunRiseTransitSet M s).lamda = s.lamda ∧
    (calculateEotAndSunRiseTransitSet M s).nu0 = s.nu0 ∧
    (calculateEotAndSunRiseTransitSet M s).nu = s.nu ∧
    (calculateEotAndSunRiseTransitSet M s).alpha = s.alpha ∧
    (calculateEotAndSunRiseTransitSet M s).delta = s.delta ∧
    (calculateEotAndSunRiseTransitSet M s).h = s.h ∧
    (calculateEotAndSunRiseTransitSet M s).xi = s.xi ∧
    (calculateEotAndSunRiseTransitSet M s).delAlpha = s.delAlpha ∧
    (calculateEotAndSunRiseTransitSet M s).deltaPrime = s.deltaPrime ∧
    (calculateEotAndSunRiseTransitSet M s).alphaPrime = s.alphaPrime ∧
    (calculateEotAndSunRiseTransitSet M s).hPrime = s.hPrime ∧
    (calculateEotAndSunRiseTransitSet M s).e0 = s.e0 ∧
    (calculateEotAndSunRiseTransitSet M s).delE = s.delE ∧
    (calculateEotAndSunRiseTransitSet M s).e = s.e ∧
    (calculateEotAndSunRiseTransitSet M s).mRts = s.mRts ∧
    (calculateEotAndSunRiseTransitSet M s).zenith = s.zenith ∧
    (calculateEotAndSunRiseTransitSet M s).azimuthAstro = s.azimuthAstro ∧
    (calculateEotAndSunRiseTransitSet M s).azimuth = s.azimuth ∧
    (calculateEotAndSunRiseTransitSet M s).incidence = s.incidence := by
  obtain ⟨a, b, c, d, e, f, g, h⟩ := calculateEotAndSunRiseTransitSet_frame M s
  refine ⟨⟨a, b, c, d, e, f, g, h⟩, ?_⟩
  rw [h]
  exact ⟨rfl, rfl, rfl, rfl, rfl, rfl, rfl, rfl, rfl, rfl, rfl, rfl, rfl, rfl, rfl, rfl, rfl, rfl, rfl,
    rfl, rfl, rfl, rfl, rfl, rfl, rfl, rfl, rfl, rfl, rfl, rfl, rfl, rfl, rfl, rfl, rfl, rfl, rfl,
    rfl, rfl, rfl, rfl, rfl, rfl, rfl, rfl, rfl, rfl, rfl, rfl, rfl, rfl, rfl, rfl, rfl, rfl, rfl⟩

/-! ### The interpolation at its samples -/

/-- C36: when neither difference is re-wrapped (both are below 2 in absolute value) the
interpolation returns the samples at n = 0, 1 and -1. -/
theorem rtsAlphaDeltaPrime_samples (ad : List ℚ)
    (ha : |idx ad JdZero - idx ad JdMinus| < 2) (hb : |idx ad JdPlus - idx ad JdZero| < 2) :
    rtsAlphaDeltaPrime ad 0 = idx ad JdZero ∧
    rtsAlphaDeltaPrime ad 1 = idx ad JdPlus ∧
    rtsAlphaDeltaPrime ad (-1) = idx ad JdMinus := by
  unfold rtsAlphaDeltaPrime
  simp only [ge_iff_le, not_le.mpr ha, not_le.mpr hb, if_false]
  refine ⟨by ring, by ring, by ring⟩

/-- Witness for C36: the right ascensions 203.1, 204.0, 204.95 of three consecutive days. -/
theorem rtsAlphaDeltaPrime_samples_witness :
    rtsAlphaDeltaPrime [203.1, 204, 204.95] 0 = 204 ∧
    rtsAlphaDeltaPrime [203.1, 204, 204.95] 1 = 204.95 ∧
    rtsAlphaDeltaPrime [203.1, 204, 204.95] (-1) = 203.1 :=
  rtsAlphaDeltaPrime_samples [203.1, 204, 204.95]
    (by
      have e : idx [(203.1 : ℚ), 204, 204.95] JdZero - idx [(203.1 : ℚ), 204, 204.95] JdMinus =
          9 / 10 := by
        norm_num [idx, JdZero, JdMinus]
      rw [e, abs_of_pos (by norm_num)]
      norm_num)
    (by
      have e : idx [(203.1 : ℚ), 204, 204.95] JdPlus - idx [(203.1 : ℚ), 204, 204.95] JdZero =
          19 / 20 := by
        norm_num [idx, JdZero, JdPlus]
      rw [e, abs_of_pos (by norm_num)]
      norm_num)

/-! ### Sidereal time and deltaT -/

/-- The Julian century and the mean sidereal time written by the geocentric stage are
functions of `jd`. -/
theorem calcGeo_jc_nu0 (M : GoMath) (s : spa) :
    (calculateGeocentricSunRightAscensionAndDeclination M s).jc = julianCentury s.jd ∧
    (calculateGeocentricSunRightAscensionAndDeclination M s).nu0 =
      greenwichMeanSiderealTime s.jd (julianCentury s.jd) := by
  simp only [calculateGeocentricSunRightAscensionAndDeclination,
    nutationLongitudeAndObliquity, and_self]

/-- C32: the mean sidereal time is referenced to `jd`: two states with the same `jd`,
whatever their `deltaT` (and other fields), get the same `jc` and the same `nu0` from
`calculateGeocentricSunRightAscensionAndDeclination`, while `jde` moves with `deltaT`; and
`nu0` lies in [0, 360). -/
theorem nu0_independent_of_deltaT (M : GoMath) (s t : spa) :
    (s.jd = t.jd →
      (calculateGeocentricSunRightAscensionAndDeclination M s).jc =
        (calculateGeocentricSunRightAscensionAndDeclination M t).jc ∧
      (calculateGeocentricSunRightAscensionAndDeclination M s).nu0 =
        (calculateGeocentricSunRightAscensionAndDeclination M t).nu0) ∧
    (∀ d : ℚ,
      (calculateGeocentricSunRightAscensionAndDeclination M { s with deltaT := d }).jc =
        (calculateGeocentricSunRightAscensionAndDeclination M s).jc ∧
      (calculateGeocentricSunRightAscensionAndDeclination M { s with deltaT := d }).nu0 =
        (calculateGeocentricSunRightAscensionAndDeclination M s).nu0 ∧
      (calculateGeocentricSunRightAscensionAndDeclination M { s with deltaT := d }).jde =
        s.jd + d / 86400) ∧
    (calculateGeocentricSunRightAscensionAndDeclination M s).nu0 =
      greenwichMeanSiderealTime s.jd (julianCentury s.jd) ∧
    (0 ≤ (calculateGeocentricSunRightAscensionAndDeclination M s).nu0 ∧
      (calculateGeocentricSunRightAscensionAndDeclination M s).nu0 < 360) := by
  refine ⟨?_, ?_, (calcGeo_jc_nu0 M s).2, ?_⟩
  · intro h
    rw [(calcGeo_jc_nu0 M s).1, (calcGeo_jc_nu0 M s).2, (calcGeo_jc_nu0 M t).1,
      (calcGeo_jc_nu0 M t).2, h]
    exact ⟨rfl, rfl⟩
  · intro d
    rw [(calcGeo_jc_nu0 M s).1, (calcGeo_jc_nu0 M s).2, (calcGeo_jc_nu0 M _).1,
      (calcGeo_jc_nu0 M _).2]
    refine ⟨rfl, rfl, ?_⟩
    simp only [calculateGeocentricSunRightAscensionAndDeclination,
      nutationLongitudeAndObliquity, julianEphemerisDay]
  · rw [(calcGeo_jc_nu0 M s).2]
    exact limitDegrees_range _

/-- Witness for C32: the reference Julian day with deltaT 67 and with deltaT 0 gives the
same mean sidereal time. -/
theorem nu0_independent_of_deltaT_witness :
    (calculateGeocentricSunRightAscensionAndDeclination polyMath
        { zeroSpa with jd := 2452930.312847, deltaT := 67 }).nu0 =
      (calculateGeocentricSunRightAscensionAndDeclination polyMath
        { zeroSpa with jd := 2452930.312847, deltaT := 0 }).nu0 :=
  ((nu0_independent_of_deltaT polyMath { zeroSpa with jd := 2452930.312847, deltaT := 67 }
    { zeroSpa with jd := 2452930.312847, deltaT := 0 }).1 rfl).2

/-! ### Shape of the coefficient tables -/

/-- A row index below the length of a table selects one of its rows. -/
theorem row_mem {α : Type} (t : List (List α)) (k : ℕ) (h : k < t.length) : row t k ∈ t := by
  unfold row
  rw [List.getD_eq_getElem _ _ h]
  exact List.getElem_mem h

/-- C37: the tables have the shape the loops assume.  `LTerms`, `BTerms`, `RTerms` have
`LCount`, `BCount`, `RCount` subsets of exactly `lSubcount[i]`, `bSubcount[i]`,
`rSubcount[i]` rows of 3 entries; `YTerms` has `YCount` = 63 rows of 5 entries and `PeTerms`
has 63 rows of 4 entries; hence every index evaluated by `earthPeriodicTermSummation`,
`xyTermSummation` and `nutationLongitudeAndObliquity` is below the length of what it
indexes. -/
theorem table_indices_in_bounds :
    (LTerms.length = LCount ∧ LTerms.map List.length = lSubcount ∧
      lSubcount = [64, 34, 20, 7, 3, 1]) ∧
    (BTerms.length = BCount ∧ BTerms.map List.length = bSubcount ∧ bSubcount = [5, 2]) ∧
    (RTerms.length = RCount ∧ RTerms.map List.length = rSubcount ∧
      rSubcount = [40, 10, 6, 2, 1]) ∧
    (∀ t ∈ LTerms ++ BTerms ++ RTerms, ∀ r ∈ t, r.length = 3) ∧
    (YTerms.length = YCount ∧ YCount = 63 ∧ ∀ r ∈ YTerms, r.length = 5) ∧
    (PeTerms.length = 63 ∧ ∀ r ∈ PeTerms, r.length = 4) ∧
    (∀ i : ℕ, i < LCount → i < LTerms.length ∧ i < lSubcount.length ∧
      ∀ k : ℕ, k < idx lSubcount i → k < (row LTerms i).length ∧
        TermA < (row (row LTerms i) k).length ∧ TermB < (row (row LTerms i) k).length ∧
        TermC < (row (row LTerms i) k).length) ∧
    (∀ i : ℕ, i < BCount → i < BTerms.length ∧ i < bSubcount.length ∧
      ∀ k : ℕ, k < idx bSubcount i → k < (row BTerms i).length ∧
        TermA < (row (row BTerms i) k).length ∧ TermB < (row (row BTerms i) k).length ∧
        TermC < (row (row BTerms i) k).length) ∧
    (∀ i : ℕ, i < RCount → i < RTerms.length ∧ i < rSubcount.length ∧
      ∀ k : ℕ, k < idx rSubcount i → k < (row RTerms i).length ∧
        TermA < (row (row RTerms i) k).length ∧ TermB < (row (row RTerms i) k).length ∧
        TermC < (row (row RTerms i) k).length) ∧
    (∀ i : ℕ, i < YCount → i < YTerms.length ∧ i < PeTerms.length ∧
      (∀ j : ℕ, j < TermYCount → j < (row YTerms i).length) ∧
      TermPsiA < (row PeTerms i).length ∧ TermPsiB < (row PeTerms i).length ∧
      TermEpsC < (row PeTerms i).length ∧ TermEpsD < (row PeTerms i).length) := by
  have hrow3 : ∀ t ∈ LTerms ++ BTerms ++ RTerms, ∀ r ∈ t, r.length = 3 := by
    have h : ((LTerms ++ BTerms ++ RTerms).all fun t => t.all fun r => r.length == 3) = true := by
      rfl
    intro t ht r hr
    have h1 := List.all_eq_true.mp h t ht
    have h2 := List.all_eq_true.mp h1 r hr
    exact beq_iff_eq.mp h2
  have hY5 : ∀ r ∈ YTerms, r.length = 5 := by
    have h : (YTerms.all fun r => r.length == 5) = true := by rfl
    intro r hr
    exact beq_iff_eq.mp (List.all_eq_true.mp h r hr)
  have hPe4 : ∀ r ∈ PeTerms, r.length = 4 := by
    have h : (PeTerms.all fun r => r.length == 4) = true := by rfl
    intro r hr
    exact beq_iff_eq.mp (List.all_eq_true.mp h r hr)
  have hsub : ∀ (T : List (List (List ℚ))) (i k : ℕ), T ∈ [LTerms, BTerms, RTerms] →
      i < T.length → k < (row T i).length → (row (row T i) k).length = 3 := by
    intro T i k hT hi hk
    apply hrow3 (row T i) _ _ (row_mem _ k hk)
    have hm := row_mem T i hi
    simp only [List.mem_cons, List.mem_singleton, List.not_mem_nil, or_false] at hT
    rcases hT with rfl | rfl | rfl
    · exact List.mem_append_left _ (List.mem_append_left _ hm)
    · exact List.mem_append_left _ (List.mem_append_right _ hm)
    · exact List.mem_append_right _ hm
  refine ⟨⟨rfl, rfl, rfl⟩, ⟨rfl, rfl, rfl⟩, ⟨rfl, rfl, rfl⟩, hrow3, ⟨rfl, rfl, hY5⟩,
    ⟨rfl, hPe4⟩, ?_, ?_, ?_, ?_⟩
  · intro i hi
    have hlen : (row LTerms i).length = idx lSubcount i := by
      unfold LCount at hi
      interval_cases i <;> rfl
    refine ⟨hi, hi, ?_⟩
    intro k hk
    rw [← hlen] at hk
    have h3 := hsub LTerms i k (by simp) hi hk
    rw [h3]
    exact ⟨hk, by decide, by decide, by decide⟩
  · intro i hi
    have hlen : (row BTerms i).length = idx bSubcount i := by
      unfold BCount at hi
      interval_cases i <;> rfl
    refine ⟨hi, hi, ?_⟩
    intro k hk
    rw [← hlen] at hk
    have h3 := hsub BTerms i k (by simp) hi hk
    rw [h3]
    exact ⟨hk, by decide, by decide, by decide⟩
  · intro i hi
    have hlen : (row RTerms i).length = idx rSubcount i := by
      unfold RCount at hi
      interval_cases i <;> rfl
    refine ⟨hi, hi, ?_⟩
    intro k hk
    rw [← hlen] at hk
    have h3 := hsub RTerms i k (by simp) hi hk
    rw [h3]
    exact ⟨hk, by decide, by decide, by decide⟩
  · intro i hi
    have hiY : i < YTerms.length := hi
    have hiP : i < PeTerms.length := hi
    rw [hY5 _ (row_mem YTerms i hiY), hPe4 _ (row_mem PeTerms i hiP)]
    exact ⟨hiY, hiP, fun j hj => hj, by decide, by decide, by decide, by decide⟩

/-- Witness for C37: row 63 of subset 0 of `LTerms` and row 62 of `PeTerms` exist. -/
theorem table_indices_in_bounds_witness :
    63 < (row LTerms 0).length ∧ TermC < (row (row LTerms 0) 63).length ∧
    TermEpsD < (row PeTerms 62).length :=
  ⟨((table_indices_in_bounds.2.2.2.2.2.2.1 0 (by decide)).2.2 63 (by decide)).1,
    ((table_indices_in_bounds.2.2.2.2.2.2.1 0 (by decide)).2.2 63 (by decide)).2.2.2,
    (table_indices_in_bounds.2.2.2.2.2.2.2.2.2 62 (by decide)).2.2.2.2.2.2⟩

/-! ### Hours, minutes and seconds of a local clock time -/

theorem goInt_of_nonneg (x : ℚ) (h : 0 ≤ x) : goInt x = ⌊x⌋ := by
  unfold goInt
  rw [if_pos h]

/-- The three results of `calculateHourMinSec` on [0, 24): ranges and total seconds. -/
theorem calculateHourMinSec_parts (decHours : ℚ) (h0 : 0 ≤ decHours) (h1 : decHours < 24) :
    (0 ≤ (calculateHourMinSec decHours).1 ∧ (calculateHourMinSec decHours).1 ≤ 23) ∧
    (0 ≤ (calculateHourMinSec decHours).2.1 ∧ (calculateHourMinSec decHours).2.1 ≤ 59) ∧
    (0 ≤ (calculateHourMinSec decHours).2.2 ∧ (calculateHourMinSec decHours).2.2 ≤ 59) ∧
    3600 * (calculateHourMinSec decHours).1 + 60 * (calculateHourMinSec decHours).2.1 +
      (calculateHourMinSec decHours).2.2 = ⌊3600 * decHours⌋ := by
  have hf0 := Int.floor_le decHours
  have hf1 := Int.lt_floor_add_one decHours
  have hmin0 : (0 : ℚ) ≤ 60 * (decHours - ((⌊decHours⌋ : ℤ) : ℚ)) := by linarith
  have hm0 := Int.floor_le (60 * (decHours - ((⌊decHours⌋ : ℤ) : ℚ)))
  have hm1 := Int.lt_floor_add_one (60 * (decHours - ((⌊decHours⌋ : ℤ) : ℚ)))
  have hsec0 : (0 : ℚ) ≤ 60 * (60 * (decHours - ((⌊decHours⌋ : ℤ) : ℚ)) -
      ((⌊60 * (decHours - ((⌊decHours⌋ : ℤ) : ℚ))⌋ : ℤ) : ℚ)) := by linarith
  have hs0 := Int.floor_le (60 * (60 * (decHours - ((⌊decHours⌋ : ℤ) : ℚ)) -
      ((⌊60 * (decHours - ((⌊decHours⌋ : ℤ) : ℚ))⌋ : ℤ) : ℚ)))
  have hs1 := Int.lt_floor_add_one (60 * (60 * (decHours - ((⌊decHours⌋ : ℤ) : ℚ)) -
      ((⌊60 * (decHours - ((⌊decHours⌋ : ℤ) : ℚ))⌋ : ℤ) : ℚ)))
  have e : calculateHourMinSec decHours =
      (⌊decHours⌋, ⌊60 * (decHours - ((⌊decHours⌋ : ℤ) : ℚ))⌋,
        ⌊60 * (60 * (decHours - ((⌊decHours⌋ : ℤ) : ℚ)) -
          ((⌊60 * (decHours - ((⌊decHours⌋ : ℤ) : ℚ))⌋ : ℤ) : ℚ))⌋) := by
    unfold calculateHourMinSec
    simp only [goInt_of_nonneg decHours h0, goInt_of_nonneg _ hmin0, goInt_of_nonneg _ hsec0]
  rw [e]
  simp only
  refine ⟨⟨?_, ?_⟩, ⟨?_, ?_⟩, ⟨?_, ?_⟩, ?_⟩
  · exact Int.floor_nonneg.mpr h0
  · have : ⌊decHours⌋ < 24 := by
      rw [Int.floor_lt]
      exact_mod_cast h1
    omega
  · exact Int.floor_nonneg.mpr hmin0
  · have : ⌊60 * (decHours - ((⌊decHours⌋ : ℤ) : ℚ))⌋ < 60 := by
      rw [Int.floor_lt]
      push_cast
      linarith
    omega
  · exact Int.floor_nonneg.mpr hsec0
  · have : ⌊60 * (60 * (decHours - ((⌊decHours⌋ : ℤ) : ℚ)) -
        ((⌊60 * (decHours - ((⌊decHours⌋ : ℤ) : ℚ))⌋ : ℤ) : ℚ))⌋ < 60 := by
      rw [Int.floor_lt]
      push_cast
      linarith
    omega
  · symm
    rw [Int.floor_eq_iff]
    push_cast
    constructor <;> linarith

/-- The clock reading `h:mi:se` (in range) after midnight of a date produced by `time.Date`
is that date with hour `h`, minute `mi` and second `se`. -/
theorem timeDate_after_midnight (year month day offset h mi se : ℤ)
    (hh : 0 ≤ h ∧ h ≤ 23) (hmi : 0 ≤ mi ∧ mi ≤ 59) (hse : 0 ≤ se ∧ se ≤ 59) :
    timeAdd (timeDate year month day 0 0 0 offset) (3600 * h + 60 * mi + se) =
      { timeDate year month day 0 0 0 offset with hour := h, minute := mi, second := se } := by
  obtain ⟨hm1, hm2, hz⟩ := civil_roundtrip
    (daysFromCivil (year + (month - 1) / 12) ((month - 1) % 12 + 1) day)
  have hmo0 : 0 ≤ (civilFromDays (daysFromCivil (year + (month - 1) / 12)
      ((month - 1) % 12 + 1) day)).2.1 - 1 := by
    omega
  have hmo1 : (civilFromDays (daysFromCivil (year + (month - 1) / 12)
      ((month - 1) % 12 + 1) day)).2.1 - 1 < 12 := by
    omega
  have k1 : (3600 * h + 60 * mi + se) / 60 = 60 * h + mi := by omega
  have k2 : (3600 * h + 60 * mi + se) % 60 = se := by omega
  have k3 : (60 * h + mi) / 60 = h := by omega
  have k4 : (60 * h + mi) % 60 = mi := by omega
  have k5 : h / 24 = 0 := by omega
  have k6 : h % 24 = h := by omega
  simp only [timeAdd, timeDate, norm, Int.zero_ediv, Int.zero_emod, add_zero, zero_add,
    Int.ediv_eq_zero_of_lt hmo0 hmo1, Int.emod_eq_of_lt hmo0 hmo1, sub_add_cancel, hz,
    k1, k2, k3, k4, k5, k6]

/-- In exact arithmetic, on [0, 24) `calculateHourMinSec` returns hours in 0..23, minutes
and seconds in 0..59 with 3600*h + 60*m + s = floor(3600*decHours) (with float64 rounding
the total can be a second off; see `calculateHourMinSec64`); hence, for a sunrise (sunset) hour in
[0, 24), `GetSunrise` (`GetSunset`) is local midnight of the date plus
floor(3600*sunrise) seconds, on the same date, with that hour, minute and second. -/
theorem calculateHourMinSec_floor (decHours : ℚ) (s : spa) :
    (0 ≤ decHours → decHours < 24 →
      (0 ≤ (calculateHourMinSec decHours).1 ∧ (calculateHourMinSec decHours).1 ≤ 23) ∧
      (0 ≤ (calculateHourMinSec decHours).2.1 ∧ (calculateHourMinSec decHours).2.1 ≤ 59) ∧
      (0 ≤ (calculateHourMinSec decHours).2.2 ∧ (calculateHourMinSec decHours).2.2 ≤ 59) ∧
      3600 * (calculateHourMinSec decHours).1 + 60 * (calculateHourMinSec decHours).2.1 +
        (calculateHourMinSec decHours).2.2 = ⌊3600 * decHours⌋) ∧
    (0 ≤ s.sunrise → s.sunrise < 24 →
      GetSunrise s =
        timeAdd (timeDate s.year s.month s.day 0 0 0 (goInt (s.timezone * 3600)))
          ⌊3600 * s.sunrise⌋ ∧
      GetSunrise s =
        { timeDate s.year s.month s.day 0 0 0 (goInt (s.timezone * 3600)) with
          hour := (calculateHourMinSec s.sunrise).1,
          minute := (calculateHourMinSec s.sunrise).2.1,
          second := (calculateHourMinSec s.sunrise).2.2 }) ∧
    (0 ≤ s.sunset → s.sunset < 24 →
      GetSunset s =
        timeAdd (timeDate s.year s.month s.day 0 0 0 (goInt (s.timezone * 3600)))
          ⌊3600 * s.sunset⌋ ∧
      GetSunset s =
        { timeDate s.year s.month s.day 0 0 0 (goInt (s.timezone * 3600)) with
          hour := (calculateHourMinSec s.sunset).1,
          minute := (calculateHourMinSec s.sunset).2.1,
          second := (calculateHourMinSec s.sunset).2.2 }) := by
  refine ⟨calculateHourMinSec_parts decHours, ?_, ?_⟩
  · intro h0 h1
    obtain ⟨hh, hm, hs, hsum⟩ := calculateHourMinSec_parts s.sunrise h0 h1
    constructor
    · unfold GetSunrise
      simp only [hsum]
    · unfold GetSunrise
      exact timeDate_after_midnight _ _ _ _ _ _ _ hh hm hs
  · intro h0 h1
    obtain ⟨hh, hm, hs, hsum⟩ := calculateHourMinSec_parts s.sunset h0 h1
    constructor
    · unfold GetSunset
      simp only [hsum]
    · unfold GetSunset
      exact timeDate_after_midnight _ _ _ _ _ _ _ hh hm hs

/-- An instance of `calculateHourMinSec_floor`: 6.2125 hours (the sunrise of the reference request is 06:12:43 and a
fraction) is 6 h 12 min 45 s, and 22365 seconds. -/
theorem calculateHourMinSec_floor_witness :
    calculateHourMinSec 6.2125 = (6, 12, 45) ∧
    3600 * (calculateHourMinSec 6.2125).1 + 60 * (calculateHourMinSec 6.2125).2.1 +
      (calculateHourMinSec 6.2125).2.2 = ⌊(3600 : ℚ) * 6.2125⌋ ∧
    GetSunrise { refSpa with sunrise := 6.2125 } =
      ⟨2003, 10, 17, 6, 12, 45, -25200⟩ := by
  have hparts := (calculateHourMinSec_floor 6.2125 { refSpa with sunrise := 6.2125 }).1
    (by norm_num) (by norm_num)
  have hget := ((calculateHourMinSec_floor 6.2125 { refSpa with sunrise := 6.2125 }).2.1
    (by norm_num [refSpa, init, zeroSpa]) (by norm_num [refSpa, init, zeroSpa])).2
  have e : calculateHourMinSec 6.2125 = (6, 12, 45) := by
    norm_num [calculateHourMinSec, goInt]
  have e2 : calculateHourMinSec ({ refSpa with sunrise := 6.2125 } : spa).sunrise =
      (6, 12, 45) := e
  have hmid : timeDate 2003 10 17 0 0 0 (-25200) = ⟨2003, 10, 17, 0, 0, 0, -25200⟩ := by
    decide
  refine ⟨e, hparts.2.2.2, ?_⟩
  rw [hget, e2]
  simp only [refSpa, init, zeroSpa, goInt_tz_ref, hmid]

/-! ### The nutation series -/

theorem foldl_range_sum (f : ℕ → ℚ) (n : ℕ) :
    (List.range n).foldl (fun sum j => sum + f j) 0 = ∑ j in Finset.range n, f j := by
  induction n with
  | zero => simp
  | succ n ih =>
    rw [List.range_succ, List.foldl_append, ih, Finset.sum_range_succ]
    simp

theorem foldl_range_pair (f g : ℕ → ℚ) (n : ℕ) :
    (List.range n).foldl (fun (acc : ℚ × ℚ) i => (acc.1 + f i, acc.2 + g i)) (0, 0) =
      (∑ i in Finset.range n, f i, ∑ i in Finset.range n, g i) := by
  induction n with
  | zero => simp
  | succ n ih =>
    rw [List.range_succ, List.foldl_append, ih, Finset.sum_range_succ, Finset.sum_range_succ]
    simp

theorem xyTermSummation_eq (i : ℕ) (x : List ℚ) : xyTermSummation i x = nutationArgument x i := by
  unfold xyTermSummation nutationArgument
  exact foldl_range_sum (fun j => idx x j * ((idx (row YTerms i) j : ℤ) : ℚ)) 5

/-- C31: `nutationLongitudeAndObliquity` sets `delPsi` to the sum over the 63 rows of
(PeTerms[i][0] + jce*PeTerms[i][1]) * sin(deg2rad(Y_i)), divided by 36000000, and
`delEpsilon` to the sum of (PeTerms[i][2] + jce*PeTerms[i][3]) * cos(deg2rad(Y_i)), divided
by 36000000, where Y_i is the sum over j = 0..4 of x[j]*YTerms[i][j]. -/
theorem nutation_series (M : GoMath) (s : spa) (jce : ℚ) (x : List ℚ) :
    (nutationLongitudeAndObliquity M s jce x).delPsi =
      (∑ i in Finset.range 63,
        (idx (row PeTerms i) 0 + jce * idx (row PeTerms i) 1) *
          M.sin (deg2rad M (nutationArgument x i))) / 36000000 ∧
    (nutationLongitudeAndObliquity M s jce x).delEpsilon =
      (∑ i in Finset.range 63,
        (idx (row PeTerms i) 2 + jce * idx (row PeTerms i) 3) *
          M.cos (deg2rad M (nutationArgument x i))) / 36000000 ∧
    PeTerms.length = 63 ∧ YTerms.length = 63 ∧
    (∀ i : ℕ, nutationArgument x i =
      idx x 0 * ((idx (row YTerms i) 0 : ℤ) : ℚ) + idx x 1 * ((idx (row YTerms i) 1 : ℤ) : ℚ) +
      idx x 2 * ((idx (row YTerms i) 2 : ℤ) : ℚ) + idx x 3 * ((idx (row YTerms i) 3 : ℤ) : ℚ) +
      idx x 4 * ((idx (row YTerms i) 4 : ℤ) : ℚ)) := by
  have hfold := foldl_range_pair
    (fun i => (idx (row PeTerms i) TermPsiA + jce * idx (row PeTerms i) TermPsiB) *
      M.sin (deg2rad M (xyTermSummation i x)))
    (fun i => (idx (row PeTerms i) TermEpsC + jce * idx (row PeTerms i) TermEpsD) *
      M.cos (deg2rad M (xyTermSummation i x))) YCount
  have e1 : (nutationLongitudeAndObliquity M s jce x).delPsi =
      ((List.range YCount).foldl
        (fun (acc : ℚ × ℚ) i =>
          (acc.1 + (idx (row PeTerms i) TermPsiA + jce * idx (row PeTerms i) TermPsiB) *
              M.sin (deg2rad M (xyTermSummation i x)),
            acc.2 + (idx (row PeTerms i) TermEpsC + jce * idx (row PeTerms i) TermEpsD) *
              M.cos (deg2rad M (xyTermSummation i x)))) (0, 0)).1 / 36000000 := rfl
  have e2 : (nutationLongitudeAndObliquity M s jce x).delEpsilon =
      ((List.range YCount).foldl
        (fun (acc : ℚ × ℚ) i =>
          (acc.1 + (idx (row PeTerms i) TermPsiA + jce * idx (row PeTerms i) TermPsiB) *
              M.sin (deg2rad M (xyTermSummation i x)),
            acc.2 + (idx (row PeTerms i) TermEpsC + jce * idx (row PeTerms i) TermEpsD) *
              M.cos (deg2rad M (xyTermSummation i x)))) (0, 0)).2 / 36000000 := rfl
  refine ⟨?_, ?_, rfl, rfl, ?_⟩
  · rw [e1, hfold]
    simp only [xyTermSummation_eq, YCount, TermPsiA, TermPsiB]
  · rw [e2, hfold]
    simp only [xyTermSummation_eq, YCount, TermEpsC, TermEpsD]
  · intro i
    unfold nutationArgument
    simp only [Finset.sum_range_succ, Finset.sum_range_zero, zero_add]

/-! ### The Julian day at noon and the Gregorian day number -/

/-- Integer division by 100 and then by 4 is division by 400. -/
theorem ediv_100_4 (Y : ℤ) : Y / 100 / 4 = Y / 400 := by
  have h := (Int.ediv_emod_unique (a := Y) (b := 400) (q := Y / 100 / 4)
    (r := Y - 400 * (Y / 100 / 4)) (by norm_num)).mpr ⟨by ring, by omega, by omega⟩
  exact h.1.symm

/-- The Julian day at noon UT of a Gregorian date from 1583 on is its Gregorian day
number. -/
theorem julianDay_noon_eq (year month day : ℤ) (hy : 1583 ≤ year)
    (hm : 1 ≤ month ∧ month ≤ 12) (hd : 1 ≤ day ∧ day ≤ 31) :
    julianDay year month day 12 0 0 0 0 = (gregorianDayNumber year month day : ℚ) := by
  have hgt := julianDayUncorrected_gt_of_fromGregorianStart year month day 12 0 0 hm hd
    (by norm_num) (by norm_num) (by norm_num) (Or.inl (by omega))
  rw [julianDay_eq, if_pos hgt]
  have hfl : ∀ (n : ℤ) (d : ℕ), 0 ≤ n → goInt ((n : ℚ) / (d : ℚ)) = n / (d : ℤ) := by
    intro n d hn
    rw [goInt_of_nonneg _ (div_nonneg (by exact_mod_cast hn) (by positivity))]
    exact Rat.floor_intCast_div_natCast n d
  have main : ∀ Y Mo : ℤ, 1582 ≤ Y → 3 ≤ Mo → Mo ≤ 14 →
      (if month < 3 then year - 1 else year) = Y →
      (if month < 3 then month + 12 else month) = Mo →
      julianDayUncorrected year month day 12 0 0 0 0 + gregorianCorrection year month =
        ((1461 * (Y + 4716) / 4 + 306001 * (Mo + 1) / 10000 + day - 1524 + 2 - Y / 100
          + Y / 100 / 4 : ℤ) : ℚ) := by
    intro Y Mo hY hMo1 hMo2 eY eMo
    rw [julianDayUncorrected_eq year month day 12 0 0 Y Mo eY eMo]
    unfold gregorianCorrection
    simp only [eY]
    have e1 : (365.25 : ℚ) * ((Y : ℚ) + 4716) = ((1461 * (Y + 4716) : ℤ) : ℚ) / ((4 : ℕ) : ℚ) := by
      push_cast
      ring
    have e2 : (30.6001 : ℚ) * ((Mo : ℚ) + 1) =
        ((306001 * (Mo + 1) : ℤ) : ℚ) / ((10000 : ℕ) : ℚ) := by
      push_cast
      ring
    have e3 : Int.tdiv Y 100 = Y / 100 := Int.tdiv_eq_ediv (by omega) (by norm_num)
    have e4 : ((Y / 100 : ℤ) : ℚ) / 4 = ((Y / 100 : ℤ) : ℚ) / ((4 : ℕ) : ℚ) := by norm_num
    rw [e1, e2, e3, e4, hfl _ 4 (by omega), hfl _ 10000 (by omega),
      hfl _ 4 (Int.ediv_nonneg (by omega) (by norm_num))]
    push_cast
    ring
  by_cases h3 : month < 3
  · rw [main (year - 1) (month + 12) (by omega) (by omega) (by omega) (by rw [if_pos h3])
      (by rw [if_pos h3])]
    congr 1
    unfold gregorianDayNumber
    simp only
    have q1 : (year - 1) / 100 / 4 = (year - 1) / 400 := ediv_100_4 _
    have q2 : (year - 1 + 4800) / 4 = (year - 1) / 4 + 1200 := by omega
    have q3 : (year - 1 + 4800) / 100 = (year - 1) / 100 + 48 := by omega
    have q4 : (year - 1 + 4800) / 400 = (year - 1) / 400 + 12 := by omega
    have q5 : 1461 * (year - 1 + 4716) / 4 = 365 * (year - 1 + 4716) + (year - 1) / 4 + 1179 := by
      omega
    have hmm : month = 1 ∨ month = 2 := by omega
    rcases hmm with rfl | rfl
    · have ea : year + 4800 - (14 - 1) / 12 = year - 1 + 4800 := by
        norm_num
        ring
      rw [ea, q1, q2, q3, q4, q5]
      norm_num
      omega
    · have ea : year + 4800 - (14 - 2) / 12 = year - 1 + 4800 := by
        norm_num
        ring
      rw [ea, q1, q2, q3, q4, q5]
      norm_num
      omega
  · rw [main year month (by omega) (by omega) (by omega) (by rw [if_neg h3])
      (by rw [if_neg h3])]
    congr 1
    unfold gregorianDayNumber
    simp only
    have hmm : month = 3 ∨ month = 4 ∨ month = 5 ∨ month = 6 ∨ month = 7 ∨ month = 8 ∨
        month = 9 ∨ month = 10 ∨ month = 11 ∨ month = 12 := by omega
    have q1 : year / 100 / 4 = year / 400 := ediv_100_4 _
    have q2 : (year + 4800) / 4 = year / 4 + 1200 := by omega
    have q3 : (year + 4800) / 100 = year / 100 + 48 := by omega
    have q4 : (year + 4800) / 400 = year / 400 + 12 := by omega
    have q5 : 1461 * (year + 4716) / 4 = 365 * (year + 4716) + year / 4 + 1179 := by omega
    have ea : (14 - month) / 12 = 0 := by omega
    rw [ea, sub_zero, q1, q2, q3, q4, q5]
    rcases hmm with rfl | rfl | rfl | rfl | rfl | rfl | rfl | rfl | rfl | rfl <;> norm_num <;>
      omega

/-- The date after a valid date of the Gregorian calendar has the next Gregorian day
number. -/
theorem gregorianDayNumber_nextDate (year month day : ℤ) (hm : 1 ≤ month ∧ month ≤ 12)
    (hd : 1 ≤ day ∧ day ≤ daysInMonth year month) :
    gregorianDayNumber (nextDate year month day).1 (nextDate year month day).2.1
        (nextDate year month day).2.2 = gregorianDayNumber year month day + 1 ∧
    (year ≤ (nextDate year month day).1 ∧
      (1 ≤ (nextDate year month day).2.1 ∧ (nextDate year month day).2.1 ≤ 12) ∧
      (1 ≤ (nextDate year month day).2.2 ∧ (nextDate year month day).2.2 ≤ 31)) := by
  have hdim : 28 ≤ daysInMonth year month ∧ daysInMonth year month ≤ 31 := by
    unfold daysInMonth
    split_ifs <;> constructor <;> norm_num
  unfold nextDate
  by_cases h1 : day < daysInMonth year month
  · rw [if_pos h1]
    refine ⟨?_, le_refl _, hm, ?_, ?_⟩
    · unfold gregorianDayNumber
      simp only
      omega
    · dsimp only
      omega
    · dsimp only
      omega
  · rw [if_neg h1]
    have hday : day = daysInMonth year month := by omega
    by_cases h2 : month < 12
    · rw [if_pos h2]
      refine ⟨?_, le_refl _, ⟨?_, ?_⟩, by norm_num, by norm_num⟩
      rotate_left
      · dsimp only
        omega
      · dsimp only
        omega
      simp only
      rw [hday]
      unfold gregorianDayNumber daysInMonth isLeapYear
      simp only [decide_eq_true_eq]
      have hmm : month = 1 ∨ month = 2 ∨ month = 3 ∨ month = 4 ∨ month = 5 ∨ month = 6 ∨
          month = 7 ∨ month = 8 ∨ month = 9 ∨ month = 10 ∨ month = 11 := by omega
      rcases hmm with rfl | rfl | rfl | rfl | rfl | rfl | rfl | rfl | rfl | rfl | rfl <;>
        norm_num <;> (try split_ifs) <;> omega
    · rw [if_neg h2]
      have hm12 : month = 12 := by omega
      subst hm12
      refine ⟨?_, ?_, ⟨by norm_num, by norm_num⟩, by norm_num, by norm_num⟩
      rotate_left
      · dsimp only
        omega
      simp only
      rw [hday]
      unfold gregorianDayNumber daysInMonth
      norm_num
      omega

/-- C33: for every Gregorian date with year in [1583, 6000], month in [1, 12] and day in
[1, 31] the Julian day at 12:00:00 UT is the Gregorian day number of the claim; hence for a
date of the calendar (day not beyond the end of its month) the Julian day of the next
calendar date, across month ends, year ends and leap days, is larger by exactly 1. -/
theorem julianDay_gregorianDayNumber (year month day : ℤ)
    (hy : 1583 ≤ year ∧ year ≤ 6000) (hm : 1 ≤ month ∧ month ≤ 12)
    (hd : 1 ≤ day ∧ day ≤ 31) :
    julianDay year month day 12 0 0 0 0 = (gregorianDayNumber year month day : ℚ) ∧
    (day ≤ daysInMonth year month →
      julianDay (nextDate year month day).1 (nextDate year month day).2.1
          (nextDate year month day).2.2 12 0 0 0 0 =
        julianDay year month day 12 0 0 0 0 + 1) := by
  refine ⟨julianDay_noon_eq year month day hy.1 hm hd, ?_⟩
  intro hdim
  obtain ⟨hn, hny, hnm, hnd⟩ := gregorianDayNumber_nextDate year month day hm ⟨hd.1, hdim⟩
  rw [julianDay_noon_eq _ _ _ (by omega) hnm hnd, julianDay_noon_eq year month day hy.1 hm hd,
    hn]
  push_cast
  ring

/-- Witness for C33: noon of 2003-10-17 is Julian day 2452930, and the day after
2004-02-28 is the leap day 2004-02-29, one Julian day later. -/
theorem julianDay_gregorianDayNumber_witness :
    julianDay 2003 10 17 12 0 0 0 0 = 2452930 ∧
    nextDate 2004 2 28 = (2004, 2, 29) ∧
    julianDay 2004 2 29 12 0 0 0 0 = julianDay 2004 2 28 12 0 0 0 0 + 1 := by
  have h1 := (julianDay_gregorianDayNumber 2003 10 17 (by norm_num) (by norm_num)
    (by norm_num)).1
  have e1 : gregorianDayNumber 2003 10 17 = 2452930 := by decide
  have e2 : nextDate 2004 2 28 = (2004, 2, 29) := by decide
  have e3 : (28 : ℤ) ≤ daysInMonth 2004 2 := by decide
  have h2 := (julianDay_gregorianDayNumber 2004 2 28 (by norm_num) (by norm_num)
    (by norm_num)).2 e3
  rw [e2] at h2
  rw [e1] at h1
  exact ⟨by rw [h1]; norm_num, e2, h2⟩

/-! ### What the rise/transit/set outputs depend on -/

/-- The six rise/transit/set outputs are functions of the date, `deltaT`, the position, the
timezone and the refraction at the horizon. -/
theorem calculateEot_rts_congr (M : GoMath) (s t : spa)
    (h1 : s.year = t.year) (h2 : s.month = t.month) (h3 : s.day = t.day)
    (h4 : s.deltaT = t.deltaT) (h5 : s.longitude = t.longitude)
    (h6 : s.latitude = t.latitude) (h7 : s.timezone = t.timezone)
    (h8 : s.atmosRefract = t.atmosRefract) :
    (calculateEotAndSunRiseTransitSet M s).srha = (calculateEotAndSunRiseTransitSet M t).srha ∧
    (calculateEotAndSunRiseTransitSet M s).ssha = (calculateEotAndSunRiseTransitSet M t).ssha ∧
    (calculateEotAndSunRiseTransitSet M s).sta = (calculateEotAndSunRiseTransitSet M t).sta ∧
    (calculateEotAndSunRiseTransitSet M s).suntransit =
      (calculateEotAndSunRiseTransitSet M t).suntransit ∧
    (calculateEotAndSunRiseTransitSet M s).sunrise =
      (calculateEotAndSunRiseTransitSet M t).sunrise ∧
    (calculateEotAndSunRiseTransitSet M s).sunset =
      (calculateEotAndSunRiseTransitSet M t).sunset := by
  simp only [calculateEotAndSunRiseTransitSet, rtsLoop, approxSunRiseAndSet,
    (sunRtsMidnight_fields M _).1, (sunRtsMidnight_fields M _).2.1,
    (sunRtsMidnight_fields M _).2.2,
    (sunRtsSamples_fields M _).1, (sunRtsSamples_fields M _).2.1,
    (sunRtsSamples_fields M _).2.2.1, (sunRtsSamples_fields M _).2.2.2,
    h1, h2, h3, h4, h5, h6, h7, h8]
  split <;> exact ⟨rfl, rfl, rfl, rfl, rfl, rfl⟩

/-- With the time of day in range, `time.Date` keeps the clock reading and normalises the
date alone. -/
theorem timeDate_clock_in_range (year month day h mi se offset : ℤ)
    (hh : 0 ≤ h ∧ h ≤ 23) (hmi : 0 ≤ mi ∧ mi ≤ 59) (hse : 0 ≤ se ∧ se ≤ 59) :
    timeDate year month day h mi se offset =
      { timeDate year month day 0 0 0 0 with
        hour := h, minute := mi, second := se, offset := offset } := by
  have k1 : se / 60 = 0 := by omega
  have k2 : se % 60 = se := by omega
  have k3 : mi / 60 = 0 := by omega
  have k4 : mi % 60 = mi := by omega
  have k5 : h / 24 = 0 := by omega
  have k6 : h % 24 = h := by omega
  simp only [timeDate, norm, Int.zero_ediv, Int.zero_emod, add_zero, k1, k2, k3, k4, k5, k6]

/-- The renewal of a request whose time of day is in range (hour at most 23) rewrites the
date as a function of year, month and day alone. -/
theorem renew_date (s : spa) (hh : 0 ≤ s.hour ∧ s.hour ≤ 23)
    (hmi : 0 ≤ s.minute ∧ s.minute ≤ 59) (hs : 0 ≤ s.second ∧ s.second < 60) :
    (SetDate s (GetDate s)).year = (timeDate s.year s.month s.day 0 0 0 0).year ∧
    (SetDate s (GetDate s)).month = (timeDate s.year s.month s.day 0 0 0 0).month ∧
    (SetDate s (GetDate s)).day = (timeDate s.year s.month s.day 0 0 0 0).day := by
  have hsec : 0 ≤ goInt s.second ∧ goInt s.second ≤ 59 := by
    rw [goInt_of_nonneg _ hs.1]
    constructor
    · exact Int.floor_nonneg.mpr hs.1
    · have : ⌊s.second⌋ < 60 := by
        rw [Int.floor_lt]
        exact_mod_cast hs.2
      omega
  have e : GetDate s = { timeDate s.year s.month s.day 0 0 0 0 with
      hour := s.hour, minute := s.minute, second := goInt s.second,
      offset := goInt (s.timezone * 3600) } :=
    timeDate_clock_in_range _ _ _ _ _ _ _ hh hmi hsec
  rw [e]
  exact ⟨rfl, rfl, rfl⟩

/-- C34: the six rise/transit/set outputs of `calculateEotAndSunRiseTransitSet` are the same
on two states that agree on year, month, day, timezone, longitude, latitude, deltaT and
atmosRefract, whatever their hour, minute, second, deltaUt1, pressure, temperature,
elevation, slope and azmRotation; and so are the six outputs of two successful `Calculate`
calls on requests that pass validation with hour at most 23, select rise/transit/set and
agree on those eight fields. -/
theorem rts_depends_on_day_only (M : GoMath) (s t : spa)
    (hyear : s.year = t.year) (hmonth : s.month = t.month) (hday : s.day = t.day)
    (htimezone : s.timezone = t.timezone) (hlongitude : s.longitude = t.longitude)
    (hlatitude : s.latitude = t.latitude) (hdeltaT : s.deltaT = t.deltaT)
    (hatmosRefract : s.atmosRefract = t.atmosRefract) :
    ((calculateEotAndSunRiseTransitSet M s).srha =
        (calculateEotAndSunRiseTransitSet M t).srha ∧
      (calculateEotAndSunRiseTransitSet M s).ssha =
        (calculateEotAndSunRiseTransitSet M t).ssha ∧
      (calculateEotAndSunRiseTransitSet M s).sta =
        (calculateEotAndSunRiseTransitSet M t).sta ∧
      (calculateEotAndSunRiseTransitSet M s).suntransit =
        (calculateEotAndSunRiseTransitSet M t).suntransit ∧
      (calculateEotAndSunRiseTransitSet M s).sunrise =
        (calculateEotAndSunRiseTransitSet M t).sunrise ∧
      (calculateEotAndSunRiseTransitSet M s).sunset =
        (calculateEotAndSunRiseTransitSet M t).sunset) ∧
    (validate s = none → validate t = none → s.hour ≤ 23 → t.hour ≤ 23 →
      (s.function = SpaZaRts ∨ s.function = SpaAll) →
      (t.function = SpaZaRts ∨ t.function = SpaAll) →
      (Calculate M s).1 = none → (Calculate M t).1 = none →
      (Calculate M s).2.srha = (Calculate M t).2.srha ∧
      (Calculate M s).2.ssha = (Calculate M t).2.ssha ∧
      (Calculate M s).2.sta = (Calculate M t).2.sta ∧
      (Calculate M s).2.suntransit = (Calculate M t).2.suntransit ∧
      (Calculate M s).2.sunrise = (Calculate M t).2.sunrise ∧
      (Calculate M s).2.sunset = (Calculate M t).2.sunset) := by
  refine ⟨calculateEot_rts_congr M s t hyear hmonth hday hdeltaT hlongitude hlatitude
    htimezone hatmosRefract, ?_⟩
  intro hvs hvt hhs hht hfs hft hoks hokt
  rw [Calculate_fst] at hoks hokt
  rw [Calculate_snd_of_ok M s hoks, Calculate_snd_of_ok M t hokt]
  have bs := (validate_none_iff_bounds s).mp hvs
  have bt := (validate_none_iff_bounds t).mp hvt
  obtain ⟨rs_year, rs_month, rs_day⟩ :=
    renew_date s ⟨bs.2.2.2.1.1, hhs⟩ bs.2.2.2.2.1 bs.2.2.2.2.2.1
  obtain ⟨rt_year, rt_month, rt_day⟩ :=
    renew_date t ⟨bt.2.2.2.1.1, hht⟩ bt.2.2.2.2.1 bt.2.2.2.2.2.1
  have etz : (SetDate s (GetDate s)).timezone = (SetDate t (GetDate t)).timezone := by
    simp only [SetDate, GetDate, timeDate, htimezone]
  obtain ⟨ks_year, ks_month, ks_day, ks_hour, ks_minute, ks_second, ks_deltaUt1, ks_deltaT,
    ks_timezone, ks_longitude, ks_latitude, ks_elevation, ks_pressure, ks_temperature,
    ks_slope, ks_azmRotation, ks_atmosRefract, ks_function, ks_eot, ks_srha, ks_ssha, ks_sta,
    ks_mRts, ks_incidence, ks_suntransit, ks_sunrise, ks_sunset⟩ :=
    calculateTopocentric_keeps M (SetDate s (GetDate s))
  obtain ⟨kt_year, kt_month, kt_day, kt_hour, kt_minute, kt_second, kt_deltaUt1, kt_deltaT,
    kt_timezone, kt_longitude, kt_latitude, kt_elevation, kt_pressure, kt_temperature,
    kt_slope, kt_azmRotation, kt_atmosRefract, kt_function, kt_eot, kt_srha, kt_ssha, kt_sta,
    kt_mRts, kt_incidence, kt_suntransit, kt_sunrise, kt_sunset⟩ :=
    calculateTopocentric_keeps M (SetDate t (GetDate t))
  obtain ⟨ps_eot, ps_srha, ps_ssha, ps_sta, ps_suntransit, ps_sunrise, ps_sunset⟩ :=
    pipeline_rts M (SetDate s (GetDate s))
  obtain ⟨pt_eot, pt_srha, pt_ssha, pt_sta, pt_suntransit, pt_sunrise, pt_sunset⟩ :=
    pipeline_rts M (SetDate t (GetDate t))
  have hfs' : (SetDate s (GetDate s)).function = SpaZaRts ∨
      (SetDate s (GetDate s)).function = SpaAll := hfs
  have hft' : (SetDate t (GetDate t)).function = SpaZaRts ∨
      (SetDate t (GetDate t)).function = SpaAll := hft
  simp only [hfs', if_true] at ps_srha ps_ssha ps_sta ps_suntransit ps_sunrise ps_sunset
  simp only [hft', if_true] at pt_srha pt_ssha pt_sta pt_suntransit pt_sunrise pt_sunset
  have hc := calculateEot_rts_congr M (calculateTopocentric M (SetDate s (GetDate s)))
    (calculateTopocentric M (SetDate t (GetDate t)))
    (by rw [ks_year, kt_year, rs_year, rt_year, hyear, hmonth, hday])
    (by rw [ks_month, kt_month, rs_month, rt_month, hyear, hmonth, hday])
    (by rw [ks_day, kt_day, rs_day, rt_day, hyear, hmonth, hday])
    (by rw [ks_deltaT, kt_deltaT]; exact hdeltaT)
    (by rw [ks_longitude, kt_longitude]; exact hlongitude)
    (by rw [ks_latitude, kt_latitude]; exact hlatitude)
    (by rw [ks_timezone, kt_timezone]; exact etz)
    (by rw [ks_atmosRefract, kt_atmosRefract]; exact hatmosRefract)
  rw [ps_srha, ps_ssha, ps_sta, ps_suntransit, ps_sunrise, ps_sunset,
    pt_srha, pt_ssha, pt_sta, pt_suntransit, pt_sunrise, pt_sunset]
  exact hc

/-- Witness for C34: the reference request at 12:30:30 and the same request at 05:30:30
with another pressure and surface slope get the same sunrise. -/
theorem rts_depends_on_day_only_witness :
    (Calculate polyMath refSpa).2.sunrise =
      (Calculate polyMath { refSpa with hour := 5, pressure := 1000, slope := 0 }).2.sunrise := by
  have hv : validate { refSpa with hour := 5, pressure := 1000, slope := 0 } = none := by
    rw [validate_none_unfold]
    norm_num [refSpa, init, zeroSpa, SpaAll, SpaZaInc, lt_abs]
  have hren : SetDate { refSpa with hour := 5, pressure := 1000, slope := 0 }
      (GetDate { refSpa with hour := 5, pressure := 1000, slope := 0 }) =
      { refSpa with hour := 5, pressure := 1000, slope := 0 } := by
    have h1 : goInt (30 : ℚ) = 30 := by norm_num [goInt]
    have h3 : timeDate 2003 10 17 5 30 30 (-25200) = ⟨2003, 10, 17, 5, 30, 30, -25200⟩ := by
      decide
    have h4 : Int.tdiv (-25200) 3600 = -7 := by decide
    simp only [SetDate, GetDate, refSpa, init, zeroSpa, h1, goInt_tz_ref, h3, h4]
    norm_num
  have hok1 : (Calculate polyMath refSpa).1 = none := by
    rw [Calculate_fst, renew_refSpa]
    exact validate_refSpa
  have hok2 :
      (Calculate polyMath { refSpa with hour := 5, pressure := 1000, slope := 0 }).1 = none := by
    rw [Calculate_fst, hren]
    exact hv
  exact ((rts_depends_on_day_only polyMath refSpa
    { refSpa with hour := 5, pressure := 1000, slope := 0 }
    rfl rfl rfl rfl rfl rfl rfl rfl).2 validate_refSpa hv (by decide) (by decide)
    (Or.inr rfl) (Or.inr rfl) hok1 hok2).2.2.2.2.1

/-! ### float64 rounding at the edges of the reductions -/

/-- Evaluation of `float64` at a positive value of the binade [2^k, 2^(k+1)). -/
theorem float64_of_pos (x : ℚ) (k n : ℤ) (h0 : 0 < x) (h1 : (2 : ℚ) ^ k ≤ x)
    (h2 : x < (2 : ℚ) ^ (k + 1)) (hk : -1022 ≤ k)
    (hn : roundHalfEven (x / (2 : ℚ) ^ (k - 52)) = n) :
    float64 x = (n : ℚ) * (2 : ℚ) ^ (k - 52) := by
  have hlog : Int.log 2 |x| = k := by
    rw [abs_of_pos h0]
    have a1 : k ≤ Int.log 2 x :=
      (Int.zpow_le_iff_le_log (by norm_num) h0).mp (by exact_mod_cast h1)
    have a2 : Int.log 2 x < k + 1 :=
      (Int.lt_zpow_iff_log_lt (by norm_num) h0).mp (by exact_mod_cast h2)
    omega
  unfold float64
  rw [if_neg (ne_of_gt h0), hlog, max_eq_left hk, hn]

/-- Evaluation of `float64` at a negative value of the binade (-2^(k+1), -2^k]. -/
theorem float64_of_neg (x : ℚ) (k n : ℤ) (h0 : x < 0) (h1 : (2 : ℚ) ^ k ≤ -x)
    (h2 : -x < (2 : ℚ) ^ (k + 1)) (hk : -1022 ≤ k)
    (hn : roundHalfEven (x / (2 : ℚ) ^ (k - 52)) = n) :
    float64 x = (n : ℚ) * (2 : ℚ) ^ (k - 52) := by
  have hpos : 0 < -x := by linarith
  have hlog : Int.log 2 |x| = k := by
    rw [abs_of_neg h0]
    have a1 : k ≤ Int.log 2 (-x) :=
      (Int.zpow_le_iff_le_log (by norm_num) hpos).mp (by exact_mod_cast h1)
    have a2 : Int.log 2 (-x) < k + 1 :=
      (Int.lt_zpow_iff_log_lt (by norm_num) hpos).mp (by exact_mod_cast h2)
    omega
  unfold float64
  rw [if_neg (ne_of_lt h0), hlog, max_eq_left hk, hn]

theorem float64_zero : float64 0 = 0 := by
  unfold float64
  rw [if_pos rfl]

/-- C22, evaluated on the code: on the float64 value -2^-67 (about -6.8e-21)
`limitDegrees` returns exactly 360.  The quotient -2^-67/360 is a tiny negative number, its
floor is -1, and the difference 1 - 1.9e-23 rounds to 1, so `limited` is 360, which is not
below 0 and is returned.  The result is outside [0, 360), and a second application returns
0: the function is not idempotent there.  In exact arithmetic the result would be
360 - 2^-67.  The same happens at -1.0103029524088925e-14, the value of nu + longitude -
alpha that `observerHourAngle` passes for the request 2004-03-20 12:07:00 UT at longitude
0.09219791449085. -/
theorem limitDegrees64_full_turn :
    limitDegrees64 (-(1 / 2 ^ 67)) = 360 ∧
    ¬ (limitDegrees64 (-(1 / 2 ^ 67)) < 360) ∧
    limitDegrees64 (limitDegrees64 (-(1 / 2 ^ 67))) = 0 ∧
    limitDegrees64 (limitDegrees64 (-(1 / 2 ^ 67))) ≠ limitDegrees64 (-(1 / 2 ^ 67)) ∧
    limitDegrees (-(1 / 2 ^ 67)) = 360 - 1 / 2 ^ 67 ∧
    limitDegrees64 (-(91 / 2 ^ 53)) = 360 := by
  have e1 : float64 (-(1 / 2 ^ 67) / 360) = (-(6405119470038039 / 2 ^ 128)) :=
    (float64_of_neg (-(1 / 2 ^ 67) / 360) (-76) (-6405119470038039)
      (by norm_num) (by norm_num) (by norm_num) (by norm_num)
      (by norm_num [roundHalfEven])).trans (by norm_num)
  have e2 : float64 ((-(6405119470038039 / 2 ^ 128)) - (-1)) = 1 :=
    (float64_of_pos ((-(6405119470038039 / 2 ^ 128)) - (-1)) (-1) (9007199254740992)
      (by norm_num) (by norm_num) (by norm_num) (by norm_num)
      (by norm_num [roundHalfEven])).trans (by norm_num)
  have e3 : float64 (360 * 1) = 360 :=
    (float64_of_pos (360 * 1) (8) (6333186975989760)
      (by norm_num) (by norm_num) (by norm_num) (by norm_num)
      (by norm_num [roundHalfEven])).trans (by norm_num)
  have e4 : float64 (360 / 360) = 1 :=
    (float64_of_pos (360 / 360) (0) (4503599627370496)
      (by norm_num) (by norm_num) (by norm_num) (by norm_num)
      (by norm_num [roundHalfEven])).trans (by norm_num)
  have g1 : float64 ((-(91 / 2 ^ 53)) / 360) = (-(569204952903771 / 2 ^ 104)) :=
    (float64_of_neg ((-(91 / 2 ^ 53)) / 360) (-55) (-4553639623230168)
      (by norm_num) (by norm_num) (by norm_num) (by norm_num)
      (by norm_num [roundHalfEven])).trans (by norm_num)
  have g2 : float64 ((-(569204952903771 / 2 ^ 104)) - (-1)) = 1 :=
    (float64_of_pos ((-(569204952903771 / 2 ^ 104)) - (-1)) (-1) (9007199254740992)
      (by norm_num) (by norm_num) (by norm_num) (by norm_num)
      (by norm_num [roundHalfEven])).trans (by norm_num)
  have f1 : goFloor (-(6405119470038039 / 2 ^ 128)) = -1 := by
    norm_num [goFloor]
  have f2 : goFloor 1 = 1 := by
    norm_num [goFloor]
  have f3 : goFloor (-(569204952903771 / 2 ^ 104)) = -1 := by
    norm_num [goFloor]
  have a1 : limitDegrees64 (-(1 / 2 ^ 67)) = 360 := by
    unfold limitDegrees64
    simp only [e1, f1, e2, e3]
    norm_num
  have a2 : limitDegrees64 360 = 0 := by
    unfold limitDegrees64
    simp only [e4, f2, sub_self, float64_zero, mul_zero]
    norm_num
  have a3 : limitDegrees64 (-(91 / 2 ^ 53)) = 360 := by
    unfold limitDegrees64
    simp only [g1, f3, g2, e3]
    norm_num
  refine ⟨a1, ?_, ?_, ?_, ?_, a3⟩
  · rw [a1]
    norm_num
  · rw [a1, a2]
  · rw [a1, a2]
    norm_num
  · rw [limitDegrees_floor]
    have hf : ⌊(-(1 / 2 ^ 67) : ℚ) / 360⌋ = -1 := by
      rw [Int.floor_eq_iff]
      norm_num
    rw [hf]
    norm_num

/-- C10, evaluated on the code: `observerHourAngle` is `limitDegrees(nu + longitude - alpha)`
in float64.  For nu = 0.10945926317077899 and alpha = 0.2016571776616391 (the sidereal time
and right ascension of 2004-03-20 12:07:00 UT in a float64 evaluation of the pipeline) and
longitude 0.09219791449085 the rounded sum nu + longitude - alpha is -1.0103029524088925e-14,
and `limitDegrees` returns exactly 360 for it, so the hour angle h is outside [0, 360).  The
three arguments are written as the exact values of the float64 numbers. -/
theorem observerHourAngle64_full_turn :
    (0 ≤ ((7887371149250709 / 2 ^ 56) : ℚ) ∧ ((7887371149250709 / 2 ^ 56) : ℚ) < 360) ∧
    (0 ≤ ((3632732760694175 / 2 ^ 54) : ℚ) ∧ ((3632732760694175 / 2 ^ 54) : ℚ) < 360) ∧
    |((6643559893525263 / 2 ^ 56) : ℚ)| ≤ 180 ∧
    float64 (float64 ((7887371149250709 / 2 ^ 56) + (6643559893525263 / 2 ^ 56)) - (3632732760694175 / 2 ^ 54)) = (-(91 / 2 ^ 53)) ∧
    observerHourAngle64 (7887371149250709 / 2 ^ 56) (6643559893525263 / 2 ^ 56) (3632732760694175 / 2 ^ 54) = 360 ∧
    ¬ (observerHourAngle64 (7887371149250709 / 2 ^ 56) (6643559893525263 / 2 ^ 56) (3632732760694175 / 2 ^ 54) < 360) := by
  have e1 : float64 ((7887371149250709 / 2 ^ 56) + (6643559893525263 / 2 ^ 56)) = (3632732760693993 / 2 ^ 54) :=
    (float64_of_pos ((7887371149250709 / 2 ^ 56) + (6643559893525263 / 2 ^ 56)) (-3) (7265465521387986)
      (by norm_num) (by norm_num) (by norm_num) (by norm_num)
      (by norm_num [roundHalfEven])).trans (by norm_num)
  have e2 : float64 ((3632732760693993 / 2 ^ 54) - (3632732760694175 / 2 ^ 54)) = (-(91 / 2 ^ 53)) :=
    (float64_of_neg ((3632732760693993 / 2 ^ 54) - (3632732760694175 / 2 ^ 54)) (-47) (-6403555720167424)
      (by norm_num) (by norm_num) (by norm_num) (by norm_num)
      (by norm_num [roundHalfEven])).trans (by norm_num)
  have e3 : float64 ((-(91 / 2 ^ 53)) / 360) = (-(569204952903771 / 2 ^ 104)) :=
    (float64_of_neg ((-(91 / 2 ^ 53)) / 360) (-55) (-4553639623230168)
      (by norm_num) (by norm_num) (by norm_num) (by norm_num)
      (by norm_num [roundHalfEven])).trans (by norm_num)
  have e4 : float64 ((-(569204952903771 / 2 ^ 104)) - (-1)) = 1 :=
    (float64_of_pos ((-(569204952903771 / 2 ^ 104)) - (-1)) (-1) (9007199254740992)
      (by norm_num) (by norm_num) (by norm_num) (by norm_num)
      (by norm_num [roundHalfEven])).trans (by norm_num)
  have e5 : float64 (360 * 1) = 360 :=
    (float64_of_pos (360 * 1) (8) (6333186975989760)
      (by norm_num) (by norm_num) (by norm_num) (by norm_num)
      (by norm_num [roundHalfEven])).trans (by norm_num)
  have f1 : goFloor (-(569204952903771 / 2 ^ 104)) = -1 := by
    norm_num [goFloor]
  have a1 : observerHourAngle64 (7887371149250709 / 2 ^ 56) (6643559893525263 / 2 ^ 56) (3632732760694175 / 2 ^ 54) = 360 := by
    unfold observerHourAngle64 limitDegrees64
    simp only [e1, e2, e3, f1, e4, e5]
    norm_num
  refine ⟨by norm_num, by norm_num, ?_, ?_, a1, ?_⟩
  · rw [abs_of_pos (by norm_num)]
    norm_num
  · rw [e1, e2]
  · rw [a1]
    norm_num

/-- C20, evaluated on the code: for the float64 day fraction -2^-67 (about -6.8e-21) and
timezone 0, `limitZero2one` computes -2^-67 - floor(-2^-67) = 1 - 2^-67, which rounds to 1,
and `dayfracToLocalHr` returns exactly 24, outside [0, 24).  In exact arithmetic the result
would be 24 - 24*2^-67.  The same happens for the day fraction 0.49999999999999994 (the
float64 below 1/2: a transit just before local midnight) in timezone -12: the sum with
-12/24 is -2^-54, and the result is again exactly 24. -/
theorem dayfracToLocalHr64_full_day :
    limitZero2one64 (-(1 / 2 ^ 67)) = 1 ∧
    dayfracToLocalHr64 (-(1 / 2 ^ 67)) 0 = 24 ∧
    ¬ (dayfracToLocalHr64 (-(1 / 2 ^ 67)) 0 < 24) ∧
    dayfracToLocalHr (-(1 / 2 ^ 67)) 0 = 24 - 24 / 2 ^ 67 ∧
    dayfracToLocalHr64 (9007199254740991 / 2 ^ 54) (-12) = 24 ∧
    ¬ (dayfracToLocalHr64 (9007199254740991 / 2 ^ 54) (-12) < 24) := by
  have e0 : float64 (0 / 24) = 0 := by
    rw [show (0 / 24 : ℚ) = 0 by norm_num]
    exact float64_zero
  have e1 : float64 (-(1 / 2 ^ 67) + 0) = (-(1 / 2 ^ 67)) :=
    (float64_of_neg (-(1 / 2 ^ 67) + 0) (-67) (-4503599627370496)
      (by norm_num) (by norm_num) (by norm_num) (by norm_num)
      (by norm_num [roundHalfEven])).trans (by norm_num)
  have e2 : float64 ((-(1 / 2 ^ 67)) - (-1)) = 1 :=
    (float64_of_pos ((-(1 / 2 ^ 67)) - (-1)) (-1) (9007199254740992)
      (by norm_num) (by norm_num) (by norm_num) (by norm_num)
      (by norm_num [roundHalfEven])).trans (by norm_num)
  have e3 : float64 (24 * 1) = 24 :=
    (float64_of_pos (24 * 1) (4) (6755399441055744)
      (by norm_num) (by norm_num) (by norm_num) (by norm_num)
      (by norm_num [roundHalfEven])).trans (by norm_num)
  have k0 : float64 ((-12) / 24) = (-(1 / 2 ^ 1)) :=
    (float64_of_neg ((-12) / 24) (-1) (-4503599627370496)
      (by norm_num) (by norm_num) (by norm_num) (by norm_num)
      (by norm_num [roundHalfEven])).trans (by norm_num)
  have k1 : float64 ((9007199254740991 / 2 ^ 54) + (-(1 / 2 ^ 1))) = (-(1 / 2 ^ 54)) :=
    (float64_of_neg ((9007199254740991 / 2 ^ 54) + (-(1 / 2 ^ 1))) (-54) (-4503599627370496)
      (by norm_num) (by norm_num) (by norm_num) (by norm_num)
      (by norm_num [roundHalfEven])).trans (by norm_num)
  have k2 : float64 ((-(1 / 2 ^ 54)) - (-1)) = 1 :=
    (float64_of_pos ((-(1 / 2 ^ 54)) - (-1)) (-1) (9007199254740992)
      (by norm_num) (by norm_num) (by norm_num) (by norm_num)
      (by norm_num [roundHalfEven])).trans (by norm_num)
  have f1 : goFloor (-(1 / 2 ^ 67)) = -1 := by
    norm_num [goFloor]
  have f2 : goFloor (-(1 / 2 ^ 54)) = -1 := by
    norm_num [goFloor]
  have a0 : limitZero2one64 (-(1 / 2 ^ 67)) = 1 := by
    unfold limitZero2one64
    simp only [f1, e2]
    norm_num
  have a1 : dayfracToLocalHr64 (-(1 / 2 ^ 67)) 0 = 24 := by
    unfold dayfracToLocalHr64
    rw [e0, e1, a0, e3]
  have b0 : limitZero2one64 (-(1 / 2 ^ 54)) = 1 := by
    unfold limitZero2one64
    simp only [f2, k2]
    norm_num
  have b1 : dayfracToLocalHr64 (9007199254740991 / 2 ^ 54) (-12) = 24 := by
    unfold dayfracToLocalHr64
    rw [k0, k1, b0, e3]
  refine ⟨a0, a1, ?_, ?_, b1, ?_⟩
  · rw [a1]
    norm_num
  · unfold dayfracToLocalHr
    rw [limitZero2one_eq]
    have hf : ⌊(-(1 / 2 ^ 67) : ℚ) + 0 / 24⌋ = -1 := by
      rw [Int.floor_eq_iff]
      norm_num
    rw [hf]
    norm_num
  · rw [b1]
    norm_num

/-- C38, evaluated on the code: for the float64 nearest 25098/3600 hours (06:58:18, the
value 6.971666666666667, which is not below 25098 seconds) `calculateHourMinSec` returns
(6, 58, 17), that is 25097 seconds: 60*(x - 6) rounds to the float64 58.3, which is below
58.3, and 60*(58.3 - 58) rounds to 17.99999999999983, which `int` truncates to 17.  The
floor of 3600*decHours is 25098, both for the exact product and for the float64 product.
For the float64 nearest 0.15 (539.99999999999998 seconds) the result is (0, 9, 0), 540
seconds, one more than the floor of the exact product. -/
theorem calculateHourMinSec64_second_lost :
    float64 (25098 / 3600) = (7849398850537827 / 2 ^ 50) ∧
    (0 ≤ ((7849398850537827 / 2 ^ 50) : ℚ) ∧ ((7849398850537827 / 2 ^ 50) : ℚ) < 24) ∧
    calculateHourMinSec64 (7849398850537827 / 2 ^ 50) = (6, 58, 17) ∧
    ⌊(3600 : ℚ) * (7849398850537827 / 2 ^ 50)⌋ = 25098 ∧ ⌊float64 (3600 * (7849398850537827 / 2 ^ 50))⌋ = 25098 ∧
    float64 (15 / 100) = (5404319552844595 / 2 ^ 55) ∧
    calculateHourMinSec64 (5404319552844595 / 2 ^ 55) = (0, 9, 0) ∧
    ⌊(3600 : ℚ) * (5404319552844595 / 2 ^ 55)⌋ = 539 := by
  have a0 : float64 (25098 / 3600) = (7849398850537827 / 2 ^ 50) :=
    (float64_of_pos (25098 / 3600) (2) (7849398850537827)
      (by norm_num) (by norm_num) (by norm_num) (by norm_num)
      (by norm_num [roundHalfEven])).trans (by norm_num)
  have a1 : float64 ((7849398850537827 / 2 ^ 50) - ((6 : ℤ) : ℚ)) = (1093999409482083 / 2 ^ 50) :=
    (float64_of_pos ((7849398850537827 / 2 ^ 50) - ((6 : ℤ) : ℚ)) (-1) (8751995275856664)
      (by norm_num) (by norm_num) (by norm_num) (by norm_num)
      (by norm_num [roundHalfEven])).trans (by norm_num)
  have a2 : float64 (60 * (1093999409482083 / 2 ^ 50)) = (4102497785557811 / 2 ^ 46) :=
    (float64_of_pos (60 * (1093999409482083 / 2 ^ 50)) (5) (8204995571115622)
      (by norm_num) (by norm_num) (by norm_num) (by norm_num)
      (by norm_num [roundHalfEven])).trans (by norm_num)
  have a3 : float64 ((4102497785557811 / 2 ^ 46) - ((58 : ℤ) : ℚ)) = (21110623253299 / 2 ^ 46) :=
    (float64_of_pos ((4102497785557811 / 2 ^ 46) - ((58 : ℤ) : ℚ)) (-2) (5404319552844544)
      (by norm_num) (by norm_num) (by norm_num) (by norm_num)
      (by norm_num [roundHalfEven])).trans (by norm_num)
  have a4 : float64 (60 * (21110623253299 / 2 ^ 46)) = (316659348799485 / 2 ^ 44) :=
    (float64_of_pos (60 * (21110623253299 / 2 ^ 46)) (4) (5066549580791760)
      (by norm_num) (by norm_num) (by norm_num) (by norm_num)
      (by norm_num [roundHalfEven])).trans (by norm_num)
  have ag0 : goInt (7849398850537827 / 2 ^ 50) = 6 := by
    norm_num [goInt]
  have ag1 : goInt (4102497785557811 / 2 ^ 46) = 58 := by
    norm_num [goInt]
  have ag2 : goInt (316659348799485 / 2 ^ 44) = 17 := by
    norm_num [goInt]
  have afl : ⌊((7849398850537827 / 2 ^ 50) : ℚ)⌋ = 6 := by
    rw [Int.floor_eq_iff]
    norm_num
  have ha : calculateHourMinSec64 (7849398850537827 / 2 ^ 50) = (6, 58, 17) := by
    unfold calculateHourMinSec64
    simp only [ag0, a1, a2, ag1, a3, a4, ag2, afl]
  have a5 : float64 (3600 * (7849398850537827 / 2 ^ 50)) = 25098 :=
    (float64_of_pos (3600 * (7849398850537827 / 2 ^ 50)) (14) (6898885708480512)
      (by norm_num) (by norm_num) (by norm_num) (by norm_num)
      (by norm_num [roundHalfEven])).trans (by norm_num)
  have b0 : float64 (15 / 100) = (5404319552844595 / 2 ^ 55) :=
    (float64_of_pos (15 / 100) (-3) (5404319552844595)
      (by norm_num) (by norm_num) (by norm_num) (by norm_num)
      (by norm_num [roundHalfEven])).trans (by norm_num)
  have b1 : float64 ((5404319552844595 / 2 ^ 55) - ((0 : ℤ) : ℚ)) = (5404319552844595 / 2 ^ 55) :=
    (float64_of_pos ((5404319552844595 / 2 ^ 55) - ((0 : ℤ) : ℚ)) (-3) (5404319552844595)
      (by norm_num) (by norm_num) (by norm_num) (by norm_num)
      (by norm_num [roundHalfEven])).trans (by norm_num)
  have b2 : float64 (60 * (5404319552844595 / 2 ^ 55)) = 9 :=
    (float64_of_pos (60 * (5404319552844595 / 2 ^ 55)) (3) (5066549580791808)
      (by norm_num) (by norm_num) (by norm_num) (by norm_num)
      (by norm_num [roundHalfEven])).trans (by norm_num)
  have b3 : float64 (9 - ((9 : ℤ) : ℚ)) = 0 := by
    rw [show (9 - ((9 : ℤ) : ℚ) : ℚ) = 0 by norm_num]
    exact float64_zero
  have b4 : float64 (60 * 0) = 0 := by
    rw [show (60 * 0 : ℚ) = 0 by norm_num]
    exact float64_zero
  have bg0 : goInt (5404319552844595 / 2 ^ 55) = 0 := by
    norm_num [goInt]
  have bg1 : goInt 9 = 9 := by
    norm_num [goInt]
  have bg2 : goInt 0 = 0 := by
    norm_num [goInt]
  have bfl : ⌊((5404319552844595 / 2 ^ 55) : ℚ)⌋ = 0 := by
    rw [Int.floor_eq_iff]
    norm_num
  have hb : calculateHourMinSec64 (5404319552844595 / 2 ^ 55) = (0, 9, 0) := by
    unfold calculateHourMinSec64
    simp only [bg0, b1, b2, bg1, b3, b4, bg2, bfl]
  have p1 : ⌊(3600 : ℚ) * (7849398850537827 / 2 ^ 50)⌋ = 25098 := by
    rw [Int.floor_eq_iff]
    norm_num
  have p2 : ⌊float64 (3600 * (7849398850537827 / 2 ^ 50))⌋ = 25098 := by
    rw [a5, Int.floor_eq_iff]
    norm_num
  have p3 : ⌊(3600 : ℚ) * (5404319552844595 / 2 ^ 55)⌋ = 539 := by
    rw [Int.floor_eq_iff]
    norm_num
  exact ⟨a0, ⟨by norm_num, by norm_num⟩, ha, p1, p2, b0, hb, p3⟩

end Spa
